import Mathlib

/-!
# SYRTHES 4 coupling (`src/base/cs_syr4_coupling.c`): embedding and properties

The C module is embedded shallowly:

* `char *` values that may be `NULL` are `Option String`; fixed `char[33]`
  buffers are `List Char` (the NUL byte is `Char.ofNat 0`).
* `cs_real_t` / `double` / `float` values are elements of an arbitrary type `R`
  carrying the arithmetic operations the code applies to them, so that every
  statement holds whatever the floating-point operations compute.
* Heap arrays are `Option (List R)` (`none` is the `NULL` pointer); an access
  outside the allocated length is a memory fault.
* `bft_error` aborts the run: a routine that may call it returns an `Outcome`
  holding the state reached at the abort.
* Static variables of the module are the fields of `Globals`.
-/

namespace Syr4

/-! ## Data model -/

/-- Errors raised through `bft_error`, one constructor per call site, carrying
the values substituted in the message. -/
inductive Fatal where
  /-- Line 1138: no selection criteria for faces or cells to couple. -/
  | no_selection : Fatal
  /-- Line 1286: incompatible coupling options (`op_name_send`, `op_name_recv`). -/
  | incompatible_options (cs_options syr_options : List Char) : Fatal
  /-- Line 1346: message received from SYRTHES is unexpected (`op_name_recv`). -/
  | unexpected_message (received : List Char) : Fatal
  /-- Line 563: selection criteria lead to an empty mesh. -/
  | empty_mesh (select_criteria : String) : Fatal
  /-- Line 586: error projecting the extracted mesh. -/
  | projection_error : Fatal
  /-- Line 784: element centers not located (`n_exterior`, `coupled_mesh_name`). -/
  | not_located (n_exterior : Nat) (coupled_mesh_name : Option String) : Fatal
  deriving DecidableEq, Repr

/-- Result of a routine that may abort through `bft_error`. -/
inductive Outcome (σ : Type) where
  /-- Normal return with the final state. -/
  | ok : σ → Outcome σ
  /-- Abort: the error and the state at the time `bft_error` is called. -/
  | fatal : Fatal → σ → Outcome σ
  deriving DecidableEq, Repr

/-- The part of `ple_locator_t` the module reads back. -/
structure ple_locator_t where
  /-- Value of `ple_locator_get_n_dist_points`. -/
  n_dist_points : Nat
  /-- Value of `ple_locator_get_dist_locations` (1-based local numbers). -/
  dist_locations : List Int
  /-- Value of `ple_locator_get_n_exterior`. -/
  n_exterior : Nat
  deriving DecidableEq, Repr

/-- Embedding of `struct _cs_syr4_coupling_ent_t`. -/
structure cs_syr4_coupling_ent_t (R : Type) where
  locator : Option ple_locator_t
  elt_dim : Int
  n_elts : Nat
  /-- The extracted nodal mesh is external; only its presence is kept. -/
  elts : Bool
  post_mesh_id : Int
  solid_temp : Option (List R)
  flux : Option (List R)
  /-- The pointer `tfluid_tmp` is either `NULL` (`false`) or aliases `flux`. -/
  tfluid_tmp : Bool
  hvol : Option (List R)
  sol_temp : Option (List R)
  deriving DecidableEq, Repr

/-- Embedding of `struct _cs_syr4_coupling_t` (build with `HAVE_MPI`). -/
structure cs_syr4_coupling_t (R : Type) where
  dim : Int
  ref_axis : Int
  syr_name : Option String
  face_sel : Option String
  cell_sel : Option String
  faces : Option (cs_syr4_coupling_ent_t R)
  cells : Option (cs_syr4_coupling_ent_t R)
  verbosity : Int
  visualization : Int
  /-- Communicator handle; `none` is `MPI_COMM_NULL`. -/
  comm : Option Nat
  n_syr_ranks : Int
  syr_root_rank : Int
  deriving DecidableEq, Repr

/-- The static variables of the module. -/
structure Globals (R : Type) where
  cs_glob_syr4_n_couplings : Nat
  cs_glob_syr4_couplings : List (Option (cs_syr4_coupling_t R))
  cs_syr4_coupling_conservativity : Int
  cs_syr4_coupling_implicit : Int
  deriving DecidableEq, Repr

/-- Values of the static variables at program start (lines 161-170). -/
def Globals.start (R : Type) : Globals R :=
  { cs_glob_syr4_n_couplings := 0
    cs_glob_syr4_couplings := []
    cs_syr4_coupling_conservativity := 0
    cs_syr4_coupling_implicit := 1 }

/-! ## Registry -/

/-- `BFT_REALLOC` of an array of pointers to `n` entries: the entries kept are
unchanged, new entries hold no instance yet. -/
def BFT_REALLOC {α : Type} (p : List (Option α)) (n : Nat) : List (Option α) :=
  (p ++ List.replicate n none).take n

/-- `cs_syr4_coupling_n_couplings` (line 1051). -/
def cs_syr4_coupling_n_couplings {R : Type} (g : Globals R) : Int :=
  g.cs_glob_syr4_n_couplings

/-- `cs_syr4_coupling_by_id` (line 1067). -/
def cs_syr4_coupling_by_id {R : Type} (g : Globals R) (coupling_id : Int) :
    Option (cs_syr4_coupling_t R) :=
  if coupling_id > -1 ∧ coupling_id < (g.cs_glob_syr4_n_couplings : Int) then
    g.cs_glob_syr4_couplings.getD coupling_id.toNat none
  else
    none

/-- The structure filled by `cs_syr4_coupling_add` (lines 1107-1157). -/
def new_coupling (R : Type) (dim ref_axis : Int)
    (face_sel_criterion cell_sel_criterion syr_name : Option String)
    (verbosity visualization : Int) : cs_syr4_coupling_t R :=
  { dim := dim
    ref_axis := ref_axis
    syr_name := match syr_name with
      | some s => some s
      | none => some ""
    face_sel := face_sel_criterion
    cell_sel := cell_sel_criterion
    faces := none
    cells := none
    verbosity := verbosity
    visualization := visualization
    comm := none
    n_syr_ranks := 0
    syr_root_rank := -1 }

/-- `cs_syr4_coupling_add` (line 1092). The array is reallocated first; the
error test comes before the new entry and the count are written. -/
def cs_syr4_coupling_add {R : Type} (g : Globals R) (dim ref_axis : Int)
    (face_sel_criterion cell_sel_criterion syr_name : Option String)
    (verbosity visualization : Int) : Outcome (Globals R) :=
  let g1 : Globals R :=
    { g with cs_glob_syr4_couplings :=
        BFT_REALLOC g.cs_glob_syr4_couplings (g.cs_glob_syr4_n_couplings + 1) }
  if face_sel_criterion = none ∧ cell_sel_criterion = none then
    Outcome.fatal Fatal.no_selection g1
  else
    let syr_coupling := new_coupling R dim ref_axis face_sel_criterion
      cell_sel_criterion syr_name verbosity visualization
    Outcome.ok
      { g1 with
        cs_glob_syr4_couplings :=
          g1.cs_glob_syr4_couplings.set g.cs_glob_syr4_n_couplings (some syr_coupling)
        cs_glob_syr4_n_couplings := g.cs_glob_syr4_n_couplings + 1 }

/-- Arguments of one call of `cs_syr4_coupling_add`. -/
structure AddArgs where
  dim : Int
  ref_axis : Int
  face_sel_criterion : Option String
  cell_sel_criterion : Option String
  syr_name : Option String
  verbosity : Int
  visualization : Int
  deriving DecidableEq, Repr

/-- The instance a call with arguments `a` builds. -/
def AddArgs.built (R : Type) (a : AddArgs) : cs_syr4_coupling_t R :=
  new_coupling R a.dim a.ref_axis a.face_sel_criterion a.cell_sel_criterion
    a.syr_name a.verbosity a.visualization

/-- Successive calls of `cs_syr4_coupling_add`, stopping at the first abort. -/
def add_seq {R : Type} (g : Globals R) : List AddArgs → Outcome (Globals R)
  | [] => Outcome.ok g
  | a :: rest =>
    match cs_syr4_coupling_add g a.dim a.ref_axis a.face_sel_criterion
        a.cell_sel_criterion a.syr_name a.verbosity a.visualization with
    | Outcome.ok g1 => add_seq g1 rest
    | Outcome.fatal e g1 => Outcome.fatal e g1

/-! ## Volumetric source-term contribution -/

/-- Execution of a C loop run for a bounded number of steps. -/
inductive Exec (σ : Type) where
  /-- The function returned with this state. -/
  | returned : σ → Exec σ
  /-- An `assert` failed before the loop. -/
  | assert_failed : σ → Exec σ
  /-- Iteration `index` accessed an array outside its allocated length; the
  state is the one at the start of that iteration. -/
  | out_of_bounds (index : Nat) : σ → Exec σ
  /-- Still executing, about to test the loop condition at `index`, when the
  step budget ran out. -/
  | running (index : Nat) : σ → Exec σ
  deriving DecidableEq, Repr

/-- The two caller-supplied output arrays of `cs_syr4_coupling_ts_contrib`. -/
structure TsArrays (R : Type) where
  ctbimp : List R
  ctbexp : List R
  deriving DecidableEq, Repr

/-- Body of the explicit-treatment loop (lines 1641-1642). -/
def ts_body_explicit {R : Type} [Zero R] [Neg R] [Sub R] [Mul R]
    (hvol solid_temp tf : List R) (i : Nat) (a : TsArrays R) : Option (TsArrays R) :=
  match hvol[i]?, tf[i]?, solid_temp[i]? with
  | some h, some t, some s =>
    if i < a.ctbexp.length ∧ i < a.ctbimp.length then
      some { ctbexp := a.ctbexp.set i ((-h) * (t - s)), ctbimp := a.ctbimp.set i 0 }
    else
      none
  | _, _, _ => none

/-- Body of the implicit-treatment loop (lines 1649-1650). -/
def ts_body_implicit {R : Type} [Mul R]
    (hvol solid_temp : List R) (i : Nat) (a : TsArrays R) : Option (TsArrays R) :=
  match hvol[i]?, solid_temp[i]? with
  | some h, some s =>
    if i < a.ctbexp.length ∧ i < a.ctbimp.length then
      some { ctbexp := a.ctbexp.set i (h * s), ctbimp := a.ctbimp.set i h }
    else
      none
  | _, _ => none

/-- The loop `for (i = 0; ent->n_elts; i++) body` (lines 1640 and 1648), started
at index `i`: the continuation test is the element count itself. -/
def ts_loop {R : Type} (n_elts : Nat) (body : Nat → TsArrays R → Option (TsArrays R)) :
    Nat → Nat → TsArrays R → Exec (TsArrays R)
  | 0, i, a => Exec.running i a
  | fuel + 1, i, a =>
    if n_elts ≠ 0 then
      match body i a with
      | some a1 => ts_loop n_elts body fuel (i + 1) a1
      | none => Exec.out_of_bounds i a
    else
      Exec.returned a

/-- `cs_syr4_coupling_ts_contrib` (line 1613), run for at most `fuel` loop tests. -/
def cs_syr4_coupling_ts_contrib {R : Type} [Zero R] [Neg R] [Sub R] [Mul R]
    (g : Globals R) (syr_coupling : cs_syr4_coupling_t R) (tf : List R)
    (a : TsArrays R) (fuel : Nat) : Exec (TsArrays R) :=
  match syr_coupling.cells with
  | none => Exec.assert_failed a
  | some ent =>
    match ent.hvol, ent.sol_temp with
    | some hvol, some solid_temp =>
      if g.cs_syr4_coupling_implicit = 0 then
        ts_loop ent.n_elts (ts_body_explicit hvol solid_temp tf) fuel 0 a
      else
        ts_loop ent.n_elts (ts_body_implicit hvol solid_temp) fuel 0 a
    | _, _ => Exec.assert_failed a

/-- `cs_syr4_coupling_set_explicit_treatment` (line 1232). -/
def cs_syr4_coupling_set_explicit_treatment {R : Type} (g : Globals R) : Globals R :=
  { g with cs_syr4_coupling_implicit := 0 }

/-- `cs_syr4_coupling_set_conservativity` (line 1222). -/
def cs_syr4_coupling_set_conservativity {R : Type} (g : Globals R) (flag : Int) : Globals R :=
  { g with cs_syr4_coupling_conservativity := flag }

/-- The contribution of section 4.5 of the design, as a bounded loop over the
element count: the values the claims expect at indices `0 .. n_elts - 1`. -/
def ts_contrib_spec {R : Type} [Zero R] [Neg R] [Sub R] [Mul R]
    (implicit_mode : Bool) (hvol solid_temp tf : List R) : TsArrays R :=
  if implicit_mode then
    { ctbexp := List.zipWith (fun h s => h * s) hvol solid_temp
      ctbimp := hvol }
  else
    { ctbexp := List.zipWith (fun h d => (-h) * d) hvol
        (List.zipWith (fun t s => t - s) tf solid_temp)
      ctbimp := hvol.map (fun _ => 0) }

/-- A volumetric coupling whose cell entity holds the given persisted arrays. -/
def volume_coupling (R : Type) (n_elts : Nat) (hvol sol_temp : List R) :
    cs_syr4_coupling_t R :=
  { new_coupling R 3 0 none (some "all[]") (some "solid") 0 0 with
    cells := some
      { locator := none
        elt_dim := 3
        n_elts := n_elts
        elts := true
        post_mesh_id := 0
        solid_temp := none
        flux := none
        tfluid_tmp := false
        hvol := some hvol
        sol_temp := some sol_temp } }

/-! ## Handshake tokens -/

/-- The terminating byte of a C string. -/
def NUL : Char := Char.ofNat 0

/-- The C string held in a buffer: the characters before the first NUL. -/
def cstr (buf : List Char) : List Char :=
  buf.takeWhile (fun c => c ≠ NUL)

/-- `strcmp`: `none` when the comparison would read past the end of one of the
two buffers before reaching a difference or a terminator. -/
def strcmp : List Char → List Char → Option Int
  | a :: s, b :: t =>
    if a ≠ b then some ((a.toNat : Int) - (b.toNat : Int))
    else if a = NUL then some 0
    else strcmp s t
  | _, _ => none

/-- `strncpy (dst, src, n)`: the first `n` characters of the string in `src`,
padded with NUL up to `n`; the rest of `dst` is untouched. -/
def strncpy (dst src : List Char) (n : Nat) : List Char :=
  ((cstr src).take n ++ List.replicate (n - ((cstr src).take n).length) NUL) ++ dst.drop n

/-- `strcpy (dst, src)` for a string literal `src` written over `dst`. -/
def strcpy (dst src : List Char) : List Char :=
  (src ++ [NUL]) ++ dst.drop (src.length + 1)

/-- The literal `"coupling:start"`. -/
def coupling_start : List Char :=
  ['c', 'o', 'u', 'p', 'l', 'i', 'n', 'g', ':', 's', 't', 'a', 'r', 't']

/-- The literal prefix `"coupling:type:"` of the negotiation token. -/
def coupling_type : List Char :=
  ['c', 'o', 'u', 'p', 'l', 'i', 'n', 'g', ':', 't', 'y', 'p', 'e', ':']

/-- `sprintf (buf, "coupling:type:%c%c%c", b, v, c)`: the formatted text and its
terminator overwrite the start of `buf`. -/
def sprintf_type (buf : List Char) (b v c : Char) : List Char :=
  strcpy buf (coupling_type ++ [b, v, c])

/-- Build-time and process-wide MPI facts. -/
structure MpiEnv where
  /-- Whether the module is compiled with `HAVE_MPI`. -/
  HAVE_MPI : Bool
  /-- Value written by `MPI_Initialized`. -/
  mpi_flag : Bool
  cs_glob_rank_id : Int
  cs_glob_n_ranks : Int
  /-- Communicator made by `ple_coupling_mpi_intracomm_create`. -/
  intracomm : Nat
  /-- Value of `distant_range` after `ple_coupling_mpi_intracomm_create`. -/
  distant_range : Int × Int
  deriving DecidableEq, Repr

/-- MPI operations issued by the process, in program order. -/
inductive MpiCall where
  | intracomm_create (syr_root_rank : Int) : MpiCall
  | sendrecv (message : List Char) (peer : Int) : MpiCall
  | send (message : List Char) (peer : Int) : MpiCall
  | recv (peer : Int) : MpiCall
  | bcast (root : Int) : MpiCall
  deriving DecidableEq, Repr

/-- What the other processes deliver during one `_exchange_sync`. -/
structure Incoming where
  /-- The 32 characters sent by the SYRTHES root rank. -/
  from_syrthes : List Char
  /-- The 32 characters broadcast by the local rank 0. -/
  from_root : List Char
  deriving DecidableEq, Repr

/-- Content of the two `char[33]` stack arrays before they are written. -/
structure TokenStack where
  op_name_send : List Char
  op_name_recv : List Char
  deriving DecidableEq, Repr

/-- A receive of at most 32 characters into `buf`. -/
def mpi_store (buf message : List Char) : List Char :=
  message.take 32 ++ buf.drop (message.take 32).length

/-- The 32 characters `_exchange_sync` puts on the wire for `op_name_send`
(lines 269-271): `strncpy` into the local array `_op_name_send`, whose prior
content `local_buf` is overwritten, then a terminator at index 32. -/
def wire_message_from (local_buf op_name_send : List Char) : List Char :=
  ((strncpy local_buf op_name_send 32).set 32 NUL).take 32

/-- See `wire_message_from`; the first 32 entries of the local array are all
written, so its prior content is taken to be NUL bytes. -/
def wire_message (op_name_send : List Char) : List Char :=
  wire_message_from (List.replicate 33 NUL) op_name_send

/-- `_init_comm` (line 184) in a `HAVE_MPI` build. -/
def _init_comm {R : Type} (env : MpiEnv) (syr_coupling : cs_syr4_coupling_t R) :
    cs_syr4_coupling_t R × List MpiCall :=
  if env.mpi_flag = false then
    (syr_coupling, [])
  else
    ({ syr_coupling with
        comm := some env.intracomm
        n_syr_ranks := env.distant_range.2 - env.distant_range.1
        syr_root_rank := env.distant_range.1 },
     [MpiCall.intracomm_create syr_coupling.syr_root_rank])

/-- `_exchange_sync` (line 256): the receive buffer afterwards and the MPI
operations issued. -/
def _exchange_sync {R : Type} (env : MpiEnv) (syr_coupling : cs_syr4_coupling_t R)
    (net : Incoming) (op_name_send op_name_recv : Option (List Char)) :
    Option (List Char) × List MpiCall :=
  if env.HAVE_MPI = false then
    (op_name_recv, [])
  else
    let leader : Option (List Char) × List MpiCall :=
      if env.cs_glob_rank_id < 1 then
        match op_name_send, op_name_recv with
        | some s, some r =>
          (some (mpi_store r net.from_syrthes),
           [MpiCall.sendrecv (wire_message s) syr_coupling.syr_root_rank])
        | some s, none =>
          (none,
           [MpiCall.send (wire_message s) syr_coupling.syr_root_rank])
        | none, some r =>
          (some (mpi_store r net.from_syrthes), [MpiCall.recv syr_coupling.syr_root_rank])
        | none, none => (none, [])
      else
        (op_name_recv, [])
    match leader.1 with
    | some r =>
      if env.cs_glob_rank_id > -1 then
        let r1 := if env.cs_glob_rank_id = 0 then r else mpi_store r net.from_root
        (some (r1.set 32 NUL), leader.2 ++ [MpiCall.bcast 0])
      else
        (some r, leader.2)
    | none => (none, leader.2)

/-- The three flag characters of the negotiation token (lines 1256-1274). -/
def boundary_flag {R : Type} (syr_coupling : cs_syr4_coupling_t R) : Char :=
  if syr_coupling.face_sel ≠ none then 'b' else ' '

/-- See `boundary_flag`. -/
def volume_flag {R : Type} (syr_coupling : cs_syr4_coupling_t R) : Char :=
  if syr_coupling.cell_sel ≠ none then 'v' else ' '

/-- See `boundary_flag`. -/
def conservativity_flag {R : Type} (g : Globals R) : Char :=
  if g.cs_syr4_coupling_conservativity = 0 then '0' else '1'

/-- The buffer `op_name_send` after the `sprintf` of line 1276. -/
def init_comm_token {R : Type} (g : Globals R) (syr_coupling : cs_syr4_coupling_t R)
    (stack : TokenStack) : List Char :=
  sprintf_type stack.op_name_send (boundary_flag syr_coupling) (volume_flag syr_coupling)
    (conservativity_flag g)

/-- Result of a handshake step: the instance and the MPI operations issued. -/
structure Step (R : Type) where
  coupling : cs_syr4_coupling_t R
  calls : List MpiCall
  deriving DecidableEq, Repr

/-- Result of a routine that compares C strings and may abort. -/
inductive Handshake (R : Type) where
  | ok : Step R → Handshake R
  | fatal : Fatal → Step R → Handshake R
  /-- An `assert` failed or a string comparison left its buffer. -/
  | fault : Step R → Handshake R
  deriving DecidableEq, Repr

/-- `cs_syr4_coupling_init_comm` (line 1248). -/
def cs_syr4_coupling_init_comm {R : Type} (env : MpiEnv) (g : Globals R)
    (syr_coupling : cs_syr4_coupling_t R) (syr_root_rank n_syr_ranks : Int)
    (net : Incoming) (stack : TokenStack) : Handshake R :=
  if env.HAVE_MPI = false then
    Handshake.ok { coupling := syr_coupling, calls := [] }
  else
    let c0 : cs_syr4_coupling_t R :=
      { syr_coupling with n_syr_ranks := n_syr_ranks, syr_root_rank := syr_root_rank }
    let c1 := _init_comm env c0
    let op_name_send := init_comm_token g c1.1 stack
    let x := _exchange_sync env c1.1 net (some op_name_send) (some stack.op_name_recv)
    let st : Step R := { coupling := c1.1, calls := c1.2 ++ x.2 }
    match x.1 with
    | none => Handshake.fault st
    | some r =>
      let op_name_recv := r.set 16 (op_name_send.getD 16 NUL)
      match strcmp op_name_recv op_name_send with
      | none => Handshake.fault st
      | some d =>
        if d ≠ 0 then
          Handshake.fatal (Fatal.incompatible_options (cstr op_name_send) (cstr op_name_recv)) st
        else
          Handshake.ok st

/-! ## Coupled entities and mesh initialisation -/

/-- Results of the external collaborators (selector, nodal mesh, post-processing,
locator, parallel counters) during one call of `_create_coupled_ent`. -/
structure MeshOracle (R : Type) where
  /-- Number of elements returned by `cs_selector_get_cell_list` or
  `cs_selector_get_b_face_list`. -/
  n_selected : Nat
  /-- Value of `fvm_nodal_get_n_g_vertices` for the extracted mesh. -/
  n_g_vertices : Nat
  /-- Error count written by `fvm_nodal_project`. -/
  n_errors : Int
  /-- Value of `cs_post_writer_exists (-1)`. -/
  writer_exists : Bool
  /-- Value of `cs_post_get_free_mesh_id ()`. -/
  free_mesh_id : Int
  /-- The locator after `ple_locator_set_mesh`. -/
  located : ple_locator_t
  /-- Exterior points counted by the other ranks, added by `fvm_parall_counter`. -/
  n_exterior_other_ranks : Nat
  /-- Content of freshly allocated memory: allocation number, then index. -/
  heap : Nat → Nat → R

/-- Modelled from the spec: `BFT_MALLOC` (declared in `bft_mem.h`, which is not
among the sources) yields an array of `n` entries with arbitrary content, and
no array when `n = 0` (buffers are non-null whenever the count is positive). -/
def BFT_MALLOC {R : Type} (n : Nat) (content : Nat → R) : Option (List R) :=
  if n = 0 then none else some ((List.range n).map content)

/-- `_post_init` (line 374); the registration of the mesh and of the output
function with the post-processing subsystem is external. -/
def _post_init {R : Type} (coupling_ent : cs_syr4_coupling_ent_t R) (o : MeshOracle R) :
    cs_syr4_coupling_ent_t R :=
  if o.writer_exists ≠ true then
    coupling_ent
  else
    let e1 : cs_syr4_coupling_ent_t R :=
      { coupling_ent with post_mesh_id := o.free_mesh_id, solid_temp := none, flux := none }
    let e2 : cs_syr4_coupling_ent_t R :=
      if e1.n_elts > 0 then
        { e1 with
          solid_temp := BFT_MALLOC e1.n_elts (o.heap 2)
          flux := BFT_MALLOC e1.n_elts (o.heap 3) }
      else e1
    { e2 with tfluid_tmp := false }

/-- Lines 473-555 of `_create_coupled_ent`: the entity after the extraction of
the coupled elements. -/
def extracted_ent {R : Type} (syr_coupling : cs_syr4_coupling_t R) (elt_dim : Int)
    (o : MeshOracle R) : cs_syr4_coupling_ent_t R :=
  let e0 : cs_syr4_coupling_ent_t R :=
    { locator := none, elt_dim := elt_dim, n_elts := 0, elts := false, post_mesh_id := 0
      solid_temp := none, flux := none, tfluid_tmp := false, hvol := none, sol_temp := none }
  if elt_dim = syr_coupling.dim then
    { e0 with
      n_elts := o.n_selected
      elts := true
      hvol := BFT_MALLOC o.n_selected (o.heap 0)
      sol_temp := BFT_MALLOC o.n_selected (o.heap 1) }
  else if elt_dim = syr_coupling.dim - 1 then
    { e0 with n_elts := o.n_selected, elts := true }
  else e0

/-- Lines 619-670 of `_create_coupled_ent`: the entity after the optional
initialisation of post-processing and the creation of the locator. -/
def located_ent {R : Type} (syr_coupling : cs_syr4_coupling_t R) (elt_dim : Int)
    (o : MeshOracle R) : cs_syr4_coupling_ent_t R :=
  let e1 := extracted_ent syr_coupling elt_dim o
  let e2 := if syr_coupling.visualization ≠ 0 then _post_init e1 o else e1
  { e2 with locator := some o.located }

/-- `_create_coupled_ent` (line 452). On abort the entity built so far is
returned with the error. The text argument of the last error is the variable
`coupled_mesh_name`, which `BFT_FREE` has reset to the null pointer at line 517
or 553. -/
def _create_coupled_ent {R : Type} (syr_coupling : cs_syr4_coupling_t R)
    (select_criteria : String) (elt_dim : Int) (o : MeshOracle R) :
    Outcome (cs_syr4_coupling_ent_t R) :=
  if o.n_g_vertices = 0 then
    Outcome.fatal (Fatal.empty_mesh select_criteria) (extracted_ent syr_coupling elt_dim o)
  else if syr_coupling.dim = 2 ∧ o.n_errors > 0 then
    Outcome.fatal Fatal.projection_error (extracted_ent syr_coupling elt_dim o)
  else
    let n_exterior := o.located.n_exterior + o.n_exterior_other_ranks
    if n_exterior ≠ 0 then
      Outcome.fatal (Fatal.not_located n_exterior none) (located_ent syr_coupling elt_dim o)
    else
      Outcome.ok (located_ent syr_coupling elt_dim o)

/-- Lines 1325-1328 of `cs_syr4_coupling_init_mesh`: the surface entity. -/
def init_mesh_faces {R : Type} (syr_coupling : cs_syr4_coupling_t R)
    (face_oracle : MeshOracle R) : Outcome (cs_syr4_coupling_t R) :=
  match syr_coupling.face_sel with
  | some sel =>
    match _create_coupled_ent syr_coupling sel (syr_coupling.dim - 1) face_oracle with
    | Outcome.ok e => Outcome.ok { syr_coupling with faces := some e }
    | Outcome.fatal err _ => Outcome.fatal err syr_coupling
  | none => Outcome.ok syr_coupling

/-- Lines 1330-1334 of `cs_syr4_coupling_init_mesh`: the volume entity. -/
def init_mesh_cells {R : Type} (syr_coupling : cs_syr4_coupling_t R)
    (cell_oracle : MeshOracle R) : Outcome (cs_syr4_coupling_t R) :=
  match syr_coupling.cell_sel with
  | some sel =>
    match _create_coupled_ent syr_coupling sel syr_coupling.dim cell_oracle with
    | Outcome.ok e => Outcome.ok { syr_coupling with cells := some e }
    | Outcome.fatal err _ => Outcome.fatal err syr_coupling
  | none => Outcome.ok syr_coupling

/-- Lines 1341-1355 of `cs_syr4_coupling_init_mesh`: the exchange of the
`coupling:start` message and the test of the message received. -/
def init_mesh_start {R : Type} (env : MpiEnv) (syr_coupling : cs_syr4_coupling_t R)
    (net : Incoming) (stack : TokenStack) : Handshake R :=
  let op_name_send := strcpy stack.op_name_send coupling_start
  let x := _exchange_sync env syr_coupling net (some op_name_send) (some stack.op_name_recv)
  let st : Step R := { coupling := syr_coupling, calls := x.2 }
  match x.1 with
  | none => Handshake.fault st
  | some op_name_recv =>
    match strcmp op_name_recv (coupling_start ++ [NUL]) with
    | none => Handshake.fault st
    | some d =>
      if d ≠ 0 then Handshake.fatal (Fatal.unexpected_message (cstr op_name_recv)) st
      else Handshake.ok st

/-- `cs_syr4_coupling_init_mesh` (line 1308). -/
def cs_syr4_coupling_init_mesh {R : Type} (env : MpiEnv)
    (syr_coupling : cs_syr4_coupling_t R) (face_oracle cell_oracle : MeshOracle R)
    (net : Incoming) (stack : TokenStack) : Handshake R :=
  if ¬ (syr_coupling.dim = 3 ∨ syr_coupling.dim = 2) then
    Handshake.fault { coupling := syr_coupling, calls := [] }
  else
    match init_mesh_faces syr_coupling face_oracle with
    | Outcome.fatal err c => Handshake.fatal err { coupling := c, calls := [] }
    | Outcome.ok c1 =>
      match init_mesh_cells c1 cell_oracle with
      | Outcome.fatal err c => Handshake.fatal err { coupling := c, calls := [] }
      | Outcome.ok c2 => init_mesh_start env c2 net stack

/-- The oracle values with which `_create_coupled_ent` reaches its return for
a coupling of dimension `dim`: a non-empty extracted mesh, no projection error
when `dim` is 2, and no exterior point on any rank. -/
def located_ok {R : Type} (dim : Int) (o : MeshOracle R) : Prop :=
  o.n_g_vertices ≠ 0 ∧ ¬ (dim = 2 ∧ o.n_errors > 0) ∧
    o.located.n_exterior + o.n_exterior_other_ranks = 0

/-- The 32 characters that reach `op_name_recv` on this rank: sent by SYRTHES
on the leader (rank id below 1), broadcast by rank 0 on the others. -/
def delivered (env : MpiEnv) (net : Incoming) : List Char :=
  if env.cs_glob_rank_id < 1 then net.from_syrthes else net.from_root

/-- The value `-hvol[i] * (tf[i] - solid_temp[i])` of line 1641, for an index
inside the three arrays. -/
def explicit_value {R : Type} [Neg R] [Sub R] [Mul R]
    (hvol solid_temp tf : List R) (i : Nat) : Option R :=
  match hvol[i]?, tf[i]?, solid_temp[i]? with
  | some h, some t, some s => some ((-h) * (t - s))
  | _, _, _ => none

/-- The value `hvol[i] * solid_temp[i]` of line 1649, for an index inside the
two arrays. -/
def implicit_value {R : Type} [Mul R] (hvol solid_temp : List R) (i : Nat) : Option R :=
  match hvol[i]?, solid_temp[i]? with
  | some h, some s => some (h * s)
  | _, _ => none

/-! ## Steady-state exchange -/

/-- Single-precision arithmetic on values held in `R`: the post-processing
arrays `solid_temp` and `flux` are `float` arrays, the exchanged variables are
`double` arrays. A `float` value is used as a `double` without change. -/
structure SinglePrecision (R : Type) where
  /-- Conversion of a `double` to `float`, as done when storing into a `float`
  array. -/
  narrow : R → R
  /-- Difference of two `float` values, computed in `float`. -/
  fsub : R → R → R

/-- The loop `for (ii = start; ii < start + count; ii++) a[ii] = f (ii, a[ii])`,
where `f` may read other arrays; `none` when an access leaves an array. -/
def update_loop {R : Type} (f : Nat → R → Option R) : Nat → Nat → List R → Option (List R)
  | 0, _, a => some a
  | k + 1, i, a =>
    match a[i]? with
    | none => none
    | some old =>
      match f i old with
      | none => none
      | some v => update_loop f k (i + 1) (a.set i v)

/-- `_post_var_update` (line 912); `none` when an `assert` fails or an access
leaves an array. -/
def _post_var_update {R : Type} [Mul R] (fp : SinglePrecision R)
    (coupling_ent : cs_syr4_coupling_ent_t R) (step : Int) (var : List R) :
    Option (cs_syr4_coupling_ent_t R) :=
  if coupling_ent.post_mesh_id = 0 then
    some coupling_ent
  else
    match coupling_ent.solid_temp, coupling_ent.flux with
    | some solid_temp, some flux =>
      if step = 0 then
        (update_loop (fun ii _ => (var[ii]?).map fp.narrow) coupling_ent.n_elts 0
          solid_temp).map
          fun st => { coupling_ent with solid_temp := some st }
      else if step = 1 then
        (update_loop (fun ii _ => (var[ii]?).map fp.narrow) coupling_ent.n_elts 0 flux).map
          fun fl => { coupling_ent with flux := some fl, tfluid_tmp := true }
      else if step = 2 then
        if coupling_ent.tfluid_tmp = true then
          (update_loop
            (fun ii old =>
              match var[ii]?, solid_temp[ii]? with
              | some v, some st => some (fp.narrow (v * fp.fsub st old))
              | _, _ => none)
            coupling_ent.n_elts 0 flux).map
            fun fl => { coupling_ent with flux := some fl, tfluid_tmp := false }
        else
          none
      else
        none
    | _, _ => none

/-- Calls of `ple_locator_exchange_point_var`. -/
inductive LocatorCall (R : Type) where
  /-- Reception of one scalar per local point into the caller's array. -/
  | receive : LocatorCall R
  /-- Emission of the interleaved buffer `send_var`, two scalars per point. -/
  | send (send_var : List R) : LocatorCall R
  deriving DecidableEq, Repr

/-- The entity selected by `mode`: faces for 0, cells otherwise. -/
def coupling_ent_of {R : Type} (syr_coupling : cs_syr4_coupling_t R) (mode : Int) :
    Option (cs_syr4_coupling_ent_t R) :=
  if mode = 0 then syr_coupling.faces else syr_coupling.cells

/-- The instance after the entity selected by `mode` has been modified in place. -/
def with_coupling_ent {R : Type} (syr_coupling : cs_syr4_coupling_t R) (mode : Int)
    (coupling_ent : cs_syr4_coupling_ent_t R) : cs_syr4_coupling_t R :=
  if mode = 0 then { syr_coupling with faces := some coupling_ent }
  else { syr_coupling with cells := some coupling_ent }

/-- What `cs_syr4_coupling_recv_tsolid` leaves: the instance, the caller's
array and the locator calls made. -/
structure RecvRun (R : Type) where
  coupling : cs_syr4_coupling_t R
  tsolid : List R
  calls : List (LocatorCall R)
  deriving DecidableEq, Repr

/-- Lines 1510-1520 of `cs_syr4_coupling_recv_tsolid`: the update of the
entity from the values received. -/
def recv_tsolid_update {R : Type} [Mul R] (fp : SinglePrecision R)
    (coupling_ent : cs_syr4_coupling_ent_t R) (tsolid : List R) (mode : Int) :
    Option (cs_syr4_coupling_ent_t R) :=
  if coupling_ent.n_elts > 0 then
    match _post_var_update fp coupling_ent 0 tsolid with
    | none => none
    | some e1 =>
      if mode = 1 then
        match e1.sol_temp with
        | none => none
        | some sol_temp =>
          (update_loop (fun i _ => tsolid[i]?) e1.n_elts 0 sol_temp).map
            fun so => { e1 with sol_temp := some so }
      else
        some e1
  else
    some coupling_ent

/-- `cs_syr4_coupling_recv_tsolid` (line 1481). `tsolid` is the caller's array
before the call and `arrived` its content once the locator has written the
values received; `none` when an `assert` fails or an access leaves an array. -/
def cs_syr4_coupling_recv_tsolid {R : Type} [Mul R] (fp : SinglePrecision R)
    (syr_coupling : cs_syr4_coupling_t R) (tsolid arrived : List R) (mode : Int) :
    Option (RecvRun R) :=
  if ¬ (mode = 0 ∨ mode = 1) then
    none
  else
    match coupling_ent_of syr_coupling mode with
    | none => some { coupling := syr_coupling, tsolid := tsolid, calls := [] }
    | some coupling_ent =>
      match coupling_ent.locator with
      | none => none
      | some _ =>
        (recv_tsolid_update fp coupling_ent arrived mode).map
          fun e =>
            { coupling := with_coupling_ent syr_coupling mode e
              tsolid := arrived
              calls := [LocatorCall.receive] }

/-- The loop of lines 1568-1571, from index `ii` for `count` iterations:
`send_var[ii*2] = tf[dist_loc[ii] - 1]; send_var[ii*2 + 1] = hf[dist_loc[ii] - 1]`. -/
def gather_loop {R : Type} (tf hf : List R) (dist_loc : List Int) :
    Nat → Nat → List R → Option (List R)
  | 0, _, send_var => some send_var
  | k + 1, ii, send_var =>
    match dist_loc[ii]? with
    | none => none
    | some loc =>
      if loc - 1 < 0 then
        none
      else
        match tf[(loc - 1).toNat]?, hf[(loc - 1).toNat]? with
        | some t, some h =>
          if ii * 2 + 1 < send_var.length then
            gather_loop tf hf dist_loc k (ii + 1) ((send_var.set (ii * 2) t).set (ii * 2 + 1) h)
          else
            none
        | _, _ => none

/-- Lines 1561-1571 of `cs_syr4_coupling_send_tf_hf`: the buffer `send_var`
passed to the locator. `fresh` is the content of the memory returned by
`BFT_MALLOC`. -/
def send_tf_hf_gather {R : Type} (locator : ple_locator_t) (tf hf : List R)
    (fresh : Nat → R) : Option (List R) :=
  gather_loop tf hf locator.dist_locations locator.n_dist_points 0
    ((BFT_MALLOC (locator.n_dist_points * 2) fresh).getD [])

/-- Lines 1583-1593 of `cs_syr4_coupling_send_tf_hf`: the update of the entity
from the values sent. -/
def send_tf_hf_update {R : Type} [Mul R] (fp : SinglePrecision R)
    (coupling_ent : cs_syr4_coupling_ent_t R) (tf hf : List R) (mode : Int) :
    Option (cs_syr4_coupling_ent_t R) :=
  if coupling_ent.n_elts > 0 then
    match _post_var_update fp coupling_ent 1 tf with
    | none => none
    | some e1 =>
      match _post_var_update fp e1 2 hf with
      | none => none
      | some e2 =>
        if mode = 1 then
          match e2.hvol with
          | none => none
          | some hvol =>
            (update_loop (fun ii _ => hf[ii]?) e2.n_elts 0 hvol).map
              fun hv => { e2 with hvol := some hv }
        else
          some e2
  else
    some coupling_ent

/-- Values supplied from outside to `_ensure_conservativity`. -/
structure FluxEnv (R : Type) where
  /-- The array `cs_glob_mesh_quantities->b_face_surf`. -/
  b_face_surf : Option (List R)
  /-- The sum that `MPI_Reduce` leaves in `g_flux` on rank 0. -/
  reduced : R
  /-- The corrector coefficient sent by SYRTHES. -/
  coef : R

/-- MPI operations issued by `_ensure_conservativity`, in program order. -/
inductive FluxCall (R : Type) where
  | reduce (local_flux : R) : FluxCall R
  | send (g_flux : R) (peer : Int) : FluxCall R
  | recv (peer : Int) : FluxCall R
  deriving DecidableEq, Repr

/-- The local variables of `_ensure_conservativity` at its end and the MPI
operations it issued. -/
structure ConsRun (R : Type) where
  _flux : R
  g_flux : R
  coef : R
  calls : List (FluxCall R)
  deriving DecidableEq, Repr

/-- The loop of lines 989-992, from index `ii` for `count` iterations:
`_flux += flux[ii] * surf[coupl_face_list[ii] - 1]`. -/
def flux_sum_loop {R : Type} [Add R] [Mul R] (flux surf : List R)
    (coupl_face_list : List Int) : Nat → Nat → R → Option R
  | 0, _, acc => some acc
  | k + 1, ii, acc =>
    match coupl_face_list[ii]?, flux[ii]? with
    | some face, some fl =>
      if face - 1 < 0 then
        none
      else
        match surf[(face - 1).toNat]? with
        | some sf => flux_sum_loop flux surf coupl_face_list k (ii + 1) (acc + fl * sf)
        | none => none
    | _, _ => none

/-- `_ensure_conservativity` (line 968); `none` when an `assert` fails or an
access leaves an array. -/
def _ensure_conservativity {R : Type} [Zero R] [Add R] [Mul R] (env : MpiEnv)
    (fenv : FluxEnv R) (syr_coupling : cs_syr4_coupling_t R)
    (coupl_face_list : Option (List Int)) : Option (ConsRun R) :=
  match fenv.b_face_surf, coupl_face_list, syr_coupling.faces with
  | some surf, some face_list, some coupling_ent =>
    match flux_sum_loop (coupling_ent.flux.getD []) surf face_list coupling_ent.n_elts 0 0 with
    | none => none
    | some _flux =>
      let reduced : R × List (FluxCall R) :=
        if env.HAVE_MPI = true ∧ env.cs_glob_n_ranks > 1 then
          (if env.cs_glob_rank_id = 0 then fenv.reduced else 0, [FluxCall.reduce _flux])
        else
          (0, [])
      let g_flux : R := if env.cs_glob_n_ranks = 1 then _flux else reduced.1
      if env.HAVE_MPI = true ∧ env.cs_glob_rank_id < 1 then
        some
          { _flux := _flux, g_flux := g_flux, coef := fenv.coef
            calls := reduced.2 ++ [FluxCall.send g_flux syr_coupling.syr_root_rank,
              FluxCall.recv syr_coupling.syr_root_rank] }
      else
        some { _flux := _flux, g_flux := g_flux, coef := 0, calls := reduced.2 }
  | _, _, _ => none

/-- What `cs_syr4_coupling_send_tf_hf` leaves: the instance, the locator calls
made and, when `_ensure_conservativity` was called, what that call did (`none`
inside when it stopped on a failed `assert` or a bad access). -/
structure SendRun (R : Type) where
  coupling : cs_syr4_coupling_t R
  calls : List (LocatorCall R)
  conservativity : Option (Option (ConsRun R))
  deriving DecidableEq, Repr

/-- `cs_syr4_coupling_send_tf_hf` (line 1535); `none` when an `assert` fails or
an access leaves an array before the end of the function is reached. -/
def cs_syr4_coupling_send_tf_hf {R : Type} [Zero R] [Add R] [Mul R]
    (fp : SinglePrecision R) (env : MpiEnv) (fenv : FluxEnv R) (g : Globals R)
    (syr_coupling : cs_syr4_coupling_t R) (cpl_elt_lst : Option (List Int))
    (tf hf : List R) (mode : Int) (fresh : Nat → R) : Option (SendRun R) :=
  if ¬ (mode = 0 ∨ mode = 1) then
    none
  else
    match coupling_ent_of syr_coupling mode with
    | none => some { coupling := syr_coupling, calls := [], conservativity := none }
    | some coupling_ent =>
      match coupling_ent.locator with
      | none => none
      | some locator =>
        match send_tf_hf_gather locator tf hf fresh with
        | none => none
        | some send_var =>
          match send_tf_hf_update fp coupling_ent tf hf mode with
          | none => none
          | some e =>
            let c1 := with_coupling_ent syr_coupling mode e
            if g.cs_syr4_coupling_conservativity > 0 ∧ mode = 0 then
              some
                { coupling := c1, calls := [LocatorCall.send send_var]
                  conservativity := some (_ensure_conservativity env fenv c1 cpl_elt_lst) }
            else
              some
                { coupling := c1, calls := [LocatorCall.send send_var]
                  conservativity := none }

/-- The locator of the entity is present, lists one location per distant
point, and every location is a local element number from 1 to `n_elts`. -/
def locator_in_range {R : Type} (ent : cs_syr4_coupling_ent_t R) : Prop :=
  ∃ loc, ent.locator = some loc ∧ loc.dist_locations.length = loc.n_dist_points ∧
    ∀ l ∈ loc.dist_locations, 1 ≤ l ∧ l ≤ (ent.n_elts : Int)

/-- When post-processing is active on a non-empty entity, its two `float`
arrays are allocated with `n_elts` entries (lines 407-410). -/
def post_buffers_ok {R : Type} (ent : cs_syr4_coupling_ent_t R) : Prop :=
  ent.post_mesh_id ≠ 0 → 0 < ent.n_elts →
    ∃ st fl, ent.solid_temp = some st ∧ st.length = ent.n_elts ∧
      ent.flux = some fl ∧ fl.length = ent.n_elts

/-- The two arrays of a non-empty volumetric entity are allocated with
`n_elts` entries (lines 521-522). -/
def volume_buffers_ok {R : Type} (ent : cs_syr4_coupling_ent_t R) : Prop :=
  0 < ent.n_elts →
    ∃ hv so, ent.hvol = some hv ∧ hv.length = ent.n_elts ∧
      ent.sol_temp = some so ∧ so.length = ent.n_elts

/-- The value line 947 stores in `flux[j]`, from the coefficient `var[j]`, the
stored solid temperature and the fluid temperature held by `flux[j]`. -/
def flux_value {R : Type} [Mul R] (fp : SinglePrecision R) (var solid_temp : List R)
    (j : Nat) (old : R) : Option R :=
  match var[j]?, solid_temp[j]? with
  | some v, some st => some (fp.narrow (v * fp.fsub st old))
  | _, _ => none

/-- The entity has what the steady-state exchange in mode `mode` relies on:
a locator with locations in range and the arrays allocated at its creation. -/
def ready_for {R : Type} (ent : cs_syr4_coupling_ent_t R) (mode : Int) : Prop :=
  locator_in_range ent ∧ post_buffers_ok ent ∧ (mode = 1 → volume_buffers_ok ent)

/-! ## Teardown -/

/-- Output written by `_all_comm_times` and `cs_syr4_coupling_all_destroy`, one
constructor per call site. -/
inductive LogCall where
  /-- Lines 809-810: the empty line and the separator of the performance log. -/
  | log_separator : LogCall
  /-- Line 812: the title `SYRTHES 4 coupling overheads`. -/
  | log_overheads : LogCall
  /-- Lines 830-837: the title of one entity, with the name of the coupling (or
  its number when the name is null) and the entity type. -/
  | log_entity (syr_name : Option String) (number : Nat) (ent_type : String) : LogCall
  /-- Line 851: the four times read from the locator of the entity. -/
  | log_times (locator : Option ple_locator_t) : LogCall
  /-- Line 1210: `Structures associated with SYRTHES 4 coupling freed.` -/
  | printf_freed : LogCall
  deriving DecidableEq, Repr

/-- Releases made by `_destroy_coupled_ent` (line 874), one constructor per
call site. -/
inductive EntFree where
  /-- `ple_locator_destroy` (line 882). -/
  | locator_destroy : EntFree
  /-- `BFT_FREE (ce->solid_temp)` (line 885). -/
  | free_solid_temp : EntFree
  /-- `BFT_FREE (ce->flux)` (line 887). -/
  | free_flux : EntFree
  /-- `BFT_FREE (ce->hvol)` (line 890). -/
  | free_hvol : EntFree
  /-- `BFT_FREE (ce->sol_temp)` (line 893). -/
  | free_sol_temp : EntFree
  /-- `fvm_nodal_destroy (ce->elts)` (line 896). -/
  | nodal_destroy : EntFree
  /-- `BFT_FREE (*coupling_ent)` (line 898). -/
  | free_ent : EntFree
  deriving DecidableEq, Repr

/-- Memory and communicator releases made by `cs_syr4_coupling_all_destroy`,
tagged with the index of the instance. -/
inductive FreeCall where
  /-- `BFT_FREE (syr_coupling->syr_name)` (line 1187). -/
  | free_syr_name (i_coupl : Nat) : FreeCall
  /-- `BFT_FREE (syr_coupling->face_sel)` (line 1190). -/
  | free_face_sel (i_coupl : Nat) : FreeCall
  /-- `BFT_FREE (syr_coupling->cell_sel)` (line 1192). -/
  | free_cell_sel (i_coupl : Nat) : FreeCall
  /-- `_destroy_coupled_ent` on `faces` (`ent_id` 0, line 1195) or on `cells`
  (`ent_id` 1, line 1197), with the releases it makes. -/
  | destroy_coupled_ent (i_coupl ent_id : Nat) (frees : List EntFree) : FreeCall
  /-- `MPI_Comm_free` in `_finalize_comm` (line 239). -/
  | comm_free (i_coupl : Nat) (comm : Nat) : FreeCall
  /-- `BFT_FREE (syr_coupling)` (line 1203). -/
  | free_coupling (i_coupl : Nat) : FreeCall
  deriving DecidableEq, Repr

/-- The index of the instance a release belongs to. -/
def FreeCall.i_coupl : FreeCall → Nat
  | FreeCall.free_syr_name i => i
  | FreeCall.free_face_sel i => i
  | FreeCall.free_cell_sel i => i
  | FreeCall.destroy_coupled_ent i _ _ => i
  | FreeCall.comm_free i _ => i
  | FreeCall.free_coupling i => i

/-- `_destroy_coupled_ent` (line 874) on the entity a pointer holds: each
member that is not null is released, then the structure. -/
def _destroy_coupled_ent {R : Type} (coupling_ent : Option (cs_syr4_coupling_ent_t R)) :
    List EntFree :=
  match coupling_ent with
  | none => []
  | some ce =>
    (if ce.locator.isSome then [EntFree.locator_destroy] else [])
    ++ (if ce.solid_temp.isSome then [EntFree.free_solid_temp] else [])
    ++ (if ce.flux.isSome then [EntFree.free_flux] else [])
    ++ (if ce.hvol.isSome then [EntFree.free_hvol] else [])
    ++ (if ce.sol_temp.isSome then [EntFree.free_sol_temp] else [])
    ++ (if ce.elts = true then [EntFree.nodal_destroy] else [])
    ++ [EntFree.free_ent]

/-- Body of the inner loop of `_all_comm_times` (lines 821-859) for one entity. -/
def ent_comm_times {R : Type} (syr_coupling : cs_syr4_coupling_t R) (coupl_id ent_id : Nat) :
    List LogCall :=
  match (if ent_id = 0 then syr_coupling.faces else syr_coupling.cells) with
  | none => []
  | some ce =>
    [LogCall.log_entity syr_coupling.syr_name (coupl_id + 1)
        (if ent_id = 0 then "surface" else "volume"),
      LogCall.log_times ce.locator]

/-- The outer loop of `_all_comm_times` (line 815), from index `coupl_id` for
`count` iterations; `none` when an entry of the array holds no instance. -/
def comm_times_loop {R : Type} (couplings : List (Option (cs_syr4_coupling_t R))) :
    Nat → Nat → Option (List LogCall)
  | 0, _ => some []
  | k + 1, coupl_id =>
    match couplings.getD coupl_id none with
    | none => none
    | some syr_coupling =>
      (comm_times_loop couplings k (coupl_id + 1)).map
        fun rest => ent_comm_times syr_coupling coupl_id 0
          ++ ent_comm_times syr_coupling coupl_id 1 ++ rest

/-- `_all_comm_times` (line 800). -/
def _all_comm_times {R : Type} (g : Globals R) : Option (List LogCall) :=
  if g.cs_glob_syr4_n_couplings = 0 then
    some []
  else
    (comm_times_loop g.cs_glob_syr4_couplings g.cs_glob_syr4_n_couplings 0).map
      fun l => [LogCall.log_separator, LogCall.log_overheads] ++ l

/-- Body of the loop of `cs_syr4_coupling_all_destroy` (lines 1182-1203) for the
instance of index `i_coupl`. -/
def destroy_coupling {R : Type} (syr_coupling : cs_syr4_coupling_t R) (i_coupl : Nat) :
    List FreeCall :=
  (if syr_coupling.syr_name ≠ none then [FreeCall.free_syr_name i_coupl] else [])
  ++ (if syr_coupling.face_sel ≠ none then [FreeCall.free_face_sel i_coupl] else [])
  ++ (if syr_coupling.cell_sel ≠ none then [FreeCall.free_cell_sel i_coupl] else [])
  ++ (match syr_coupling.faces with
      | some ce =>
        [FreeCall.destroy_coupled_ent i_coupl 0 (_destroy_coupled_ent (some ce))]
      | none => [])
  ++ (match syr_coupling.cells with
      | some ce =>
        [FreeCall.destroy_coupled_ent i_coupl 1 (_destroy_coupled_ent (some ce))]
      | none => [])
  ++ (match syr_coupling.comm with
      | some comm => [FreeCall.comm_free i_coupl comm]
      | none => [])
  ++ [FreeCall.free_coupling i_coupl]

/-- The loop of `cs_syr4_coupling_all_destroy` (line 1180), from index `i_coupl`
for `count` iterations; `none` when an entry of the array holds no instance. -/
def destroy_loop {R : Type} (couplings : List (Option (cs_syr4_coupling_t R))) :
    Nat → Nat → Option (List FreeCall)
  | 0, _ => some []
  | k + 1, i_coupl =>
    match couplings.getD i_coupl none with
    | none => none
    | some syr_coupling =>
      (destroy_loop couplings k (i_coupl + 1)).map
        fun rest => destroy_coupling syr_coupling i_coupl ++ rest

/-- What `cs_syr4_coupling_all_destroy` leaves: the static variables, the
output written and the releases made, in program order. -/
structure Teardown (R : Type) where
  globals : Globals R
  log : List LogCall
  freed : List FreeCall
  deriving DecidableEq, Repr

/-- `cs_syr4_coupling_all_destroy` (line 1169); `none` when an entry of the
array below the count holds no instance, which the loops dereference. -/
def cs_syr4_coupling_all_destroy {R : Type} (g : Globals R) : Option (Teardown R) :=
  if g.cs_glob_syr4_n_couplings = 0 then
    some { globals := g, log := [], freed := [] }
  else
    match _all_comm_times g,
      destroy_loop g.cs_glob_syr4_couplings g.cs_glob_syr4_n_couplings 0 with
    | some times, some freed =>
      some
        { globals := { g with cs_glob_syr4_n_couplings := 0, cs_glob_syr4_couplings := [] }
          log := times ++ [LogCall.printf_freed]
          freed := freed }
    | _, _ => none

/-- One call on the registry: an addition with its arguments, or the teardown. -/
inductive RegistryCall where
  | add (a : AddArgs) : RegistryCall
  | all_destroy : RegistryCall
  deriving DecidableEq, Repr

/-- The state in which a routine that may abort leaves the program. -/
def Outcome.state {σ : Type} : Outcome σ → σ
  | Outcome.ok s => s
  | Outcome.fatal _ s => s

/-- Successive calls of `cs_syr4_coupling_add` and `cs_syr4_coupling_all_destroy`,
stopping at the first abort; `none` when the teardown dereferences a missing
instance. -/
def registry_run {R : Type} (g : Globals R) : List RegistryCall → Option (Outcome (Globals R))
  | [] => some (Outcome.ok g)
  | RegistryCall.add a :: rest =>
    match cs_syr4_coupling_add g a.dim a.ref_axis a.face_sel_criterion
        a.cell_sel_criterion a.syr_name a.verbosity a.visualization with
    | Outcome.ok g1 => registry_run g1 rest
    | Outcome.fatal e g1 => some (Outcome.fatal e g1)
  | RegistryCall.all_destroy :: rest =>
    match cs_syr4_coupling_all_destroy g with
    | some t => registry_run t.globals rest
    | none => none

/-- Every index below the count holds an instance. -/
def registry_filled {R : Type} (g : Globals R) : Prop :=
  ∀ i : Nat, i < g.cs_glob_syr4_n_couplings →
    ∃ c, g.cs_glob_syr4_couplings.getD i none = some c

/-- The releases `frees` made for the entity `ce` are those of the members it
holds: the locator, each of the four arrays and the nodal mesh are released
exactly when present, and the structure itself is released. -/
def ent_released {R : Type} (ce : cs_syr4_coupling_ent_t R) (frees : List EntFree) : Prop :=
  (EntFree.locator_destroy ∈ frees ↔ ce.locator ≠ none) ∧
  (EntFree.free_solid_temp ∈ frees ↔ ce.solid_temp ≠ none) ∧
  (EntFree.free_flux ∈ frees ↔ ce.flux ≠ none) ∧
  (EntFree.free_hvol ∈ frees ↔ ce.hvol ≠ none) ∧
  (EntFree.free_sol_temp ∈ frees ↔ ce.sol_temp ≠ none) ∧
  (EntFree.nodal_destroy ∈ frees ↔ ce.elts = true) ∧
  EntFree.free_ent ∈ frees

/-- Every index below the count holds an instance with at least one of its two
selection criteria. -/
def registry_selected {R : Type} (g : Globals R) : Prop :=
  ∀ i : Nat, i < g.cs_glob_syr4_n_couplings →
    ∃ c, g.cs_glob_syr4_couplings.getD i none = some c ∧
      (c.face_sel ≠ none ∨ c.cell_sel ≠ none)

/-! ## Queries -/

/-- `cs_syr4_coupling_is_surf` (line 1369). -/
def cs_syr4_coupling_is_surf {R : Type} (syr_coupling : cs_syr4_coupling_t R) : Int :=
  match syr_coupling.faces with
  | some _ => 1
  | none => 0

/-- `cs_syr4_coupling_is_vol` (line 1392). -/
def cs_syr4_coupling_is_vol {R : Type} (syr_coupling : cs_syr4_coupling_t R) : Int :=
  match syr_coupling.cells with
  | some _ => 1
  | none => 0

/-- `cs_syr4_coupling_get_n_elts` (line 1416); `none` when the `assert` on
`mode` fails. -/
def cs_syr4_coupling_get_n_elts {R : Type} (syr_coupling : cs_syr4_coupling_t R)
    (mode : Int) : Option Int :=
  if ¬ (mode = 0 ∨ mode = 1) then
    none
  else
    match coupling_ent_of syr_coupling mode with
    | some coupling_ent => some (coupling_ent.n_elts : Int)
    | none => some 0

/-- Whether an MPI operation is a point-to-point exchange with the partner. -/
def MpiCall.point_to_point : MpiCall → Bool
  | MpiCall.sendrecv _ _ => true
  | MpiCall.send _ _ => true
  | MpiCall.recv _ => true
  | _ => false

/-- Whether an MPI operation is the broadcast among the local processes. -/
def MpiCall.broadcast : MpiCall → Bool
  | MpiCall.bcast _ => true
  | _ => false

/-- The term `flux[ii] * surf[coupl_face_list[ii] - 1]` of line 991, for
indices inside the three arrays. -/
def flux_term {R : Type} [Zero R] [Mul R] (flux surf : List R) (coupl_face_list : List Int)
    (ii : Nat) : R :=
  flux.getD ii 0 * surf.getD (coupl_face_list.getD ii 0 - 1).toNat 0

/-! ## Projection to 2D -/

/-- The nodal meshes `_create_coupled_ent` handles: the extracted mesh held by
the entity (`coupling_ent->elts`) and the result of `fvm_nodal_copy`. -/
inductive NodalMesh where
  | extracted : NodalMesh
  | copied : NodalMesh
  deriving DecidableEq, Repr

/-- Operations of `_create_coupled_ent` from line 571 on that take the
extracted mesh or its copy through the variable `location_elts` or through
`fvm_nodal_project`. -/
inductive NodalCall (R : Type) where
  /-- `fvm_nodal_project` (line 583). -/
  | project (mesh : NodalMesh) (ref_axis : Int) : NodalCall R
  /-- `fvm_nodal_copy` (line 594), whose result is `NodalMesh.copied`. -/
  | copy (mesh : NodalMesh) : NodalCall R
  /-- `fvm_nodal_project_coords` (line 606) with the matrix `a`. -/
  | project_coords (mesh : NodalMesh) (a : List R) : NodalCall R
  /-- `fvm_nodal_get_element_centers` (line 653). -/
  | get_element_centers (mesh : NodalMesh) : NodalCall R
  /-- `ple_locator_set_mesh` (line 661). -/
  | locator_set_mesh (mesh : NodalMesh) : NodalCall R
  /-- `fvm_nodal_destroy` (line 791). -/
  | destroy (mesh : NodalMesh) : NodalCall R
  deriving DecidableEq, Repr

/-- The array `a` after lines 596-604. `stack_a` is the content of the local
array before, which stays when `ref_axis` is none of 0, 1 and 2. -/
def projection_matrix {R : Type} [Zero R] [One R] (stack_a : List R) (ref_axis : Int) :
    List R :=
  if ref_axis = 0 then [0, 1, 0, 0, 0, 1]
  else if ref_axis = 1 then [1, 0, 0, 0, 0, 1]
  else if ref_axis = 2 then [1, 0, 0, 0, 1, 0]
  else stack_a

/-- Modelled from the spec: `fvm_nodal_project_coords` (declared in
`fvm_nodal_project.h`, which is not among the sources) replaces the three
coordinates of a vertex by the product of the 2×3 matrix, stored by rows in an
array of six values, with them. -/
def project_coords {R : Type} [Add R] [Mul R] (a : List R) (x : R × R × R) : Option (R × R) :=
  match a with
  | [a0, a1, a2, a3, a4, a5] =>
    some (a0 * x.1 + a1 * x.2.1 + a2 * x.2.2, a3 * x.1 + a4 * x.2.1 + a5 * x.2.2)
  | _ => none

/-- Lines 571-607 of `_create_coupled_ent`, reached with a non-empty extracted
mesh: the mesh left in `location_elts` and the operations on nodal meshes. -/
def project_location_elts {R : Type} [Zero R] [One R] (syr_coupling : cs_syr4_coupling_t R)
    (stack_a : List R) (o : MeshOracle R) : Outcome (NodalMesh × List (NodalCall R)) :=
  if syr_coupling.dim = 2 then
    if o.n_errors > 0 then
      Outcome.fatal Fatal.projection_error
        (NodalMesh.extracted, [NodalCall.project NodalMesh.extracted syr_coupling.ref_axis])
    else
      Outcome.ok
        (NodalMesh.copied,
         [NodalCall.project NodalMesh.extracted syr_coupling.ref_axis,
          NodalCall.copy NodalMesh.extracted,
          NodalCall.project_coords NodalMesh.copied
            (projection_matrix stack_a syr_coupling.ref_axis)])
  else
    Outcome.ok (NodalMesh.extracted, [])

/-- Lines 645-670 and 790-791 of `_create_coupled_ent`: the operations on the
mesh in `location_elts` for an entity of `n_elts` elements whose centers are
all located. -/
def locate_elts_calls (R : Type) (location_elts : NodalMesh) (n_elts : Nat) :
    List (NodalCall R) :=
  (if n_elts > 0 then [NodalCall.get_element_centers location_elts] else [])
  ++ [NodalCall.locator_set_mesh location_elts]
  ++ (if location_elts ≠ NodalMesh.extracted then [NodalCall.destroy location_elts] else [])

/-! ## Concrete inputs -/

/-- The three calls used as a concrete instance of C3. -/
def three_adds : List AddArgs :=
  [ { dim := 3, ref_axis := 0, face_sel_criterion := some "wall", cell_sel_criterion := none
      syr_name := some "solid_a", verbosity := 0, visualization := 1 },
    { dim := 2, ref_axis := 2, face_sel_criterion := none, cell_sel_criterion := some "box"
      syr_name := none, verbosity := 1, visualization := 0 },
    { dim := 3, ref_axis := 1, face_sel_criterion := some "inlet"
      cell_sel_criterion := some "all", syr_name := some "solid_c", verbosity := 2
      visualization := 0 } ]

/-- The arrays of the worked example of the design: coefficients, solid
temperatures and fluid temperatures of two cells. -/
def example_coupling : cs_syr4_coupling_t Int :=
  volume_coupling Int 2 [2, 3] [100, 50]

/-- Output arrays of two entries as supplied by the caller. -/
def example_arrays : TsArrays Int :=
  { ctbimp := [7, 7], ctbexp := [9, 9] }

/-- A volumetric coupling with a single coupled cell. -/
def single_cell_coupling : cs_syr4_coupling_t Int :=
  volume_coupling Int 1 [5] [20]

/-- The leader process (rank 0 of two) of a `HAVE_MPI` run. -/
def leader_env : MpiEnv :=
  { HAVE_MPI := true, mpi_flag := true, cs_glob_rank_id := 0, cs_glob_n_ranks := 2
    intracomm := 1, distant_range := (2, 3) }

/-- A surface-only coupling as registered by `cs_syr4_coupling_add`. -/
def face_coupling : cs_syr4_coupling_t Int :=
  new_coupling Int 3 0 (some "wall") none (some "solid") 0 0

/-- Two `char[33]` stack arrays holding leftover bytes. -/
def used_stack : TokenStack :=
  { op_name_send := List.replicate 33 '#', op_name_recv := List.replicate 33 '?' }

/-- A partner message equal to the local surface-only token, its terminator,
and a stray character at position 20. -/
def stray_after_terminator : Incoming :=
  { from_syrthes := coupling_type ++ ['b', ' ', '0', NUL, NUL, NUL, 'x']
      ++ List.replicate 11 NUL
    from_root := List.replicate 32 NUL }

/-- A partner message announcing volume coupling only. -/
def volume_only_message : Incoming :=
  { from_syrthes := coupling_type ++ [' ', 'v', '0'] ++ List.replicate 15 NUL
    from_root := List.replicate 32 NUL }

/-- A partner message with a 16-character string, then a terminator at the
conservativity position and a stray character at position 17. -/
def short_string_message : Incoming :=
  { from_syrthes := coupling_type ++ ['b', ' ', NUL, 'x'] ++ List.replicate 14 NUL
    from_root := List.replicate 32 NUL }

/-- Oracle of a located surface of four faces; three points of the partner
are located on them. -/
def four_faces_oracle : MeshOracle Int :=
  { n_selected := 4, n_g_vertices := 9, n_errors := 0, writer_exists := true
    free_mesh_id := -5
    located := { n_dist_points := 3, dist_locations := [1, 4, 2], n_exterior := 0 }
    n_exterior_other_ranks := 0
    heap := fun _ _ => 0 }

/-- The partner's answer `coupling:start`, padded with NUL to 32 characters. -/
def start_message : Incoming :=
  { from_syrthes := coupling_start ++ List.replicate 18 NUL
    from_root := List.replicate 32 NUL }

/-- A partner message `coupling:stop`, padded with NUL to 32 characters. -/
def stop_message : Incoming :=
  { from_syrthes := ['c', 'o', 'u', 'p', 'l', 'i', 'n', 'g', ':', 's', 't', 'o', 'p']
      ++ List.replicate 19 NUL
    from_root := List.replicate 32 NUL }

/-- A `HAVE_MPI` build run without MPI being initialised: `MPI_Initialized`
reports 0 and the rank id is -1. -/
def mpi_inactive_env : MpiEnv :=
  { HAVE_MPI := true, mpi_flag := false, cs_glob_rank_id := -1, cs_glob_n_ranks := 1
    intracomm := 0, distant_range := (-1, -1) }

/-- A build without `HAVE_MPI`. -/
def build_without_mpi : MpiEnv :=
  { HAVE_MPI := false, mpi_flag := false, cs_glob_rank_id := -1, cs_glob_n_ranks := 1
    intracomm := 0, distant_range := (-1, -1) }

/-- No process delivers anything. -/
def nothing_delivered : Incoming :=
  { from_syrthes := [], from_root := [] }

/-- A surface-only coupling with visualization output requested. -/
def visual_face_coupling : cs_syr4_coupling_t Int :=
  new_coupling Int 3 0 (some "wall") none (some "solid") 0 1

/-- Oracle of a surface of four faces of which three centers are not located
on the partner mesh (two on this rank, one on another rank). -/
def unlocated_oracle : MeshOracle Int :=
  { n_selected := 4, n_g_vertices := 9, n_errors := 0, writer_exists := true
    free_mesh_id := -5
    located := { n_dist_points := 1, dist_locations := [2], n_exterior := 2 }
    n_exterior_other_ranks := 1
    heap := fun _ _ => 0 }

/-- A partner message announcing volume coupling only, with conservativity. -/
def volume_only_conservative : Incoming :=
  { from_syrthes := coupling_type ++ [' ', 'v', '1'] ++ List.replicate 15 NUL
    from_root := List.replicate 32 NUL }

/-- A volume-only coupling with visualization output requested. -/
def visual_cell_coupling : cs_syr4_coupling_t Int :=
  new_coupling Int 3 0 none (some "box") (some "solid") 0 1

/-- Number of low-order binary digits to drop from `n` so that at most 24
remain. -/
def excess_digits : Nat → Nat → Nat
  | 0, _ => 0
  | fuel + 1, n => if n < 2 ^ 24 then 0 else excess_digits fuel (n / 2) + 1

/-- Rounding of an integer to 24 significant binary digits, to nearest with
ties to even: the conversion to `float` of an integer-valued `double`. -/
def round_to_single (x : Int) : Int :=
  let n := x.natAbs
  let k := excess_digits 1100 n
  let q := n / 2 ^ k
  let r := n % 2 ^ k
  let m := if 2 * r > 2 ^ k ∨ (2 * r = 2 ^ k ∧ q % 2 = 1) then q + 1 else q
  if x < 0 then -((m * 2 ^ k : Nat) : Int) else ((m * 2 ^ k : Nat) : Int)

/-- Single precision on integer values: conversion and subtraction round to 24
significant binary digits. -/
def integer_single : SinglePrecision Int :=
  { narrow := round_to_single, fsub := fun a b => round_to_single (a - b) }

/-- The surface entity of four faces created for `visual_face_coupling`:
post-processing active, three distant points located on faces 1, 4 and 2. -/
def located_faces : cs_syr4_coupling_ent_t Int :=
  located_ent visual_face_coupling 2 four_faces_oracle

/-- The surface-only coupling after `cs_syr4_coupling_init_mesh`. -/
def surface_run_coupling : cs_syr4_coupling_t Int :=
  { visual_face_coupling with faces := some located_faces }

/-- The volume entity of four cells created for `visual_cell_coupling`. -/
def located_cells : cs_syr4_coupling_ent_t Int :=
  located_ent visual_cell_coupling 3 four_faces_oracle

/-- The volume-only coupling after `cs_syr4_coupling_init_mesh`. -/
def volume_run_coupling : cs_syr4_coupling_t Int :=
  { visual_cell_coupling with cells := some located_cells }

/-- Face areas of a mesh of five boundary faces, and the values coming from
the other processes during the conservativity step. -/
def five_faces_env : FluxEnv Int :=
  { b_face_surf := some [2, 2, 2, 2, 2], reduced := 0, coef := 1 }

/-- Two additions, a teardown, a third addition and an addition without any
selection criterion. -/
def mixed_calls : List RegistryCall :=
  [ RegistryCall.add
      { dim := 3, ref_axis := 0, face_sel_criterion := some "wall", cell_sel_criterion := none
        syr_name := some "solid_a", verbosity := 0, visualization := 1 },
    RegistryCall.add
      { dim := 2, ref_axis := 2, face_sel_criterion := none, cell_sel_criterion := some "box"
        syr_name := none, verbosity := 1, visualization := 0 },
    RegistryCall.all_destroy,
    RegistryCall.add
      { dim := 3, ref_axis := 1, face_sel_criterion := some "inlet"
        cell_sel_criterion := some "all", syr_name := some "solid_c", verbosity := 2
        visualization := 0 },
    RegistryCall.add
      { dim := 3, ref_axis := 0, face_sel_criterion := none, cell_sel_criterion := none
        syr_name := some "solid_d", verbosity := 0, visualization := 0 } ]

/-- The registry after the three additions of `three_adds`. -/
def three_registered : Globals Int :=
  (add_seq (Globals.start Int) three_adds).state

/-- What `cs_syr4_coupling_init_mesh` returns on the leader for `face_coupling`
with a located surface of four faces and the answer `coupling:start`. -/
def started_face_step : Step Int :=
  { coupling := { face_coupling with faces := some (located_ent face_coupling 2 four_faces_oracle) }
    calls := [MpiCall.sendrecv (wire_message (strcpy used_stack.op_name_send coupling_start))
        face_coupling.syr_root_rank,
      MpiCall.bcast 0] }

/-- A serial run with MPI active: a single process, whose rank id is -1,
coupled with SYRTHES through the communicator of `_init_comm`. -/
def serial_env : MpiEnv :=
  { HAVE_MPI := true, mpi_flag := true, cs_glob_rank_id := -1, cs_glob_n_ranks := 1
    intracomm := 1, distant_range := (1, 2) }

/-- A partner message of 32 characters none of which is NUL. -/
def full_length_message : Incoming :=
  { from_syrthes := List.replicate 32 'x', from_root := [] }

/-- The process of rank 1 of two in a `HAVE_MPI` run. -/
def follower_env : MpiEnv :=
  { HAVE_MPI := true, mpi_flag := true, cs_glob_rank_id := 1, cs_glob_n_ranks := 2
    intracomm := 1, distant_range := (2, 3) }

/-- The surface entity of four faces holding the fluxes 3, -1, 4 and 2. -/
def flux_faces : cs_syr4_coupling_ent_t Int :=
  { located_faces with flux := some [3, -1, 4, 2] }

/-- The surface-only coupling with the entity `flux_faces`. -/
def flux_run_coupling : cs_syr4_coupling_t Int :=
  { visual_face_coupling with faces := some flux_faces }

/-- A mesh of five boundary faces of areas 1 to 5. -/
def graded_faces_env : FluxEnv Int :=
  { b_face_surf := some [1, 2, 3, 4, 5], reduced := 0, coef := 1 }

/-- A volume-only coupling of dimension 2 with reference axis 1. -/
def planar_coupling : cs_syr4_coupling_t Int :=
  new_coupling Int 2 1 none (some "box") (some "solid") 0 0

/-- A partner message announcing surface coupling only. -/
def surface_only_message : Incoming :=
  { from_syrthes := coupling_type ++ ['b', ' ', '0'] ++ List.replicate 15 NUL
    from_root := List.replicate 32 NUL }

/-- The surface-only coupling in its steady state: communicator created by
`_init_comm`, surface entity created by `cs_syr4_coupling_init_mesh`. -/
def connected_surface : cs_syr4_coupling_t Int :=
  { surface_run_coupling with comm := some 1, n_syr_ranks := 1, syr_root_rank := 2 }

/-- The volume-only coupling in its steady state, on a second communicator. -/
def connected_volume : cs_syr4_coupling_t Int :=
  { volume_run_coupling with comm := some 7, n_syr_ranks := 1, syr_root_rank := 3 }

/-- A registry of three instances: a surface coupling and a volume coupling in
their steady state, and a surface coupling added but never initialised. -/
def running_registry : Globals Int :=
  { cs_glob_syr4_n_couplings := 3
    cs_glob_syr4_couplings := [some connected_surface, some connected_volume, some face_coupling]
    cs_syr4_coupling_conservativity := 1
    cs_syr4_coupling_implicit := 1 }

/-- The surface-only coupling without visualization output, after
`cs_syr4_coupling_init_mesh`: its surface entity of four faces has no
post-processing mesh and no `flux` array. -/
def plain_run_coupling : cs_syr4_coupling_t Int :=
  started_face_step.coupling

/-! # Properties -/

/-! ## Registry: properties -/

theorem BFT_REALLOC_length {α : Type} (p : List (Option α)) (n : Nat) :
    (BFT_REALLOC p n).length = n := by
  simp [BFT_REALLOC]

theorem BFT_REALLOC_getD {α : Type} (p : List (Option α)) (n i : Nat) (h : i < n) :
    (BFT_REALLOC p n).getD i none = p.getD i none := by
  unfold BFT_REALLOC
  rw [List.getD_eq_getElem?_getD, List.getD_eq_getElem?_getD, List.getElem?_take_of_lt h]
  by_cases hi : i < p.length
  · rw [List.getElem?_append_left hi]
  · have hi2 : p.length ≤ i := Nat.le_of_not_lt hi
    rw [List.getElem?_append_right hi2, List.getElem?_eq_none hi2]
    rw [List.getElem?_replicate]
    split <;> rfl

theorem by_id_of_lt {R : Type} (g : Globals R) (i : Nat)
    (h : i < g.cs_glob_syr4_n_couplings) :
    cs_syr4_coupling_by_id g (i : Int) = g.cs_glob_syr4_couplings.getD i none := by
  unfold cs_syr4_coupling_by_id
  have h1 : ((i : Int) > -1 ∧ (i : Int) < (g.cs_glob_syr4_n_couplings : Int)) := by
    constructor <;> omega
  rw [if_pos h1]
  simp

theorem by_id_outside {R : Type} (g : Globals R) (i : Int)
    (h : i < 0 ∨ (g.cs_glob_syr4_n_couplings : Int) ≤ i) :
    cs_syr4_coupling_by_id g i = none := by
  unfold cs_syr4_coupling_by_id
  have h1 : ¬ (i > -1 ∧ i < (g.cs_glob_syr4_n_couplings : Int)) := by
    intro hc
    omega
  rw [if_neg h1]

theorem add_valid_eq {R : Type} (g : Globals R) (dim ref_axis : Int)
    (face cell name : Option String) (verbosity visualization : Int)
    (h : face ≠ none ∨ cell ≠ none) :
    cs_syr4_coupling_add g dim ref_axis face cell name verbosity visualization =
      Outcome.ok
        { g with
          cs_glob_syr4_couplings :=
            (BFT_REALLOC g.cs_glob_syr4_couplings (g.cs_glob_syr4_n_couplings + 1)).set
              g.cs_glob_syr4_n_couplings
              (some (new_coupling R dim ref_axis face cell name verbosity visualization))
          cs_glob_syr4_n_couplings := g.cs_glob_syr4_n_couplings + 1 } := by
  unfold cs_syr4_coupling_add
  have h1 : ¬ (face = none ∧ cell = none) := by
    intro hc
    cases h with
    | inl hf => exact hf hc.1
    | inr hc2 => exact hc2 hc.2
  simp only [if_neg h1]

theorem set_realloc_getD_last {α : Type} (p : List (Option α)) (n : Nat) (c : α) :
    ((BFT_REALLOC p (n + 1)).set n (some c)).getD n none = some c := by
  rw [List.getD_eq_getElem?_getD, List.getElem?_set_self]
  · rfl
  · rw [BFT_REALLOC_length]
    exact Nat.lt_succ_self n

theorem set_realloc_getD_before {α : Type} (p : List (Option α)) (n i : Nat) (c : α)
    (h : i < n) :
    ((BFT_REALLOC p (n + 1)).set n (some c)).getD i none = p.getD i none := by
  rw [List.getD_eq_getElem?_getD, List.getElem?_set_ne (Nat.ne_of_gt h),
    ← List.getD_eq_getElem?_getD]
  exact BFT_REALLOC_getD p (n + 1) i (Nat.lt_succ_of_lt h)

/-- After a chain of valid additions starting from any registry: the count has
grown by the number of calls, older entries are untouched and the new entries
follow in call order. -/
theorem add_seq_spec {R : Type} (cfgs : List AddArgs) :
    ∀ g : Globals R,
      (∀ a ∈ cfgs, a.face_sel_criterion ≠ none ∨ a.cell_sel_criterion ≠ none) →
      ∃ g1 : Globals R, add_seq g cfgs = Outcome.ok g1 ∧
        g1.cs_glob_syr4_n_couplings = g.cs_glob_syr4_n_couplings + cfgs.length ∧
        (∀ i : Nat, i < g.cs_glob_syr4_n_couplings →
          cs_syr4_coupling_by_id g1 (i : Int) = cs_syr4_coupling_by_id g (i : Int)) ∧
        (∀ k : Nat, ∀ hk : k < cfgs.length,
          cs_syr4_coupling_by_id g1 ((g.cs_glob_syr4_n_couplings + k : Nat) : Int) =
            some ((cfgs.get ⟨k, hk⟩).built R)) := by
  induction cfgs with
  | nil =>
    intro g _
    refine ⟨g, rfl, rfl, fun _ _ => rfl, ?_⟩
    intro k hk
    exact absurd hk (Nat.not_lt_zero k)
  | cons a rest ih =>
    intro g hv
    have ha := hv a (List.mem_cons_self a rest)
    have hrest : ∀ b ∈ rest, b.face_sel_criterion ≠ none ∨ b.cell_sel_criterion ≠ none :=
      fun b hb => hv b (List.mem_cons_of_mem a hb)
    have hadd := add_valid_eq g a.dim a.ref_axis a.face_sel_criterion a.cell_sel_criterion
      a.syr_name a.verbosity a.visualization ha
    obtain ⟨g2, h2, hn, hold, hnew⟩ := ih _ hrest
    refine ⟨g2, ?_, ?_, ?_, ?_⟩
    · simp only [add_seq, hadd]
      exact h2
    · rw [hn]
      simp only [List.length_cons]
      omega
    · intro i hi
      rw [hold i (Nat.lt_succ_of_lt hi), by_id_of_lt _ i (Nat.lt_succ_of_lt hi),
        by_id_of_lt g i hi]
      exact set_realloc_getD_before _ _ i _ hi
    · intro k hk
      cases k with
      | zero =>
        have h0 := hold g.cs_glob_syr4_n_couplings (Nat.lt_succ_self _)
        rw [Nat.add_zero, h0, by_id_of_lt _ _ (Nat.lt_succ_self _)]
        exact set_realloc_getD_last _ _ _
      | succ j =>
        have hj : j < rest.length := Nat.lt_of_succ_lt_succ hk
        have h1 := hnew j hj
        have he : g.cs_glob_syr4_n_couplings + (j + 1) = g.cs_glob_syr4_n_couplings + 1 + j := by
          omega
        rw [he]
        exact h1

/-- C1: a call of `cs_syr4_coupling_add` with at least one selection criterion
non-null completes; afterwards the count is one more than before, and both
`by_id (n)` and `by_id (count - 1)` return the instance filled from the
arguments of the call (a null name is stored as the empty string, no entity
and no communicator yet). -/
theorem add_count_and_last {R : Type} (g : Globals R) (dim ref_axis : Int)
    (face cell name : Option String) (verbosity visualization : Int)
    (h : face ≠ none ∨ cell ≠ none) :
    ∃ g1 : Globals R, ∃ c : cs_syr4_coupling_t R,
      cs_syr4_coupling_add g dim ref_axis face cell name verbosity visualization
        = Outcome.ok g1 ∧
      cs_syr4_coupling_n_couplings g1 = cs_syr4_coupling_n_couplings g + 1 ∧
      cs_syr4_coupling_by_id g1 (cs_syr4_coupling_n_couplings g) = some c ∧
      cs_syr4_coupling_by_id g1 (cs_syr4_coupling_n_couplings g1 - 1) = some c ∧
      c.dim = dim ∧ c.ref_axis = ref_axis ∧ c.syr_name = some (name.getD "") ∧
      c.face_sel = face ∧ c.cell_sel = cell ∧
      c.verbosity = verbosity ∧ c.visualization = visualization ∧
      c.faces = none ∧ c.cells = none ∧ c.comm = none := by
  refine ⟨_, new_coupling R dim ref_axis face cell name verbosity visualization,
    add_valid_eq g dim ref_axis face cell name verbosity visualization h, ?_, ?_, ?_,
    rfl, rfl, ?_, rfl, rfl, rfl, rfl, rfl, rfl, rfl⟩
  · simp [cs_syr4_coupling_n_couplings]
  · unfold cs_syr4_coupling_n_couplings
    rw [by_id_of_lt _ _ (Nat.lt_succ_self _)]
    exact set_realloc_getD_last _ _ _
  · have he : cs_syr4_coupling_n_couplings
        ({ g with
          cs_glob_syr4_couplings :=
            (BFT_REALLOC g.cs_glob_syr4_couplings (g.cs_glob_syr4_n_couplings + 1)).set
              g.cs_glob_syr4_n_couplings
              (some (new_coupling R dim ref_axis face cell name verbosity visualization))
          cs_glob_syr4_n_couplings := g.cs_glob_syr4_n_couplings + 1 } : Globals R) - 1
        = ((g.cs_glob_syr4_n_couplings : Nat) : Int) := by
      simp [cs_syr4_coupling_n_couplings]
    rw [he, by_id_of_lt _ _ (Nat.lt_succ_self _)]
    exact set_realloc_getD_last _ _ _
  · cases name <;> rfl

/-- Witness of C1: a face-only coupling added to the empty registry. -/
theorem add_count_and_last_witness :
    ∃ g1 : Globals Int, ∃ c : cs_syr4_coupling_t Int,
      cs_syr4_coupling_add (Globals.start Int) 3 0 (some "wall") none (some "solid") 1 0
        = Outcome.ok g1 ∧
      cs_syr4_coupling_n_couplings g1 = cs_syr4_coupling_n_couplings (Globals.start Int) + 1 ∧
      cs_syr4_coupling_by_id g1 (cs_syr4_coupling_n_couplings (Globals.start Int)) = some c ∧
      cs_syr4_coupling_by_id g1 (cs_syr4_coupling_n_couplings g1 - 1) = some c ∧
      c.dim = 3 ∧ c.ref_axis = 0 ∧ c.syr_name = some ((some "solid").getD "") ∧
      c.face_sel = some "wall" ∧ c.cell_sel = none ∧
      c.verbosity = 1 ∧ c.visualization = 0 ∧
      c.faces = none ∧ c.cells = none ∧ c.comm = none :=
  add_count_and_last (Globals.start Int) 3 0 (some "wall") none (some "solid") 1 0
    (Or.inl (by simp))

/-- C2: with both selection criteria null, `cs_syr4_coupling_add` aborts with
the no-selection error, and at the abort the count and the instance returned
by `by_id` for every id are those of the state before the call. -/
theorem add_without_selection_fatal {R : Type} (g : Globals R) (dim ref_axis : Int)
    (name : Option String) (verbosity visualization : Int) :
    ∃ g1 : Globals R,
      cs_syr4_coupling_add g dim ref_axis none none name verbosity visualization
        = Outcome.fatal Fatal.no_selection g1 ∧
      cs_syr4_coupling_n_couplings g1 = cs_syr4_coupling_n_couplings g ∧
      (∀ i : Int, cs_syr4_coupling_by_id g1 i = cs_syr4_coupling_by_id g i) ∧
      g1.cs_syr4_coupling_conservativity = g.cs_syr4_coupling_conservativity ∧
      g1.cs_syr4_coupling_implicit = g.cs_syr4_coupling_implicit := by
  refine ⟨({ g with
      cs_glob_syr4_couplings :=
        BFT_REALLOC g.cs_glob_syr4_couplings (g.cs_glob_syr4_n_couplings + 1) } : Globals R),
    ?_, rfl, ?_, rfl, rfl⟩
  · simp [cs_syr4_coupling_add]
  · intro i
    by_cases hi : i > -1 ∧ i < (g.cs_glob_syr4_n_couplings : Int)
    · have hlt : i.toNat < g.cs_glob_syr4_n_couplings := by omega
      have hcast : ((i.toNat : Nat) : Int) = i := Int.toNat_of_nonneg (by omega)
      have h1 := by_id_of_lt
        ({ g with
            cs_glob_syr4_couplings :=
              BFT_REALLOC g.cs_glob_syr4_couplings (g.cs_glob_syr4_n_couplings + 1) } :
          Globals R)
        i.toNat hlt
      have h2 := by_id_of_lt g i.toNat hlt
      rw [hcast] at h1 h2
      rw [h1, h2]
      exact BFT_REALLOC_getD _ _ _ (Nat.lt_succ_of_lt hlt)
    · have ho : i < 0 ∨ (g.cs_glob_syr4_n_couplings : Int) ≤ i := by omega
      rw [by_id_outside g i ho]
      exact by_id_outside _ i ho

/-- C3: after adding the instances described by `cfgs`, in order, to the empty
registry, `by_id (i)` returns the instance built by the `i`-th call for every
`0 <= i < n`, and none for every negative `i` and every `i >= n`. -/
theorem by_id_creation_order {R : Type} (cfgs : List AddArgs)
    (hv : ∀ a ∈ cfgs, a.face_sel_criterion ≠ none ∨ a.cell_sel_criterion ≠ none) :
    ∃ g1 : Globals R, add_seq (Globals.start R) cfgs = Outcome.ok g1 ∧
      cs_syr4_coupling_n_couplings g1 = (cfgs.length : Int) ∧
      (∀ i : Nat, ∀ hi : i < cfgs.length,
        cs_syr4_coupling_by_id g1 (i : Int) = some ((cfgs.get ⟨i, hi⟩).built R)) ∧
      (∀ i : Int, i < 0 ∨ (cfgs.length : Int) ≤ i → cs_syr4_coupling_by_id g1 i = none) := by
  obtain ⟨g1, h1, hn, _, hnew⟩ := add_seq_spec cfgs (Globals.start R) hv
  have hn0 : g1.cs_glob_syr4_n_couplings = cfgs.length := by
    rw [hn]
    simp [Globals.start]
  refine ⟨g1, h1, ?_, ?_, ?_⟩
  · simp [cs_syr4_coupling_n_couplings, hn0]
  · intro i hi
    have h2 := hnew i hi
    have h0 : (Globals.start R).cs_glob_syr4_n_couplings + i = i := by
      simp [Globals.start]
    rw [h0] at h2
    exact h2
  · intro i hi
    apply by_id_outside
    rw [hn0]
    exact hi

/-- Witness of C3: three valid additions to the empty registry. -/
theorem by_id_creation_order_witness :
    ∃ g1 : Globals Int, add_seq (Globals.start Int) three_adds = Outcome.ok g1 ∧
      cs_syr4_coupling_n_couplings g1 = (three_adds.length : Int) ∧
      (∀ i : Nat, ∀ hi : i < three_adds.length,
        cs_syr4_coupling_by_id g1 (i : Int) = some ((three_adds.get ⟨i, hi⟩).built Int)) ∧
      (∀ i : Int, i < 0 ∨ (three_adds.length : Int) ≤ i →
        cs_syr4_coupling_by_id g1 i = none) :=
  by_id_creation_order three_adds (by
    intro a ha
    simp [three_adds] at ha
    rcases ha with rfl | rfl | rfl <;> simp)

/-! ## Source-term contribution: properties -/

/-- With a non-zero element count the loop test never fails, so the loop is
never left through its exit. -/
theorem ts_loop_never_returns {R : Type} (n_elts : Nat)
    (body : Nat → TsArrays R → Option (TsArrays R)) (hn : n_elts ≠ 0) :
    ∀ (fuel i : Nat) (a r : TsArrays R), ts_loop n_elts body fuel i a ≠ Exec.returned r := by
  intro fuel
  induction fuel with
  | zero =>
    intro i a r h
    simp [ts_loop] at h
  | succ k ih =>
    intro i a r h
    simp only [ts_loop, if_pos hn] at h
    cases hb : body i a with
    | none => simp [hb] at h
    | some a1 =>
      rw [hb] at h
      exact ih (i + 1) a1 r h

/-- Running `k` iterations from index `i` when every array is long enough:
the loop is still running at index `i + k`, the entries `i .. i + k - 1` hold
the values `E`, `I` the body computes, and all other entries are unchanged. -/
theorem ts_loop_run {R : Type} (n_elts L : Nat)
    (body : Nat → TsArrays R → Option (TsArrays R)) (E I : Nat → Option R)
    (hn : n_elts ≠ 0)
    (hbody : ∀ (i : Nat) (a : TsArrays R), i < L → i < a.ctbexp.length →
      i < a.ctbimp.length →
      ∃ e m, E i = some e ∧ I i = some m ∧
        body i a = some { ctbexp := a.ctbexp.set i e, ctbimp := a.ctbimp.set i m }) :
    ∀ (k i : Nat) (a : TsArrays R), i + k ≤ L → i + k ≤ a.ctbexp.length →
      i + k ≤ a.ctbimp.length →
      ∃ a1 : TsArrays R, ts_loop n_elts body k i a = Exec.running (i + k) a1 ∧
        a1.ctbexp.length = a.ctbexp.length ∧ a1.ctbimp.length = a.ctbimp.length ∧
        (∀ j, a1.ctbexp[j]? = if i ≤ j ∧ j < i + k then E j else a.ctbexp[j]?) ∧
        (∀ j, a1.ctbimp[j]? = if i ≤ j ∧ j < i + k then I j else a.ctbimp[j]?) := by
  intro k
  induction k with
  | zero =>
    intro i a _ _ _
    refine ⟨a, rfl, rfl, rfl, ?_, ?_⟩ <;>
    · intro j
      have hf : ¬ (i ≤ j ∧ j < i + 0) := by omega
      rw [if_neg hf]
  | succ k ih =>
    intro i a hL he hm
    obtain ⟨e, m, hE, hI, hb⟩ := hbody i a (by omega) (by omega) (by omega)
    obtain ⟨a1, hrun, hle, hlm, hge, hgm⟩ :=
      ih (i + 1) { ctbexp := a.ctbexp.set i e, ctbimp := a.ctbimp.set i m }
        (by omega) (by simp only [List.length_set]; omega)
        (by simp only [List.length_set]; omega)
    refine ⟨a1, ?_, ?_, ?_, ?_, ?_⟩
    · simp only [ts_loop, if_pos hn, hb]
      rw [hrun]
      congr 1
      omega
    · rw [hle, List.length_set]
    · rw [hlm, List.length_set]
    · intro j
      rw [hge j]
      by_cases hj : i + 1 ≤ j ∧ j < i + 1 + k
      · rw [if_pos hj, if_pos (by omega)]
      · rw [if_neg hj]
        by_cases hij : j = i
        · subst hij
          rw [if_pos (by omega), hE]
          simp only [List.getElem?_set_self (show j < a.ctbexp.length by omega)]
        · rw [if_neg (by omega)]
          simp only [List.getElem?_set_ne (Ne.symm hij)]
    · intro j
      rw [hgm j]
      by_cases hj : i + 1 ≤ j ∧ j < i + 1 + k
      · rw [if_pos hj, if_pos (by omega)]
      · rw [if_neg hj]
        by_cases hij : j = i
        · subst hij
          rw [if_pos (by omega), hI]
          simp only [List.getElem?_set_self (show j < a.ctbimp.length by omega)]
        · rw [if_neg (by omega)]
          simp only [List.getElem?_set_ne (Ne.symm hij)]

/-- One iteration of the explicit-treatment body at an index inside all arrays. -/
theorem ts_body_explicit_eq {R : Type} [Zero R] [Neg R] [Sub R] [Mul R]
    (hvol solid_temp tf : List R) (n : Nat) (hh : hvol.length = n)
    (hs : solid_temp.length = n) (ht : tf.length = n) (i : Nat) (a : TsArrays R)
    (hi : i < n) (he : i < a.ctbexp.length) (hm : i < a.ctbimp.length) :
    ∃ e m, explicit_value hvol solid_temp tf i = some e ∧
      (fun _ : Nat => some (0 : R)) i = some m ∧
      ts_body_explicit hvol solid_temp tf i a
        = some { ctbexp := a.ctbexp.set i e, ctbimp := a.ctbimp.set i m } := by
  have h1 : hvol[i]? = some (hvol.get ⟨i, by omega⟩) := List.getElem?_eq_getElem (by omega)
  have h2 : tf[i]? = some (tf.get ⟨i, by omega⟩) := List.getElem?_eq_getElem (by omega)
  have h3 : solid_temp[i]? = some (solid_temp.get ⟨i, by omega⟩) :=
    List.getElem?_eq_getElem (by omega)
  refine ⟨(-(hvol.get ⟨i, by omega⟩)) * (tf.get ⟨i, by omega⟩ - solid_temp.get ⟨i, by omega⟩),
    0, ?_, rfl, ?_⟩
  · unfold explicit_value
    rw [h1, h2, h3]
  · unfold ts_body_explicit
    rw [h1, h2, h3]
    simp only [if_pos (And.intro he hm)]

/-- One iteration of the implicit-treatment body at an index inside all arrays. -/
theorem ts_body_implicit_eq {R : Type} [Mul R]
    (hvol solid_temp : List R) (n : Nat) (hh : hvol.length = n)
    (hs : solid_temp.length = n) (i : Nat) (a : TsArrays R)
    (hi : i < n) (he : i < a.ctbexp.length) (hm : i < a.ctbimp.length) :
    ∃ e m, implicit_value hvol solid_temp i = some e ∧ hvol[i]? = some m ∧
      ts_body_implicit hvol solid_temp i a
        = some { ctbexp := a.ctbexp.set i e, ctbimp := a.ctbimp.set i m } := by
  have h1 : hvol[i]? = some (hvol.get ⟨i, by omega⟩) := List.getElem?_eq_getElem (by omega)
  have h3 : solid_temp[i]? = some (solid_temp.get ⟨i, by omega⟩) :=
    List.getElem?_eq_getElem (by omega)
  refine ⟨hvol.get ⟨i, by omega⟩ * solid_temp.get ⟨i, by omega⟩, hvol.get ⟨i, by omega⟩,
    ?_, h1, ?_⟩
  · unfold implicit_value
    rw [h1, h3]
  · unfold ts_body_implicit
    rw [h1, h3]
    simp only [if_pos (And.intro he hm)]

/-- Whatever the treatment mode, a call on an entity with a non-zero element
count never reaches its return. -/
theorem ts_contrib_no_return {R : Type} [Zero R] [Neg R] [Sub R] [Mul R]
    (g : Globals R) (c : cs_syr4_coupling_t R) (ent : cs_syr4_coupling_ent_t R)
    (hc : c.cells = some ent) (hn : ent.n_elts ≠ 0) (tf : List R) (a : TsArrays R)
    (fuel : Nat) (r : TsArrays R) :
    cs_syr4_coupling_ts_contrib g c tf a fuel ≠ Exec.returned r := by
  unfold cs_syr4_coupling_ts_contrib
  rw [hc]
  simp only []
  split
  · split
    · exact ts_loop_never_returns _ _ hn _ _ _ _
    · exact ts_loop_never_returns _ _ hn _ _ _ _
  · intro h
    cases h

/-- C4 (code evaluated at the failing input): in implicit mode, with
`hvol = [2, 3]`, `sol_temp = [100, 50]`, `tf = [80, 50]`, the call never
returns, whatever the number of steps it is given; after writing
`ctbexp = [200, 150]` and `ctbimp = [2, 3]` it goes on to iteration 2, which
reads `hvol[2]` outside the two allocated entries. -/
theorem ts_contrib_implicit_example_no_return :
    (∀ (fuel : Nat) (r : TsArrays Int),
      cs_syr4_coupling_ts_contrib (Globals.start Int) example_coupling [80, 50]
        example_arrays fuel ≠ Exec.returned r) ∧
    (∀ fuel : Nat,
      cs_syr4_coupling_ts_contrib (Globals.start Int) example_coupling [80, 50]
        example_arrays (fuel + 3)
        = Exec.out_of_bounds 2 { ctbimp := [2, 3], ctbexp := [200, 150] }) ∧
    ts_contrib_spec true [2, 3] [100, 50] [80, 50]
      = ({ ctbimp := [2, 3], ctbexp := [200, 150] } : TsArrays Int) := by
  refine ⟨?_, ?_, ?_⟩
  · intro fuel r
    exact ts_contrib_no_return _ example_coupling _ rfl (by decide) _ _ _ _
  · intro fuel
    simp [cs_syr4_coupling_ts_contrib, example_coupling, example_arrays, volume_coupling,
      new_coupling, Globals.start, ts_loop, ts_body_implicit]
  · simp [ts_contrib_spec]

/-- C5 (refuted as stated): in explicit mode, with `hvol = [2, 3]`,
`sol_temp = [100, 50]`, `tf = [80, 50]`, the call never returns, and the two
iterations it performs write `ctbexp = [40, 0]`, the value of
`-hvol[i] * (tf[i] - sol_temp[i])`, not `[-40, 0]`. -/
theorem ts_contrib_explicit_example_refuted :
    (¬ ∃ fuel : Nat,
      cs_syr4_coupling_ts_contrib (cs_syr4_coupling_set_explicit_treatment (Globals.start Int))
        example_coupling [80, 50] example_arrays fuel
        = Exec.returned { ctbimp := [0, 0], ctbexp := [-40, 0] }) ∧
    cs_syr4_coupling_ts_contrib (cs_syr4_coupling_set_explicit_treatment (Globals.start Int))
        example_coupling [80, 50] example_arrays 2
      = Exec.running 2 { ctbimp := [0, 0], ctbexp := [40, 0] } := by
  refine ⟨?_, ?_⟩
  · rintro ⟨fuel, h⟩
    exact ts_contrib_no_return _ example_coupling _ rfl (by decide) _ _ _ _ h
  · simp [cs_syr4_coupling_ts_contrib, cs_syr4_coupling_set_explicit_treatment,
      example_coupling, example_arrays, volume_coupling, new_coupling, Globals.start,
      ts_loop, ts_body_explicit]

/-- C5 (amended): after `cs_syr4_coupling_set_explicit_treatment`, for an
entity with `n` elements whose persisted arrays and `tf` have `n` entries and
output arrays of at least `n` entries, the first `n` iterations of the loop of
`cs_syr4_coupling_ts_contrib` leave `ctbexp[i] = -hvol[i] * (tf[i] - sol_temp[i])`
and `ctbimp[i] = 0` for every `0 <= i < n`. -/
theorem ts_contrib_explicit_iterations {R : Type} [Zero R] [Neg R] [Sub R] [Mul R]
    (g : Globals R) (c : cs_syr4_coupling_t R) (ent : cs_syr4_coupling_ent_t R)
    (hvol sol tf : List R) (a : TsArrays R)
    (hc : c.cells = some ent) (hh : ent.hvol = some hvol) (hs : ent.sol_temp = some sol)
    (lh : hvol.length = ent.n_elts) (ls : sol.length = ent.n_elts)
    (lt : tf.length = ent.n_elts)
    (le : ent.n_elts ≤ a.ctbexp.length) (lm : ent.n_elts ≤ a.ctbimp.length) :
    ∃ a1 : TsArrays R,
      cs_syr4_coupling_ts_contrib (cs_syr4_coupling_set_explicit_treatment g) c tf a
        ent.n_elts = Exec.running ent.n_elts a1 ∧
      ∀ (i : Nat) (h t s : R), hvol[i]? = some h → tf[i]? = some t → sol[i]? = some s →
        a1.ctbexp[i]? = some ((-h) * (t - s)) ∧ a1.ctbimp[i]? = some 0 := by
  have hrun : ∃ a1 : TsArrays R,
      ts_loop ent.n_elts (ts_body_explicit hvol sol tf) ent.n_elts 0 a
        = Exec.running ent.n_elts a1 ∧
      (∀ j, a1.ctbexp[j]? = if 0 ≤ j ∧ j < 0 + ent.n_elts
        then explicit_value hvol sol tf j else a.ctbexp[j]?) ∧
      (∀ j, a1.ctbimp[j]? = if 0 ≤ j ∧ j < 0 + ent.n_elts
        then (fun _ : Nat => some (0 : R)) j else a.ctbimp[j]?) := by
    by_cases hn : ent.n_elts = 0
    · refine ⟨a, ?_, ?_, ?_⟩
      · rw [hn]
        rfl
      · intro j
        rw [if_neg (by omega)]
      · intro j
        rw [if_neg (by omega)]
    · obtain ⟨a1, h1, _, _, h4, h5⟩ :=
        ts_loop_run ent.n_elts ent.n_elts (ts_body_explicit hvol sol tf)
          (explicit_value hvol sol tf) (fun _ => some (0 : R)) hn
          (fun i b hi he hm => ts_body_explicit_eq hvol sol tf ent.n_elts lh ls lt i b hi he hm)
          ent.n_elts 0 a (by omega) (by omega) (by omega)
      refine ⟨a1, ?_, h4, h5⟩
      rw [h1, Nat.zero_add]
  obtain ⟨a1, h1, h4, h5⟩ := hrun
  refine ⟨a1, ?_, ?_⟩
  · unfold cs_syr4_coupling_ts_contrib
    rw [hc]
    simp only [hh, hs, cs_syr4_coupling_set_explicit_treatment, if_pos]
    exact h1
  · intro i h t s hi hti hsi
    have hlt : i < ent.n_elts := by
      have := (List.getElem?_eq_some_iff.mp hi).1
      omega
    constructor
    · rw [h4 i, if_pos (by omega)]
      unfold explicit_value
      rw [hi, hti, hsi]
    · rw [h5 i, if_pos (by omega)]

/-- Witness of C5 (amended): the worked example, where the two iterations
leave `ctbexp = [40, 0]` and `ctbimp = [0, 0]`. -/
theorem ts_contrib_explicit_iterations_witness :
    ∃ a1 : TsArrays Int,
      cs_syr4_coupling_ts_contrib (cs_syr4_coupling_set_explicit_treatment (Globals.start Int))
        example_coupling [80, 50] example_arrays 2 = Exec.running 2 a1 ∧
      ∀ (i : Nat) (h t s : Int), [2, 3][i]? = some h → [80, 50][i]? = some t →
        [100, 50][i]? = some s →
        a1.ctbexp[i]? = some ((-h) * (t - s)) ∧ a1.ctbimp[i]? = some 0 :=
  ts_contrib_explicit_iterations (Globals.start Int) example_coupling
    { locator := none, elt_dim := 3, n_elts := 2, elts := true, post_mesh_id := 0
      solid_temp := none, flux := none, tfluid_tmp := false
      hvol := some [2, 3], sol_temp := some [100, 50] }
    [2, 3] [100, 50] [80, 50] example_arrays rfl rfl rfl rfl rfl rfl (by decide) (by decide)

/-- In implicit mode the first `n` iterations of the loop store
`ctbexp[i] = hvol[i] * sol_temp[i]` and `ctbimp[i] = hvol[i]` for every
`0 <= i < n`: the values of section 4.5 are computed, only the loop exit is
missing. -/
theorem ts_contrib_implicit_iterations {R : Type} [Zero R] [Neg R] [Sub R] [Mul R]
    (g : Globals R) (c : cs_syr4_coupling_t R) (ent : cs_syr4_coupling_ent_t R)
    (hvol sol tf : List R) (a : TsArrays R)
    (hg : g.cs_syr4_coupling_implicit ≠ 0)
    (hc : c.cells = some ent) (hh : ent.hvol = some hvol) (hs : ent.sol_temp = some sol)
    (lh : hvol.length = ent.n_elts) (ls : sol.length = ent.n_elts)
    (le : ent.n_elts ≤ a.ctbexp.length) (lm : ent.n_elts ≤ a.ctbimp.length) :
    ∃ a1 : TsArrays R,
      cs_syr4_coupling_ts_contrib g c tf a ent.n_elts = Exec.running ent.n_elts a1 ∧
      ∀ (i : Nat) (h s : R), hvol[i]? = some h → sol[i]? = some s →
        a1.ctbexp[i]? = some (h * s) ∧ a1.ctbimp[i]? = some h := by
  have hrun : ∃ a1 : TsArrays R,
      ts_loop ent.n_elts (ts_body_implicit hvol sol) ent.n_elts 0 a
        = Exec.running ent.n_elts a1 ∧
      (∀ j, a1.ctbexp[j]? = if 0 ≤ j ∧ j < 0 + ent.n_elts
        then implicit_value hvol sol j else a.ctbexp[j]?) ∧
      (∀ j, a1.ctbimp[j]? = if 0 ≤ j ∧ j < 0 + ent.n_elts
        then hvol[j]? else a.ctbimp[j]?) := by
    by_cases hn : ent.n_elts = 0
    · refine ⟨a, ?_, ?_, ?_⟩
      · rw [hn]
        rfl
      · intro j
        rw [if_neg (by omega)]
      · intro j
        rw [if_neg (by omega)]
    · obtain ⟨a1, h1, _, _, h4, h5⟩ :=
        ts_loop_run ent.n_elts ent.n_elts (ts_body_implicit hvol sol)
          (implicit_value hvol sol) (fun j => hvol[j]?) hn
          (fun i b hi he hm => ts_body_implicit_eq hvol sol ent.n_elts lh ls i b hi he hm)
          ent.n_elts 0 a (by omega) (by omega) (by omega)
      refine ⟨a1, ?_, h4, h5⟩
      rw [h1, Nat.zero_add]
  obtain ⟨a1, h1, h4, h5⟩ := hrun
  refine ⟨a1, ?_, ?_⟩
  · unfold cs_syr4_coupling_ts_contrib
    rw [hc]
    simp only [hh, hs, if_neg hg]
    exact h1
  · intro i h s hi hsi
    have hlt : i < ent.n_elts := by
      have := (List.getElem?_eq_some_iff.mp hi).1
      omega
    constructor
    · rw [h4 i, if_pos (by omega)]
      unfold implicit_value
      rw [hi, hsi]
    · rw [h5 i, if_pos (by omega), hi]

/-- C6 (code evaluated on every non-empty entity): in either treatment mode,
when the element count is not zero the call does not terminate by returning,
whatever the number of steps: the loop test is the element count, not a
comparison of the index with it. -/
theorem ts_contrib_loop_not_bounded {R : Type} [Zero R] [Neg R] [Sub R] [Mul R]
    (g : Globals R) (c : cs_syr4_coupling_t R) (ent : cs_syr4_coupling_ent_t R)
    (hc : c.cells = some ent) (hn : ent.n_elts ≠ 0) (tf : List R) (a : TsArrays R) :
    ∀ (fuel : Nat) (r : TsArrays R),
      cs_syr4_coupling_ts_contrib g c tf a fuel ≠ Exec.returned r :=
  fun fuel r => ts_contrib_no_return g c ent hc hn tf a fuel r

/-- Witness of C6: an entity with one coupled cell, implicit mode. -/
theorem ts_contrib_loop_not_bounded_witness :
    single_cell_coupling.cells = some
        { locator := none, elt_dim := 3, n_elts := 1, elts := true, post_mesh_id := 0
          solid_temp := none, flux := none, tfluid_tmp := false
          hvol := some [5], sol_temp := some [20] } ∧
    ∀ (fuel : Nat) (r : TsArrays Int),
      cs_syr4_coupling_ts_contrib (Globals.start Int) single_cell_coupling [30]
        { ctbimp := [0], ctbexp := [0] } fuel ≠ Exec.returned r :=
  ⟨rfl, ts_contrib_loop_not_bounded (Globals.start Int) single_cell_coupling _ rfl
    (by decide) [30] { ctbimp := [0], ctbexp := [0] }⟩

/-- C7 (code evaluated at the failing input): on an entity with one coupled
cell the first call already fails to return in both treatment modes: after
writing index 0 it runs iteration 1, which reads `hvol[1]` outside the single
allocated entry, so there is no state after the call and no second call. -/
theorem ts_contrib_first_call_no_return :
    (∀ fuel : Nat,
      cs_syr4_coupling_ts_contrib (Globals.start Int) single_cell_coupling [30]
        { ctbimp := [0], ctbexp := [0] } (fuel + 2)
        = Exec.out_of_bounds 1 { ctbimp := [5], ctbexp := [100] }) ∧
    (∀ fuel : Nat,
      cs_syr4_coupling_ts_contrib (cs_syr4_coupling_set_explicit_treatment (Globals.start Int))
        single_cell_coupling [30] { ctbimp := [0], ctbexp := [0] } (fuel + 2)
        = Exec.out_of_bounds 1 { ctbimp := [0], ctbexp := [-50] }) ∧
    (∀ (g : Globals Int) (fuel : Nat) (r : TsArrays Int),
      cs_syr4_coupling_ts_contrib g single_cell_coupling [30]
        { ctbimp := [0], ctbexp := [0] } fuel ≠ Exec.returned r) := by
  refine ⟨?_, ?_, ?_⟩
  · intro fuel
    simp [cs_syr4_coupling_ts_contrib, single_cell_coupling, volume_coupling,
      new_coupling, Globals.start, ts_loop, ts_body_implicit]
  · intro fuel
    simp [cs_syr4_coupling_ts_contrib, cs_syr4_coupling_set_explicit_treatment,
      single_cell_coupling, volume_coupling, new_coupling, Globals.start, ts_loop,
      ts_body_explicit]
  · intro g fuel r
    exact ts_contrib_no_return g single_cell_coupling _ rfl (by decide) _ _ _ _

/-! ## Handshake: properties -/

theorem NUL_toNat : NUL.toNat = 0 := by decide

theorem char_eq_of_toNat_eq {a b : Char} (h : a.toNat = b.toNat) : a = b := by
  rw [← Char.ofNat_toNat a, ← Char.ofNat_toNat b, h]

theorem boundary_flag_ne_NUL {R : Type} (c : cs_syr4_coupling_t R) : boundary_flag c ≠ NUL := by
  unfold boundary_flag
  split <;> decide

theorem volume_flag_ne_NUL {R : Type} (c : cs_syr4_coupling_t R) : volume_flag c ≠ NUL := by
  unfold volume_flag
  split <;> decide

theorem conservativity_flag_ne_NUL {R : Type} (g : Globals R) :
    conservativity_flag g ≠ NUL := by
  unfold conservativity_flag
  split <;> decide

/-- The buffer written by the `sprintf` of line 1276: the text, its
terminator, then what the array held before. -/
theorem init_comm_token_eq {R : Type} (g : Globals R) (c : cs_syr4_coupling_t R)
    (stack : TokenStack) :
    init_comm_token g c stack
      = (coupling_type ++ [boundary_flag c, volume_flag c, conservativity_flag g])
          ++ NUL :: stack.op_name_send.drop 18 := by
  simp [init_comm_token, sprintf_type, strcpy, coupling_type]

theorem token_text_no_NUL {R : Type} (g : Globals R) (c : cs_syr4_coupling_t R) :
    ∀ x ∈ coupling_type ++ [boundary_flag c, volume_flag c, conservativity_flag g],
      x ≠ NUL := by
  intro x hx
  rw [List.mem_append] at hx
  cases hx with
  | inl h =>
    revert x
    decide
  | inr h =>
    simp only [List.mem_cons, List.mem_singleton, List.not_mem_nil, or_false] at h
    rcases h with rfl | rfl | rfl
    · exact boundary_flag_ne_NUL c
    · exact volume_flag_ne_NUL c
    · exact conservativity_flag_ne_NUL g

/-- The C string stored in a buffer that starts with NUL-free text followed
by a terminator is that text. -/
theorem cstr_append_NUL (s t : List Char) (hs : ∀ x ∈ s, x ≠ NUL) :
    cstr (s ++ NUL :: t) = s := by
  induction s with
  | nil => simp [cstr]
  | cons x s ih =>
    have hx : x ≠ NUL := hs x (List.mem_cons_self x s)
    have ih2 := ih (fun y hy => hs y (List.mem_cons_of_mem x hy))
    unfold cstr at ih2 ⊢
    simp only [List.cons_append]
    rw [List.takeWhile_cons_of_pos (by simpa using hx), ih2]

/-- What goes on the wire for a buffer holding NUL-free text of at most 32
characters and its terminator: the text padded with NUL to 32 characters. -/
theorem wire_message_text (s t : List Char) (hs : ∀ x ∈ s, x ≠ NUL) (hl : s.length ≤ 32) :
    wire_message (s ++ NUL :: t) = s ++ List.replicate (32 - s.length) NUL := by
  unfold wire_message wire_message_from strncpy
  rw [cstr_append_NUL s t hs, List.take_of_length_le hl]
  have h1 : (s ++ List.replicate (32 - s.length) NUL).length = 32 := by
    simp only [List.length_append, List.length_replicate]
    omega
  have h2 : ((s ++ List.replicate (32 - s.length) NUL
      ++ List.drop 32 (List.replicate 33 NUL)).set 32 NUL).take 32
      = (s ++ List.replicate (32 - s.length) NUL) := by
    rw [List.set_append_right _ _ (by omega), List.take_append_of_le_length (by omega),
      List.take_of_length_le (by omega)]
  exact h2

/-- C8: the negotiation token built by `cs_syr4_coupling_init_comm` is the 14
characters `coupling:type:` followed by the boundary flag (`b` or blank) at
index 14, the volume flag (`v` or blank) at index 15 and the conservativity
flag (`0` when the flag is 0, `1` otherwise) at index 16; it has 17 characters,
which fit the 32 significant characters, and is sent padded with 15 NUL. -/
theorem init_comm_token_format {R : Type} (g : Globals R) (c : cs_syr4_coupling_t R)
    (stack : TokenStack) :
    cstr (init_comm_token g c stack)
      = ['c', 'o', 'u', 'p', 'l', 'i', 'n', 'g', ':', 't', 'y', 'p', 'e', ':',
          (if c.face_sel ≠ none then 'b' else ' '),
          (if c.cell_sel ≠ none then 'v' else ' '),
          (if g.cs_syr4_coupling_conservativity = 0 then '0' else '1')] ∧
    (cstr (init_comm_token g c stack)).length = 17 ∧
    (cstr (init_comm_token g c stack)).length ≤ 32 ∧
    (cstr (init_comm_token g c stack))[14]?
      = some (if c.face_sel ≠ none then 'b' else ' ') ∧
    (cstr (init_comm_token g c stack))[15]?
      = some (if c.cell_sel ≠ none then 'v' else ' ') ∧
    (cstr (init_comm_token g c stack))[16]?
      = some (if g.cs_syr4_coupling_conservativity = 0 then '0' else '1') ∧
    wire_message (init_comm_token g c stack)
      = cstr (init_comm_token g c stack) ++ List.replicate 15 NUL := by
  have hc : cstr (init_comm_token g c stack)
      = coupling_type ++ [boundary_flag c, volume_flag c, conservativity_flag g] := by
    rw [init_comm_token_eq]
    exact cstr_append_NUL _ _ (token_text_no_NUL g c)
  have hw := wire_message_text
    (coupling_type ++ [boundary_flag c, volume_flag c, conservativity_flag g])
    (stack.op_name_send.drop 18) (token_text_no_NUL g c) (by simp [coupling_type])
  rw [← init_comm_token_eq] at hw
  rw [hw, hc]
  refine ⟨rfl, ?_, ?_, rfl, rfl, rfl, ?_⟩
  · simp [coupling_type]
  · simp [coupling_type]
  · simp [coupling_type]

/-- Comparing a buffer with NUL-free text followed by its terminator: `strcmp`
stays inside both buffers, and yields 0 exactly when the buffer starts with
the text and a terminator. -/
theorem strcmp_text (s : List Char) (hs : ∀ x ∈ s, x ≠ NUL) :
    ∀ (a t : List Char), s.length < a.length →
      ∃ d : Int, strcmp a (s ++ NUL :: t) = some d ∧
        (d = 0 ↔ a.take (s.length + 1) = s ++ [NUL]) := by
  induction s with
  | nil =>
    intro a t ha
    cases a with
    | nil => simp at ha
    | cons x a1 =>
      by_cases hx : x = NUL
      · refine ⟨0, ?_, ?_⟩
        · simp [strcmp, hx]
        · simp [hx]
      · refine ⟨(x.toNat : Int) - (NUL.toNat : Int), ?_, ?_⟩
        · simp [strcmp, hx]
        · constructor
          · intro h0
            exfalso
            apply hx
            apply char_eq_of_toNat_eq
            omega
          · intro h1
            exfalso
            apply hx
            simpa using h1
  | cons y s ih =>
    intro a t ha
    have hy : y ≠ NUL := hs y (List.mem_cons_self y s)
    cases a with
    | nil => simp at ha
    | cons x a1 =>
      have ha1 : s.length < a1.length := by
        simp only [List.length_cons] at ha
        omega
      obtain ⟨d, hd, hd0⟩ := ih (fun z hz => hs z (List.mem_cons_of_mem y hz)) a1 t ha1
      by_cases hxy : x = y
      · subst hxy
        refine ⟨d, ?_, ?_⟩
        · simp [strcmp, hy, hd]
        · rw [hd0]
          simp
      · refine ⟨(x.toNat : Int) - (y.toNat : Int), ?_, ?_⟩
        · simp [strcmp, hxy]
        · constructor
          · intro h0
            exfalso
            apply hxy
            apply char_eq_of_toNat_eq
            omega
          · intro h1
            exfalso
            apply hxy
            simp only [List.length_cons, List.take_succ_cons, List.cons_append,
              List.cons.injEq] at h1
            exact h1.1

/-- A prefix of a buffer equals a list of the same length exactly when they
agree at every position of the prefix. -/
theorem take_eq_iff_forall {α : Type} (a b : List α) (n : Nat) (hb : b.length = n)
    (ha : n ≤ a.length) :
    a.take n = b ↔ ∀ p, p < n → a[p]? = b[p]? := by
  constructor
  · intro h p hp
    rw [← h, List.getElem?_take_of_lt hp]
  · intro h
    apply List.ext_getElem?
    intro p
    by_cases hp : p < n
    · rw [List.getElem?_take_of_lt hp]
      exact h p hp
    · have h1 : (List.take n a).length ≤ p := by
        rw [List.length_take]
        omega
      rw [List.getElem?_eq_none h1, List.getElem?_eq_none (by omega)]

/-- With `HAVE_MPI`, `_exchange_sync` with both arguments non-null leaves in
the first 32 entries of `op_name_recv` the 32 characters delivered to this
rank. -/
theorem exchange_sync_recv {R : Type} (env : MpiEnv) (c : cs_syr4_coupling_t R)
    (net : Incoming) (snd rcv : List Char) (hmpi : env.HAVE_MPI = true)
    (hlen : (delivered env net).length = 32) :
    ∃ r1 : List Char, (_exchange_sync env c net (some snd) (some rcv)).1 = some r1 ∧
      r1.take 32 = delivered env net := by
  have hstore : ∀ (b m : List Char), m.length = 32 → (mpi_store b m).take 32 = m := by
    intro b m hm
    unfold mpi_store
    rw [List.take_of_length_le (Nat.le_of_eq hm)]
    exact List.take_left' hm
  have hset : ∀ (l : List Char), ((l.set 32 NUL).take 32) = l.take 32 := by
    intro l
    apply List.ext_getElem?
    intro p
    by_cases hp : p < 32
    · rw [List.getElem?_take_of_lt hp, List.getElem?_take_of_lt hp,
        List.getElem?_set_ne (by omega)]
    · rw [List.getElem?_eq_none, List.getElem?_eq_none]
      · rw [List.length_take]
        omega
      · rw [List.length_take]
        omega
  unfold delivered at hlen ⊢
  unfold _exchange_sync
  simp only [hmpi, Bool.true_eq_false, if_false]
  by_cases hr : env.cs_glob_rank_id < 1
  · simp only [if_pos hr] at hlen ⊢
    by_cases hr2 : env.cs_glob_rank_id > -1
    · have hr0 : env.cs_glob_rank_id = 0 := by omega
      simp only [if_pos hr2, if_pos hr0]
      exact ⟨_, rfl, by rw [hset, hstore _ _ hlen]⟩
    · simp only [if_neg hr2]
      exact ⟨_, rfl, hstore _ _ hlen⟩
  · simp only [if_neg hr] at hlen ⊢
    have hr2 : env.cs_glob_rank_id > -1 := by omega
    have hr0 : ¬ env.cs_glob_rank_id = 0 := by omega
    simp only [if_pos hr2, if_neg hr0]
    exact ⟨_, rfl, by rw [hset, hstore _ _ hlen]⟩

/-- The negotiation token depends on the instance only through its two
selection criteria. -/
theorem init_comm_token_congr {R : Type} (g : Globals R) (c1 c2 : cs_syr4_coupling_t R)
    (stack : TokenStack) (hf : c1.face_sel = c2.face_sel) (hc : c1.cell_sel = c2.cell_sel) :
    init_comm_token g c1 stack = init_comm_token g c2 stack := by
  unfold init_comm_token boundary_flag volume_flag
  rw [hf, hc]

theorem _init_comm_face_sel {R : Type} (env : MpiEnv) (c : cs_syr4_coupling_t R) :
    (_init_comm env c).1.face_sel = c.face_sel := by
  unfold _init_comm
  split <;> rfl

theorem _init_comm_cell_sel {R : Type} (env : MpiEnv) (c : cs_syr4_coupling_t R) :
    (_init_comm env c).1.cell_sel = c.cell_sel := by
  unfold _init_comm
  split <;> rfl

/-- The outcome of `cs_syr4_coupling_init_comm` in a `HAVE_MPI` build, in terms
of the comparison of line 1285. -/
theorem init_comm_eq {R : Type} (env : MpiEnv) (g : Globals R)
    (c : cs_syr4_coupling_t R) (syr_root_rank n_syr_ranks : Int)
    (net : Incoming) (stack : TokenStack) (hmpi : env.HAVE_MPI = true)
    (hlen : (delivered env net).length = 32) :
    ∃ (st : Step R) (r1 : List Char), r1.take 32 = delivered env net ∧
      cs_syr4_coupling_init_comm env g c syr_root_rank n_syr_ranks net stack
        = match strcmp (r1.set 16 ((init_comm_token g c stack).getD 16 NUL))
            (init_comm_token g c stack) with
          | none => Handshake.fault st
          | some d =>
            if d ≠ 0 then
              Handshake.fatal (Fatal.incompatible_options (cstr (init_comm_token g c stack))
                (cstr (r1.set 16 ((init_comm_token g c stack).getD 16 NUL)))) st
            else Handshake.ok st := by
  have htok : init_comm_token g
      (_init_comm env
        { c with n_syr_ranks := n_syr_ranks, syr_root_rank := syr_root_rank }).1 stack
      = init_comm_token g c stack :=
    init_comm_token_congr g _ c stack
      (by rw [_init_comm_face_sel]) (by rw [_init_comm_cell_sel])
  obtain ⟨r1, hx, hr1⟩ := exchange_sync_recv env
    (_init_comm env
      { c with n_syr_ranks := n_syr_ranks, syr_root_rank := syr_root_rank }).1
    net (init_comm_token g c stack) stack.op_name_recv hmpi hlen
  refine ⟨{ coupling := (_init_comm env
        { c with n_syr_ranks := n_syr_ranks, syr_root_rank := syr_root_rank }).1
            calls := (_init_comm env
        { c with n_syr_ranks := n_syr_ranks, syr_root_rank := syr_root_rank }).2 ++
          (_exchange_sync env (_init_comm env
            { c with n_syr_ranks := n_syr_ranks, syr_root_rank := syr_root_rank }).1
            net (some (init_comm_token g c stack)) (some stack.op_name_recv)).2 },
    r1, hr1, ?_⟩
  unfold cs_syr4_coupling_init_comm
  simp only [hmpi, Bool.true_eq_false, if_false, htok, hx]

theorem token_text_length {R : Type} (g : Globals R) (c : cs_syr4_coupling_t R) :
    (coupling_type ++ [boundary_flag c, volume_flag c, conservativity_flag g]).length = 17 := by
  simp [coupling_type]

/-- The 32 characters sent for the negotiation token. -/
theorem wire_message_token {R : Type} (g : Globals R) (c : cs_syr4_coupling_t R)
    (stack : TokenStack) :
    wire_message (init_comm_token g c stack)
      = (coupling_type ++ [boundary_flag c, volume_flag c, conservativity_flag g])
          ++ List.replicate 15 NUL := by
  rw [init_comm_token_eq]
  have h := wire_message_text
    (coupling_type ++ [boundary_flag c, volume_flag c, conservativity_flag g])
    (stack.op_name_send.drop 18) (token_text_no_NUL g c)
    (by rw [token_text_length]; omega)
  rw [token_text_length] at h
  exact h

/-- Up to index 17 the text followed by its terminator and the text padded
with NUL hold the same characters. -/
theorem text_terminated_eq_padded (text : List Char) (n k : Nat) (hl : text.length = n)
    (hk : 0 < k) (p : Nat) (hp : p ≤ n) :
    (text ++ [NUL])[p]? = (text ++ List.replicate k NUL)[p]? := by
  by_cases h : p < n
  · rw [List.getElem?_append_left (by omega), List.getElem?_append_left (by omega)]
  · have hpn : p = n := by omega
    subst hpn
    rw [List.getElem?_append_right (by omega), List.getElem?_append_right (by omega), hl,
      Nat.sub_self, List.getElem?_replicate]
    simp [hk]

/-- The comparison of line 1285 in terms of the characters delivered: the
result is 0 exactly when the delivered characters agree with those sent at
every position up to 17 other than 16. -/
theorem init_comm_compare {R : Type} (g : Globals R) (c : cs_syr4_coupling_t R)
    (stack : TokenStack) (r1 msg : List Char) (hr1 : r1.take 32 = msg)
    (hlen : msg.length = 32) :
    ∃ d : Int,
      strcmp (r1.set 16 ((init_comm_token g c stack).getD 16 NUL))
        (init_comm_token g c stack) = some d ∧
      (d = 0 ↔ ∀ p, p ≤ 17 → p ≠ 16 →
        msg[p]? = (wire_message (init_comm_token g c stack))[p]?) := by
  have hrl : 32 ≤ r1.length := by
    have h := congrArg List.length hr1
    rw [List.length_take, hlen] at h
    omega
  have htl := token_text_length g c
  have hx : (init_comm_token g c stack).getD 16 NUL = conservativity_flag g := by
    rw [init_comm_token_eq]
    simp [coupling_type]
  have h16 : (coupling_type ++ [boundary_flag c, volume_flag c, conservativity_flag g]
      ++ [NUL])[16]? = some (conservativity_flag g) := by
    simp [coupling_type]
  rw [hx, wire_message_token]
  rw [init_comm_token_eq]
  obtain ⟨d, hd, hd0⟩ := strcmp_text
    (coupling_type ++ [boundary_flag c, volume_flag c, conservativity_flag g])
    (token_text_no_NUL g c) (r1.set 16 (conservativity_flag g))
    (stack.op_name_send.drop 18) (by rw [htl, List.length_set]; omega)
  refine ⟨d, hd, ?_⟩
  rw [hd0, take_eq_iff_forall _ _ _ (by simp) (by rw [htl, List.length_set]; omega), htl]
  have hmsg : ∀ p, p < 32 → msg[p]? = r1[p]? := by
    intro p hp
    rw [← hr1, List.getElem?_take_of_lt hp]
  constructor
  · intro h p hp hne
    rw [hmsg p (by omega), ← text_terminated_eq_padded _ 17 15 htl (by omega) p hp,
      ← h p (by omega), List.getElem?_set_ne (Ne.symm hne)]
  · intro h p hp
    by_cases hne : p = 16
    · subst hne
      rw [List.getElem?_set_self (by omega), h16]
    · rw [List.getElem?_set_ne (Ne.symm hne), ← hmsg p (by omega), h p (by omega) hne,
        text_terminated_eq_padded _ 17 15 htl (by omega) p (by omega)]

/-- The incompatible-options error is raised exactly when the characters
delivered differ from those sent at a position from 0 to 17 other than 16;
otherwise the call returns normally. -/
theorem init_comm_fatal_iff_positions {R : Type} (env : MpiEnv) (g : Globals R)
    (c : cs_syr4_coupling_t R) (syr_root_rank n_syr_ranks : Int)
    (net : Incoming) (stack : TokenStack) (hmpi : env.HAVE_MPI = true)
    (hlen : (delivered env net).length = 32) :
    ((∃ a b st, cs_syr4_coupling_init_comm env g c syr_root_rank n_syr_ranks net stack
        = Handshake.fatal (Fatal.incompatible_options a b) st) ↔
      ∃ p, p ≤ 17 ∧ p ≠ 16 ∧
        (delivered env net)[p]? ≠ (wire_message (init_comm_token g c stack))[p]?) ∧
    ((∀ p, p ≤ 17 → p ≠ 16 →
        (delivered env net)[p]? = (wire_message (init_comm_token g c stack))[p]?) →
      ∃ st, cs_syr4_coupling_init_comm env g c syr_root_rank n_syr_ranks net stack
        = Handshake.ok st) := by
  obtain ⟨st, r1, hr1, hres⟩ :=
    init_comm_eq env g c syr_root_rank n_syr_ranks net stack hmpi hlen
  obtain ⟨d, hd, hd0⟩ := init_comm_compare g c stack r1 (delivered env net) hr1 hlen
  rw [hd] at hres
  simp only [] at hres
  by_cases hz : d = 0
  · have hall := hd0.mp hz
    have hok : cs_syr4_coupling_init_comm env g c syr_root_rank n_syr_ranks net stack
        = Handshake.ok st := by
      rw [hres, if_neg (by simpa using hz)]
    refine ⟨⟨?_, ?_⟩, fun _ => ⟨st, hok⟩⟩
    · rintro ⟨a, b, st2, h⟩
      rw [hok] at h
      cases h
    · rintro ⟨p, hp, hne, hdiff⟩
      exact absurd (hall p hp hne) hdiff
  · have hfat : cs_syr4_coupling_init_comm env g c syr_root_rank n_syr_ranks net stack
        = Handshake.fatal (Fatal.incompatible_options (cstr (init_comm_token g c stack))
            (cstr (r1.set 16 ((init_comm_token g c stack).getD 16 NUL)))) st := by
      rw [hres, if_pos hz]
    have hex : ∃ p, p ≤ 17 ∧ p ≠ 16 ∧
        (delivered env net)[p]? ≠ (wire_message (init_comm_token g c stack))[p]? := by
      by_contra hcon
      apply hz
      apply hd0.mpr
      intro p hp hne
      by_contra hdiff
      exact hcon ⟨p, hp, hne, hdiff⟩
    refine ⟨⟨fun _ => hex, fun _ => ⟨_, _, st, hfat⟩⟩, ?_⟩
    intro hall
    obtain ⟨p, hp, hne, hdiff⟩ := hex
    exact absurd (hall p hp hne) hdiff

/-- C9 (refuted as stated): the partner message `stray_after_terminator`
differs from the 32 characters sent for the local token at position 20, which
is not the conservativity position, and yet `cs_syr4_coupling_init_comm` does
not raise the incompatible-options error: it returns normally. -/
theorem init_comm_stray_character_accepted :
    (∃ p, p < 32 ∧ p ≠ 16 ∧
      (delivered leader_env stray_after_terminator)[p]?
        ≠ (wire_message (init_comm_token (Globals.start Int) face_coupling used_stack))[p]?) ∧
    (¬ ∃ a b st,
      cs_syr4_coupling_init_comm leader_env (Globals.start Int) face_coupling 2 1
        stray_after_terminator used_stack
        = Handshake.fatal (Fatal.incompatible_options a b) st) ∧
    (∃ st,
      cs_syr4_coupling_init_comm leader_env (Globals.start Int) face_coupling 2 1
        stray_after_terminator used_stack = Handshake.ok st) := by
  have hok : ∃ st,
      cs_syr4_coupling_init_comm leader_env (Globals.start Int) face_coupling 2 1
        stray_after_terminator used_stack = Handshake.ok st := ⟨_, rfl⟩
  refine ⟨⟨20, by decide, by decide, by decide⟩, ?_, hok⟩
  rintro ⟨a, b, st, h⟩
  obtain ⟨st2, h2⟩ := hok
  rw [h2] at h
  cases h

/-- A partner message that carries the local boundary and volume flags and any
conservativity character is accepted. -/
theorem init_comm_conservativity_free {R : Type} (env : MpiEnv) (g : Globals R)
    (c : cs_syr4_coupling_t R) (syr_root_rank n_syr_ranks : Int)
    (net : Incoming) (stack : TokenStack) (hmpi : env.HAVE_MPI = true) (x : Char)
    (hd : delivered env net
      = coupling_type ++ [boundary_flag c, volume_flag c, x] ++ List.replicate 15 NUL) :
    ∃ st, cs_syr4_coupling_init_comm env g c syr_root_rank n_syr_ranks net stack
      = Handshake.ok st := by
  have hlen : (delivered env net).length = 32 := by
    rw [hd]
    simp [coupling_type]
  apply (init_comm_fatal_iff_positions env g c syr_root_rank n_syr_ranks net stack hmpi hlen).2
  intro p hp hne
  rw [hd, wire_message_token]
  have h17 : p < 18 := by omega
  interval_cases p <;> first | rfl | exact absurd rfl hne

/-- C9 (amended): in a `HAVE_MPI` build, for every 32 characters delivered to
the process as the partner token, `cs_syr4_coupling_init_comm` raises the
incompatible-options error if and only if these characters differ from the 32
characters sent for the local token at some position from 0 to 17 other than
the conservativity position 16, and otherwise returns normally (positions 18
to 31, after the terminator of the local token, are not compared); in
particular a partner token with the same boundary and volume flags and any
conservativity character never fails. -/
theorem init_comm_fatal_iff {R : Type} (env : MpiEnv) (g : Globals R)
    (c : cs_syr4_coupling_t R) (syr_root_rank n_syr_ranks : Int)
    (net : Incoming) (stack : TokenStack) (hmpi : env.HAVE_MPI = true)
    (hlen : (delivered env net).length = 32) :
    ((∃ a b st, cs_syr4_coupling_init_comm env g c syr_root_rank n_syr_ranks net stack
        = Handshake.fatal (Fatal.incompatible_options a b) st) ↔
      ∃ p, p ≤ 17 ∧ p ≠ 16 ∧
        (delivered env net)[p]? ≠ (wire_message (init_comm_token g c stack))[p]?) ∧
    ((∀ p, p ≤ 17 → p ≠ 16 →
        (delivered env net)[p]? = (wire_message (init_comm_token g c stack))[p]?) →
      ∃ st, cs_syr4_coupling_init_comm env g c syr_root_rank n_syr_ranks net stack
        = Handshake.ok st) ∧
    (∀ x : Char,
      delivered env net
        = coupling_type ++ [boundary_flag c, volume_flag c, x] ++ List.replicate 15 NUL →
      ∃ st, cs_syr4_coupling_init_comm env g c syr_root_rank n_syr_ranks net stack
        = Handshake.ok st) :=
  ⟨(init_comm_fatal_iff_positions env g c syr_root_rank n_syr_ranks net stack hmpi hlen).1,
   (init_comm_fatal_iff_positions env g c syr_root_rank n_syr_ranks net stack hmpi hlen).2,
   fun x hd =>
     init_comm_conservativity_free env g c syr_root_rank n_syr_ranks net stack hmpi x hd⟩

/-- Witness of C9 (amended): the leader of a surface-only coupling receiving
the token of a volume-only partner. -/
theorem init_comm_fatal_iff_witness :
    leader_env.HAVE_MPI = true ∧ (delivered leader_env volume_only_message).length = 32 ∧
    ((∃ a b st, cs_syr4_coupling_init_comm leader_env (Globals.start Int) face_coupling 2 1
          volume_only_message used_stack
        = Handshake.fatal (Fatal.incompatible_options a b) st) ↔
      ∃ p, p ≤ 17 ∧ p ≠ 16 ∧
        (delivered leader_env volume_only_message)[p]?
          ≠ (wire_message (init_comm_token (Globals.start Int) face_coupling used_stack))[p]?) ∧
    ((∀ p, p ≤ 17 → p ≠ 16 →
        (delivered leader_env volume_only_message)[p]?
          = (wire_message (init_comm_token (Globals.start Int) face_coupling used_stack))[p]?) →
      ∃ st, cs_syr4_coupling_init_comm leader_env (Globals.start Int) face_coupling 2 1
          volume_only_message used_stack = Handshake.ok st) ∧
    (∀ x : Char,
      delivered leader_env volume_only_message
        = coupling_type ++ [boundary_flag face_coupling, volume_flag face_coupling, x]
            ++ List.replicate 15 NUL →
      ∃ st, cs_syr4_coupling_init_comm leader_env (Globals.start Int) face_coupling 2 1
          volume_only_message used_stack = Handshake.ok st) :=
  ⟨rfl, rfl,
    init_comm_fatal_iff leader_env (Globals.start Int) face_coupling 2 1
      volume_only_message used_stack rfl rfl⟩

/-- Evaluation at the two messages used above: the volume-only token is
rejected with both tokens in the message, and a 16-character partner string
whose terminator sits at the conservativity position is rejected because of
the character that follows it. -/
theorem init_comm_rejections :
    (∃ st, cs_syr4_coupling_init_comm leader_env (Globals.start Int) face_coupling 2 1
        volume_only_message used_stack
      = Handshake.fatal
          (Fatal.incompatible_options (coupling_type ++ ['b', ' ', '0'])
            (coupling_type ++ [' ', 'v', '0'])) st) ∧
    cstr (delivered leader_env short_string_message) = coupling_type ++ ['b', ' '] ∧
    (∃ st, cs_syr4_coupling_init_comm leader_env (Globals.start Int) face_coupling 2 1
        short_string_message used_stack
      = Handshake.fatal
          (Fatal.incompatible_options (coupling_type ++ ['b', ' ', '0'])
            (coupling_type ++ ['b', ' ', '0', 'x'])) st) :=
  ⟨⟨_, rfl⟩, by decide, ⟨_, rfl⟩⟩

/-! ## Mesh initialisation: properties -/

/-- A buffer starts with NUL-free text and a terminator exactly when the C
string it holds is that text. -/
theorem take_eq_iff_cstr (s : List Char) (hs : ∀ x ∈ s, x ≠ NUL) :
    ∀ m : List Char, s.length < m.length →
      (m.take (s.length + 1) = s ++ [NUL] ↔ cstr m = s) := by
  induction s with
  | nil =>
    intro m hm
    cases m with
    | nil => simp at hm
    | cons x m1 =>
      unfold cstr
      by_cases hx : x = NUL
      · simp [hx]
      · simp [hx]
  | cons y s ih =>
    intro m hm
    have hy : y ≠ NUL := hs y (List.mem_cons_self y s)
    cases m with
    | nil => simp at hm
    | cons x m1 =>
      have hm1 : s.length < m1.length := by
        simp only [List.length_cons] at hm
        omega
      have ih2 := ih (fun z hz => hs z (List.mem_cons_of_mem y hz)) m1 hm1
      unfold cstr at ih2 ⊢
      by_cases hx : x = NUL
      · subst hx
        simp only [List.length_cons, List.take_succ_cons, List.cons_append, List.cons.injEq]
        constructor
        · intro h
          exact absurd h.1.symm hy
        · intro h
          simp at h
      · rw [List.takeWhile_cons_of_pos (by simpa using hx)]
        simp only [List.length_cons, List.take_succ_cons, List.cons_append, List.cons.injEq]
        rw [ih2]

/-- When the oracle values are those of a located mesh, `_create_coupled_ent`
returns an entity. -/
theorem create_coupled_ent_ok {R : Type} (c : cs_syr4_coupling_t R) (sel : String)
    (elt_dim : Int) (o : MeshOracle R) (h : located_ok c.dim o) :
    ∃ e, _create_coupled_ent c sel elt_dim o = Outcome.ok e := by
  obtain ⟨h1, h2, h3⟩ := h
  unfold _create_coupled_ent
  simp only [if_neg h1, if_neg h2, h3, ne_eq, not_true_eq_false, if_false]
  exact ⟨_, rfl⟩

theorem init_mesh_faces_ok {R : Type} (c : cs_syr4_coupling_t R) (o : MeshOracle R)
    (h : c.face_sel ≠ none → located_ok c.dim o) :
    ∃ c1, init_mesh_faces c o = Outcome.ok c1 ∧ c1.dim = c.dim ∧
      c1.cell_sel = c.cell_sel ∧ c1.face_sel = c.face_sel := by
  unfold init_mesh_faces
  cases hf : c.face_sel with
  | none => exact ⟨c, rfl, rfl, rfl, hf⟩
  | some sel =>
    obtain ⟨e, he⟩ := create_coupled_ent_ok c sel (c.dim - 1) o (h (by simp [hf]))
    simp only [he]
    exact ⟨_, rfl, rfl, rfl, rfl⟩

theorem init_mesh_cells_ok {R : Type} (c : cs_syr4_coupling_t R) (o : MeshOracle R)
    (h : c.cell_sel ≠ none → located_ok c.dim o) :
    ∃ c1, init_mesh_cells c o = Outcome.ok c1 ∧ c1.dim = c.dim ∧
      c1.cell_sel = c.cell_sel ∧ c1.face_sel = c.face_sel := by
  unfold init_mesh_cells
  cases hf : c.cell_sel with
  | none => exact ⟨c, rfl, rfl, hf, rfl⟩
  | some sel =>
    obtain ⟨e, he⟩ := create_coupled_ent_ok c sel c.dim o (h (by simp [hf]))
    simp only [he]
    exact ⟨_, rfl, rfl, rfl, rfl⟩

/-- The outcome of the final exchange in a `HAVE_MPI` build: the
unexpected-message error is raised exactly when the 32 characters delivered,
read as a C string, are not `coupling:start`; otherwise the step returns. -/
theorem init_mesh_start_iff {R : Type} (env : MpiEnv) (c : cs_syr4_coupling_t R)
    (net : Incoming) (stack : TokenStack) (hmpi : env.HAVE_MPI = true)
    (hlen : (delivered env net).length = 32) :
    ((∃ m st, init_mesh_start env c net stack
        = Handshake.fatal (Fatal.unexpected_message m) st) ↔
      cstr ((delivered env net).take 32) ≠ coupling_start) ∧
    (cstr ((delivered env net).take 32) = coupling_start →
      ∃ st, init_mesh_start env c net stack = Handshake.ok st) := by
  obtain ⟨r1, hx, hr1⟩ := exchange_sync_recv env c net
    (strcpy stack.op_name_send coupling_start) stack.op_name_recv hmpi hlen
  have hrl : 32 ≤ r1.length := by
    have h := congrArg List.length hr1
    rw [List.length_take, hlen] at h
    omega
  have hsn : ∀ x ∈ coupling_start, x ≠ NUL := by decide
  have hsl : coupling_start.length = 14 := rfl
  obtain ⟨d, hd, hd0⟩ := strcmp_text coupling_start hsn r1 [] (by rw [hsl]; omega)
  have hres : ∃ st : Step R, init_mesh_start env c net stack
      = if d ≠ 0 then Handshake.fatal (Fatal.unexpected_message (cstr r1)) st
        else Handshake.ok st := by
    refine ⟨{ coupling := c
              calls := (_exchange_sync env c net
                (some (strcpy stack.op_name_send coupling_start))
                (some stack.op_name_recv)).2 }, ?_⟩
    unfold init_mesh_start
    simp only [hx, hd]
  obtain ⟨st, hres⟩ := hres
  have hmsg : (delivered env net).take 32 = delivered env net :=
    List.take_of_length_le (Nat.le_of_eq hlen)
  have hkey : d = 0 ↔ cstr ((delivered env net).take 32) = coupling_start := by
    rw [hd0, hmsg, ← take_eq_iff_cstr coupling_start hsn (delivered env net)
      (by rw [hsl, hlen]; omega), ← hr1, List.take_take, hsl]
    rfl
  by_cases hz : d = 0
  · have hok : init_mesh_start env c net stack = Handshake.ok st := by
      rw [hres, if_neg (by simpa using hz)]
    refine ⟨⟨?_, ?_⟩, fun _ => ⟨_, hok⟩⟩
    · rintro ⟨m, st, h⟩
      rw [hok] at h
      cases h
    · intro hne
      exact absurd (hkey.mp hz) hne
  · have hfat : init_mesh_start env c net stack
        = Handshake.fatal (Fatal.unexpected_message (cstr r1)) st := by
      rw [hres, if_pos hz]
    refine ⟨⟨fun _ h => hz (hkey.mpr h), fun _ => ⟨_, _, hfat⟩⟩, ?_⟩
    intro h
    exact absurd (hkey.mpr h) hz

/-- C10: when the coupled entities have been created (`HAVE_MPI` build,
dimension 2 or 3, located meshes), `cs_syr4_coupling_init_mesh` raises the
unexpected-message error if and only if the 32 characters received in the
final exchange, read as a NUL-terminated string of at most 32 characters, are
not exactly `coupling:start`; when they are, it returns normally. -/
theorem init_mesh_unexpected_iff {R : Type} (env : MpiEnv) (c : cs_syr4_coupling_t R)
    (face_oracle cell_oracle : MeshOracle R) (net : Incoming) (stack : TokenStack)
    (hmpi : env.HAVE_MPI = true) (hlen : (delivered env net).length = 32)
    (hdim : c.dim = 3 ∨ c.dim = 2)
    (hf : c.face_sel ≠ none → located_ok c.dim face_oracle)
    (hc : c.cell_sel ≠ none → located_ok c.dim cell_oracle) :
    ((∃ m st, cs_syr4_coupling_init_mesh env c face_oracle cell_oracle net stack
        = Handshake.fatal (Fatal.unexpected_message m) st) ↔
      cstr ((delivered env net).take 32) ≠ coupling_start) ∧
    (cstr ((delivered env net).take 32) = coupling_start →
      ∃ st, cs_syr4_coupling_init_mesh env c face_oracle cell_oracle net stack
        = Handshake.ok st) := by
  obtain ⟨c1, h1, hd1, hc1, _⟩ := init_mesh_faces_ok c face_oracle hf
  obtain ⟨c2, h2, _, _, _⟩ := init_mesh_cells_ok c1 cell_oracle (by
    rw [hc1, hd1]
    exact hc)
  have heq : cs_syr4_coupling_init_mesh env c face_oracle cell_oracle net stack
      = init_mesh_start env c2 net stack := by
    unfold cs_syr4_coupling_init_mesh
    rw [if_neg (not_not.mpr hdim)]
    simp only [h1, h2]
  rw [heq]
  exact init_mesh_start_iff env c2 net stack hmpi hlen

/-- Witness of C10: the leader of a surface-only coupling with a located
surface, receiving `coupling:stop`. -/
theorem init_mesh_unexpected_iff_witness :
    leader_env.HAVE_MPI = true ∧ (delivered leader_env stop_message).length = 32 ∧
    (face_coupling.dim = 3 ∨ face_coupling.dim = 2) ∧
    located_ok face_coupling.dim four_faces_oracle ∧
    ((∃ m st, cs_syr4_coupling_init_mesh leader_env face_coupling four_faces_oracle
          four_faces_oracle stop_message used_stack
        = Handshake.fatal (Fatal.unexpected_message m) st) ↔
      cstr ((delivered leader_env stop_message).take 32) ≠ coupling_start) ∧
    (cstr ((delivered leader_env stop_message).take 32) = coupling_start →
      ∃ st, cs_syr4_coupling_init_mesh leader_env face_coupling four_faces_oracle
          four_faces_oracle stop_message used_stack = Handshake.ok st) :=
  have hloc : located_ok face_coupling.dim four_faces_oracle :=
    ⟨by decide, by decide, rfl⟩
  ⟨rfl, rfl, Or.inl rfl, hloc,
    init_mesh_unexpected_iff leader_env face_coupling four_faces_oracle four_faces_oracle
      stop_message used_stack rfl rfl (Or.inl rfl) (fun _ => hloc)
      (fun h => absurd rfl h)⟩

/-- Evaluation of `cs_syr4_coupling_init_mesh` at the two messages used above:
`coupling:stop` is rejected with the received text in the message, and
`coupling:start` is accepted with the surface entity in place. -/
theorem init_mesh_examples :
    (∃ st, cs_syr4_coupling_init_mesh leader_env face_coupling four_faces_oracle
        four_faces_oracle stop_message used_stack
      = Handshake.fatal (Fatal.unexpected_message
          ['c', 'o', 'u', 'p', 'l', 'i', 'n', 'g', ':', 's', 't', 'o', 'p']) st) ∧
    (∃ st, cs_syr4_coupling_init_mesh leader_env face_coupling four_faces_oracle
        four_faces_oracle start_message used_stack = Handshake.ok st ∧
      st.coupling.cells = none ∧
      (st.coupling.faces.map fun e => e.n_elts) = some 4) :=
  ⟨⟨_, rfl⟩, ⟨_, rfl, rfl, rfl⟩⟩

/-! ## Runs without MPI -/

/-- C11 (code evaluated at the failing inputs): in a `HAVE_MPI` build with MPI
not initialised, `_init_comm` creates no communicator, but
`cs_syr4_coupling_init_comm` still issues the `MPI_Sendrecv` of the
negotiation token and compares the receive buffer, here ending in the
incompatible-options error; in a build without `HAVE_MPI`,
`cs_syr4_coupling_init_comm` does nothing and no message is exchanged, but
`cs_syr4_coupling_init_mesh` still compares its never-written receive buffer
with `coupling:start` and ends in the unexpected-message error. -/
theorem exchanges_not_skipped_without_mpi :
    ((_init_comm mpi_inactive_env face_coupling).1.comm = none ∧
      (_init_comm mpi_inactive_env face_coupling).2 = []) ∧
    (∃ b st,
      cs_syr4_coupling_init_comm mpi_inactive_env (Globals.start Int) face_coupling 0 1
        nothing_delivered used_stack
        = Handshake.fatal (Fatal.incompatible_options (coupling_type ++ ['b', ' ', '0']) b) st ∧
      st.coupling.comm = none ∧
      st.calls = [MpiCall.sendrecv
        (coupling_type ++ ['b', ' ', '0'] ++ List.replicate 15 NUL) 0]) ∧
    cs_syr4_coupling_init_comm build_without_mpi (Globals.start Int) face_coupling 0 1
        nothing_delivered used_stack
      = Handshake.ok { coupling := face_coupling, calls := [] } ∧
    (∃ st,
      cs_syr4_coupling_init_mesh build_without_mpi face_coupling four_faces_oracle
        four_faces_oracle nothing_delivered used_stack
        = Handshake.fatal (Fatal.unexpected_message (List.replicate 33 '?')) st ∧
      st.calls = []) :=
  ⟨⟨rfl, rfl⟩, ⟨_, _, rfl, rfl, rfl⟩, rfl, ⟨_, rfl, rfl⟩⟩

/-! ## Entity creation: properties -/

/-- The outcome of `_create_coupled_ent` once the extracted mesh is not empty
and the projection raised no error. -/
theorem create_coupled_ent_eq {R : Type} (c : cs_syr4_coupling_t R) (sel : String)
    (elt_dim : Int) (o : MeshOracle R) (h1 : o.n_g_vertices ≠ 0)
    (h2 : ¬ (c.dim = 2 ∧ o.n_errors > 0)) :
    ∃ e : cs_syr4_coupling_ent_t R,
      _create_coupled_ent c sel elt_dim o
        = (if o.located.n_exterior + o.n_exterior_other_ranks ≠ 0 then
            Outcome.fatal
              (Fatal.not_located (o.located.n_exterior + o.n_exterior_other_ranks) none) e
          else Outcome.ok e) ∧
      ∀ sel2 : String, _create_coupled_ent c sel2 elt_dim o = _create_coupled_ent c sel elt_dim o := by
  refine ⟨located_ent c elt_dim o, ?_, ?_⟩
  · unfold _create_coupled_ent
    simp only [if_neg h1, if_neg h2]
  · intro sel2
    unfold _create_coupled_ent
    simp only [if_neg h1, if_neg h2]

/-- C18: once `_create_coupled_ent` reaches its final check (non-empty
extracted mesh, no projection error), it fails with the coupling-impossible
error if and only if the number of exterior points summed over all processes
is not zero, and it returns an entity if and only if that sum is zero. -/
theorem create_ent_fails_iff_exterior {R : Type} (c : cs_syr4_coupling_t R) (sel : String)
    (elt_dim : Int) (o : MeshOracle R) (h1 : o.n_g_vertices ≠ 0)
    (h2 : ¬ (c.dim = 2 ∧ o.n_errors > 0)) :
    ((∃ n name e, _create_coupled_ent c sel elt_dim o
        = Outcome.fatal (Fatal.not_located n name) e) ↔
      o.located.n_exterior + o.n_exterior_other_ranks ≠ 0) ∧
    ((∃ e, _create_coupled_ent c sel elt_dim o = Outcome.ok e) ↔
      o.located.n_exterior + o.n_exterior_other_ranks = 0) := by
  obtain ⟨e, he, _⟩ := create_coupled_ent_eq c sel elt_dim o h1 h2
  by_cases hz : o.located.n_exterior + o.n_exterior_other_ranks = 0
  · rw [if_neg (not_not.mpr hz)] at he
    refine ⟨⟨?_, fun h => absurd hz h⟩, ⟨fun _ => hz, fun _ => ⟨e, he⟩⟩⟩
    rintro ⟨n, name, e2, h⟩
    rw [he] at h
    cases h
  · rw [if_pos hz] at he
    refine ⟨⟨fun _ => hz, fun _ => ⟨_, _, e, he⟩⟩, ⟨?_, fun h => absurd h hz⟩⟩
    rintro ⟨e2, h⟩
    rw [he] at h
    cases h

/-- Witness of C18: a surface with three exterior points over two ranks. -/
theorem create_ent_fails_iff_exterior_witness :
    ((∃ n name e, _create_coupled_ent face_coupling "wall" 2 unlocated_oracle
        = Outcome.fatal (Fatal.not_located n name) e) ↔
      unlocated_oracle.located.n_exterior + unlocated_oracle.n_exterior_other_ranks ≠ 0) ∧
    ((∃ e, _create_coupled_ent face_coupling "wall" 2 unlocated_oracle = Outcome.ok e) ↔
      unlocated_oracle.located.n_exterior + unlocated_oracle.n_exterior_other_ranks = 0) :=
  create_ent_fails_iff_exterior face_coupling "wall" 2 unlocated_oracle (by decide) (by decide)

/-- C19 (refuted as stated): for the selection criterion `wall` and three
exterior points the error carries the count 3 and, as text argument, the null
pointer left in `coupled_mesh_name` by `BFT_FREE`, not the criterion. -/
theorem not_located_error_without_criterion :
    (∃ e, _create_coupled_ent face_coupling "wall" 2 unlocated_oracle
      = Outcome.fatal (Fatal.not_located 3 none) e) ∧
    (¬ ∃ e, _create_coupled_ent face_coupling "wall" 2 unlocated_oracle
      = Outcome.fatal (Fatal.not_located 3 (some "wall")) e) := by
  have h : ∃ e, _create_coupled_ent face_coupling "wall" 2 unlocated_oracle
      = Outcome.fatal (Fatal.not_located 3 none) e := ⟨_, rfl⟩
  refine ⟨h, ?_⟩
  rintro ⟨e, he⟩
  obtain ⟨e2, h2⟩ := h
  rw [h2] at he
  cases he

/-- C19 (amended): when location fails, the error raised by
`_create_coupled_ent` carries the number of exterior points summed over all
processes, and it is the same whatever selection criterion was passed. -/
theorem not_located_error_content {R : Type} (c : cs_syr4_coupling_t R) (sel : String)
    (elt_dim : Int) (o : MeshOracle R) (h1 : o.n_g_vertices ≠ 0)
    (h2 : ¬ (c.dim = 2 ∧ o.n_errors > 0))
    (h3 : o.located.n_exterior + o.n_exterior_other_ranks ≠ 0) :
    (∃ name e, _create_coupled_ent c sel elt_dim o
      = Outcome.fatal
          (Fatal.not_located (o.located.n_exterior + o.n_exterior_other_ranks) name) e) ∧
    (∀ sel2 : String,
      _create_coupled_ent c sel2 elt_dim o = _create_coupled_ent c sel elt_dim o) := by
  obtain ⟨e, he, hsel⟩ := create_coupled_ent_eq c sel elt_dim o h1 h2
  rw [if_pos h3] at he
  exact ⟨⟨none, e, he⟩, hsel⟩

/-- Witness of C19 (amended): the surface with three exterior points. -/
theorem not_located_error_content_witness :
    (∃ name e, _create_coupled_ent face_coupling "wall" 2 unlocated_oracle
      = Outcome.fatal
          (Fatal.not_located
            (unlocated_oracle.located.n_exterior + unlocated_oracle.n_exterior_other_ranks)
            name) e) ∧
    (∀ sel2 : String,
      _create_coupled_ent face_coupling sel2 2 unlocated_oracle
        = _create_coupled_ent face_coupling "wall" 2 unlocated_oracle) :=
  not_located_error_content face_coupling "wall" 2 unlocated_oracle (by decide) (by decide)
    (by decide)

theorem BFT_MALLOC_pos {R : Type} (n : Nat) (content : Nat → R) (hn : 0 < n) :
    ∃ l, BFT_MALLOC n content = some l ∧ l.length = n := by
  unfold BFT_MALLOC
  rw [if_neg (by omega)]
  exact ⟨_, rfl, by simp⟩

/-- An entity returned by `_create_coupled_ent` is the located entity. -/
theorem create_coupled_ent_ok_eq {R : Type} (c : cs_syr4_coupling_t R) (sel : String)
    (elt_dim : Int) (o : MeshOracle R) (e : cs_syr4_coupling_ent_t R)
    (h : _create_coupled_ent c sel elt_dim o = Outcome.ok e) :
    e = located_ent c elt_dim o := by
  unfold _create_coupled_ent at h
  split at h
  · cases h
  · split at h
    · cases h
    · simp only [] at h
      split at h
      · cases h
      · cases h
        rfl

theorem _post_init_n_elts {R : Type} (e : cs_syr4_coupling_ent_t R) (o : MeshOracle R) :
    (_post_init e o).n_elts = e.n_elts := by
  unfold _post_init
  split
  · rfl
  · simp only []
    split <;> rfl

theorem _post_init_hvol {R : Type} (e : cs_syr4_coupling_ent_t R) (o : MeshOracle R) :
    (_post_init e o).hvol = e.hvol ∧ (_post_init e o).sol_temp = e.sol_temp := by
  unfold _post_init
  split
  · exact ⟨rfl, rfl⟩
  · simp only []
    split <;> exact ⟨rfl, rfl⟩

theorem located_ent_n_elts {R : Type} (c : cs_syr4_coupling_t R) (elt_dim : Int)
    (o : MeshOracle R) :
    (located_ent c elt_dim o).n_elts = (extracted_ent c elt_dim o).n_elts := by
  unfold located_ent
  simp only []
  split
  · exact _post_init_n_elts _ o
  · rfl

theorem located_ent_hvol {R : Type} (c : cs_syr4_coupling_t R) (elt_dim : Int)
    (o : MeshOracle R) :
    (located_ent c elt_dim o).hvol = (extracted_ent c elt_dim o).hvol ∧
    (located_ent c elt_dim o).sol_temp = (extracted_ent c elt_dim o).sol_temp := by
  unfold located_ent
  simp only []
  split
  · exact _post_init_hvol _ o
  · exact ⟨rfl, rfl⟩

theorem extracted_ent_buffers {R : Type} (c : cs_syr4_coupling_t R) (elt_dim : Int)
    (o : MeshOracle R) :
    (extracted_ent c elt_dim o).solid_temp = none ∧ (extracted_ent c elt_dim o).flux = none ∧
    (extracted_ent c elt_dim o).post_mesh_id = 0 := by
  unfold extracted_ent
  simp only []
  split
  · exact ⟨rfl, rfl, rfl⟩
  · split <;> exact ⟨rfl, rfl, rfl⟩

/-- C13 (refuted as stated): a surface entity of four faces created for a
coupling without visualization is returned with neither the solid-temperature
buffer nor the flux buffer allocated. -/
theorem created_ent_without_diagnostic_buffers :
    ∃ e, _create_coupled_ent face_coupling "wall" 2 four_faces_oracle = Outcome.ok e ∧
      e.n_elts = 4 ∧ e.solid_temp = none ∧ e.flux = none :=
  ⟨_, rfl, rfl, rfl, rfl⟩

/-- C13 (amended): an entity returned by `_create_coupled_ent` with
`n_elts > 0` has the solid-temperature and flux buffers allocated with `n_elts`
entries when visualization is requested and the post-processing writer exists,
and has neither otherwise; a volumetric entity has `hvol` and `sol_temp`
allocated with `n_elts` entries whatever the visualization setting. -/
theorem created_ent_buffers {R : Type} (c : cs_syr4_coupling_t R) (sel : String)
    (elt_dim : Int) (o : MeshOracle R) (e : cs_syr4_coupling_ent_t R)
    (h : _create_coupled_ent c sel elt_dim o = Outcome.ok e) (hn : 0 < e.n_elts) :
    (c.visualization ≠ 0 ∧ o.writer_exists = true →
      ∃ st fl, e.solid_temp = some st ∧ st.length = e.n_elts ∧
        e.flux = some fl ∧ fl.length = e.n_elts) ∧
    (c.visualization = 0 ∨ o.writer_exists = false →
      e.solid_temp = none ∧ e.flux = none) ∧
    (elt_dim = c.dim →
      ∃ hv so, e.hvol = some hv ∧ hv.length = e.n_elts ∧
        e.sol_temp = some so ∧ so.length = e.n_elts) := by
  have he := create_coupled_ent_ok_eq c sel elt_dim o e h
  subst he
  have hne := located_ent_n_elts c elt_dim o
  obtain ⟨hs0, hf0, _⟩ := extracted_ent_buffers c elt_dim o
  rw [hne] at hn ⊢
  refine ⟨?_, ?_, ?_⟩
  · rintro ⟨hv, hw⟩
    obtain ⟨st, hst, hstl⟩ := BFT_MALLOC_pos (extracted_ent c elt_dim o).n_elts (o.heap 2) hn
    obtain ⟨fl, hfl, hfll⟩ := BFT_MALLOC_pos (extracted_ent c elt_dim o).n_elts (o.heap 3) hn
    refine ⟨st, fl, ?_, hstl, ?_, hfll⟩
    · unfold located_ent _post_init
      simp only [if_pos hv, hw, ne_eq, not_true_eq_false, if_false, if_pos hn, hst]
    · unfold located_ent _post_init
      simp only [if_pos hv, hw, ne_eq, not_true_eq_false, if_false, if_pos hn, hfl]
  · intro hvw
    unfold located_ent _post_init
    cases hvw with
    | inl hv =>
      simp only [hv, ne_eq, not_true_eq_false, if_false]
      exact ⟨hs0, hf0⟩
    | inr hw =>
      simp only [hw, ne_eq, Bool.false_eq_true, not_false_eq_true, if_true]
      split
      · exact ⟨hs0, hf0⟩
      · exact ⟨hs0, hf0⟩
  · intro hd
    obtain ⟨hh, hs⟩ := located_ent_hvol c elt_dim o
    rw [hh, hs]
    have hsel : (extracted_ent c elt_dim o).n_elts = o.n_selected := by
      unfold extracted_ent
      simp only [if_pos hd]
    rw [hsel] at hn ⊢
    obtain ⟨hv, hhv, hhvl⟩ := BFT_MALLOC_pos o.n_selected (o.heap 0) hn
    obtain ⟨so, hso, hsol⟩ := BFT_MALLOC_pos o.n_selected (o.heap 1) hn
    refine ⟨hv, so, ?_, hhvl, ?_, hsol⟩
    · unfold extracted_ent
      simp only [if_pos hd, hhv]
    · unfold extracted_ent
      simp only [if_pos hd, hso]

/-- Witness of C13 (amended): a volume entity of four cells created with
visualization requested. -/
theorem created_ent_buffers_witness :
    (visual_cell_coupling.visualization ≠ 0 ∧ four_faces_oracle.writer_exists = true →
      ∃ st fl, (located_ent visual_cell_coupling 3 four_faces_oracle).solid_temp = some st ∧
        st.length = (located_ent visual_cell_coupling 3 four_faces_oracle).n_elts ∧
        (located_ent visual_cell_coupling 3 four_faces_oracle).flux = some fl ∧
        fl.length = (located_ent visual_cell_coupling 3 four_faces_oracle).n_elts) ∧
    (visual_cell_coupling.visualization = 0 ∨ four_faces_oracle.writer_exists = false →
      (located_ent visual_cell_coupling 3 four_faces_oracle).solid_temp = none ∧
      (located_ent visual_cell_coupling 3 four_faces_oracle).flux = none) ∧
    ((3 : Int) = visual_cell_coupling.dim →
      ∃ hv so, (located_ent visual_cell_coupling 3 four_faces_oracle).hvol = some hv ∧
        hv.length = (located_ent visual_cell_coupling 3 four_faces_oracle).n_elts ∧
        (located_ent visual_cell_coupling 3 four_faces_oracle).sol_temp = some so ∧
        so.length = (located_ent visual_cell_coupling 3 four_faces_oracle).n_elts) :=
  created_ent_buffers visual_cell_coupling "box" 3 four_faces_oracle
    (located_ent visual_cell_coupling 3 four_faces_oracle) rfl (by decide)

/-! ## Content of the negotiation error -/

/-- A terminator appended to a buffer does not change the C string it holds. -/
theorem cstr_append_terminator (l : List Char) : cstr (l ++ [NUL]) = cstr l := by
  unfold cstr
  induction l with
  | nil => simp
  | cons x l ih =>
    by_cases hx : x = NUL
    · simp [hx]
    · simp only [List.cons_append]
      rw [List.takeWhile_cons_of_pos (by simpa using hx),
        List.takeWhile_cons_of_pos (by simpa using hx), ih]

/-- With `HAVE_MPI`, a 33-character receive buffer holds after `_exchange_sync`
the 32 characters delivered, followed by a terminator when the rank id is not
-1 and by its former last character otherwise. -/
theorem exchange_sync_recv_eq {R : Type} (env : MpiEnv) (c : cs_syr4_coupling_t R)
    (net : Incoming) (snd rcv : List Char) (hmpi : env.HAVE_MPI = true)
    (hlen : (delivered env net).length = 32) (hr : rcv.length = 33) :
    (_exchange_sync env c net (some snd) (some rcv)).1
      = some (delivered env net
          ++ (if env.cs_glob_rank_id > -1 then [NUL] else rcv.drop 32)) := by
  have hstore : ∀ (m : List Char), m.length = 32 → mpi_store rcv m = m ++ rcv.drop 32 := by
    intro m hm
    unfold mpi_store
    rw [List.take_of_length_le (Nat.le_of_eq hm), hm]
  have hset : ∀ (m : List Char), m.length = 32 →
      (m ++ rcv.drop 32).set 32 NUL = m ++ [NUL] := by
    intro m hm
    rw [List.set_append_right 32 NUL (Nat.le_of_eq hm), hm, Nat.sub_self]
    have hd : ∃ y, rcv.drop 32 = [y] := by
      have hl : (rcv.drop 32).length = 1 := by
        rw [List.length_drop, hr]
      match hdr : rcv.drop 32, hl with
      | [y], _ => exact ⟨y, rfl⟩
    obtain ⟨y, hy⟩ := hd
    rw [hy]
    rfl
  unfold delivered at hlen ⊢
  unfold _exchange_sync
  simp only [hmpi, Bool.true_eq_false, if_false]
  by_cases hr1 : env.cs_glob_rank_id < 1
  · simp only [if_pos hr1] at hlen ⊢
    by_cases hr2 : env.cs_glob_rank_id > -1
    · have hr0 : env.cs_glob_rank_id = 0 := by omega
      simp only [if_pos hr2, if_pos hr0]
      rw [hstore _ hlen, hset _ hlen]
    · simp only [if_neg hr2]
      rw [hstore _ hlen]
  · simp only [if_neg hr1] at hlen ⊢
    have hr2 : env.cs_glob_rank_id > -1 := by omega
    have hr0 : ¬ env.cs_glob_rank_id = 0 := by omega
    simp only [if_pos hr2, if_neg hr0]
    rw [hstore _ hlen, hset _ hlen]

/-- C20 (refuted as stated): the partner sends `coupling:type: v1` and the
message of the incompatible-options error shows `coupling:type: v0` as the
partner token: its character 16 is the local conservativity flag. -/
theorem init_comm_error_alters_partner_token :
    cstr (delivered leader_env volume_only_conservative) = coupling_type ++ [' ', 'v', '1'] ∧
    (∃ st, cs_syr4_coupling_init_comm leader_env (Globals.start Int) face_coupling 2 1
        volume_only_conservative used_stack
      = Handshake.fatal
          (Fatal.incompatible_options (coupling_type ++ ['b', ' ', '0'])
            (coupling_type ++ [' ', 'v', '0'])) st) :=
  ⟨by decide, ⟨_, rfl⟩⟩

/-- C20 (amended): when negotiation fails, the local token shown by the error
is the token that was sent, and the partner token shown is the string held by
the 32 characters received after the character at index 16 has been replaced
by the local conservativity flag. -/
theorem init_comm_error_tokens {R : Type} (env : MpiEnv) (g : Globals R)
    (c : cs_syr4_coupling_t R) (syr_root_rank n_syr_ranks : Int)
    (net : Incoming) (stack : TokenStack) (hmpi : env.HAVE_MPI = true)
    (hlen : (delivered env net).length = 32) (hr : stack.op_name_recv.length = 33)
    (a b : List Char) (st : Step R)
    (h : cs_syr4_coupling_init_comm env g c syr_root_rank n_syr_ranks net stack
      = Handshake.fatal (Fatal.incompatible_options a b) st) :
    a = cstr (wire_message (init_comm_token g c stack)) ∧
    b = cstr ((delivered env net).set 16 (conservativity_flag g)
          ++ (if env.cs_glob_rank_id > -1 then [NUL] else stack.op_name_recv.drop 32)) ∧
    (env.cs_glob_rank_id > -1 →
      b = cstr ((delivered env net).set 16 (conservativity_flag g))) := by
  have htok : init_comm_token g
      (_init_comm env
        { c with n_syr_ranks := n_syr_ranks, syr_root_rank := syr_root_rank }).1 stack
      = init_comm_token g c stack :=
    init_comm_token_congr g _ c stack
      (by rw [_init_comm_face_sel]) (by rw [_init_comm_cell_sel])
  have hx := exchange_sync_recv_eq env
    (_init_comm env
      { c with n_syr_ranks := n_syr_ranks, syr_root_rank := syr_root_rank }).1
    net (init_comm_token g c stack) stack.op_name_recv hmpi hlen hr
  have hflag : (init_comm_token g c stack).getD 16 NUL = conservativity_flag g := by
    rw [init_comm_token_eq]
    simp [coupling_type]
  have hsent : cstr (wire_message (init_comm_token g c stack))
      = cstr (init_comm_token g c stack) := by
    rw [wire_message_token, init_comm_token_eq,
      cstr_append_NUL _ _ (token_text_no_NUL g c)]
    exact cstr_append_NUL _ (List.replicate 14 NUL) (token_text_no_NUL g c)
  unfold cs_syr4_coupling_init_comm at h
  simp only [hmpi, Bool.true_eq_false, if_false, htok, hx, hflag] at h
  rw [List.set_append_left 16 _ (by omega)] at h
  split at h
  · cases h
  · split at h
    · simp only [Handshake.fatal.injEq, Fatal.incompatible_options.injEq] at h
      obtain ⟨⟨ha, hb⟩, _⟩ := h
      refine ⟨by rw [hsent, ha], hb.symm, ?_⟩
      intro hrank
      rw [← hb, if_pos hrank]
      exact cstr_append_terminator _
    · cases h

/-- Witness of C20 (amended): the leader of a surface-only coupling receiving
the token of a volume-only partner with conservativity. -/
theorem init_comm_error_tokens_witness :
    (coupling_type ++ ['b', ' ', '0'])
      = cstr (wire_message (init_comm_token (Globals.start Int) face_coupling used_stack)) ∧
    (coupling_type ++ [' ', 'v', '0'])
      = cstr ((delivered leader_env volume_only_conservative).set 16
            (conservativity_flag (Globals.start Int))
          ++ (if leader_env.cs_glob_rank_id > -1 then [NUL]
              else used_stack.op_name_recv.drop 32)) ∧
    (leader_env.cs_glob_rank_id > -1 →
      (coupling_type ++ [' ', 'v', '0'])
        = cstr ((delivered leader_env volume_only_conservative).set 16
            (conservativity_flag (Globals.start Int)))) :=
  init_comm_error_tokens leader_env (Globals.start Int) face_coupling 2 1
    volume_only_conservative used_stack rfl rfl rfl
    (coupling_type ++ ['b', ' ', '0']) (coupling_type ++ [' ', 'v', '0']) _ rfl

/-! ## Steady-state exchange: loops -/

/-- Running `update_loop` over indices at which every read succeeds: the loop
ends, the length is kept, the entries visited hold the values computed from
their former content and the others are unchanged. -/
theorem update_loop_spec {R : Type} (f : Nat → R → Option R) :
    ∀ (count start : Nat) (a : List R),
      (∀ i, start ≤ i → i < start + count → ∃ old v, a[i]? = some old ∧ f i old = some v) →
      ∃ a1 : List R, update_loop f count start a = some a1 ∧ a1.length = a.length ∧
        ∀ j, a1[j]? = if start ≤ j ∧ j < start + count then (a[j]?).bind (f j) else a[j]? := by
  intro count
  induction count with
  | zero =>
    intro start a _
    refine ⟨a, rfl, rfl, ?_⟩
    intro j
    rw [if_neg (by omega)]
  | succ k ih =>
    intro start a h
    obtain ⟨old, v, hold, hv⟩ := h start (Nat.le_refl _) (by omega)
    have hlt : start < a.length := (List.getElem?_eq_some_iff.mp hold).1
    have hnext : ∀ i, start + 1 ≤ i → i < start + 1 + k →
        ∃ o2 v2, (a.set start v)[i]? = some o2 ∧ f i o2 = some v2 := by
      intro i h1 h2
      obtain ⟨o2, v2, ho2, hv2⟩ := h i (by omega) (by omega)
      refine ⟨o2, v2, ?_, hv2⟩
      rw [List.getElem?_set_ne (by omega)]
      exact ho2
    obtain ⟨a1, hrun, hlen, hget⟩ := ih (start + 1) (a.set start v) hnext
    refine ⟨a1, ?_, ?_, ?_⟩
    · simp only [update_loop, hold, hv]
      exact hrun
    · rw [hlen, List.length_set]
    · intro j
      rw [hget j]
      by_cases hj : start + 1 ≤ j ∧ j < start + 1 + k
      · rw [if_pos hj, if_pos (by omega), List.getElem?_set_ne (by omega)]
      · rw [if_neg hj]
        by_cases hjs : j = start
        · subst hjs
          rw [if_pos (by omega), List.getElem?_set_self hlt, hold]
          exact hv.symm
        · rw [if_neg (by omega), List.getElem?_set_ne (fun h => hjs h.symm)]

/-- A loop over a whole array whose new values do not depend on the former
ones and are the entries of `target` leaves `target`. -/
theorem update_loop_copy {R : Type} (f : Nat → R → Option R) (a target : List R)
    (hlen : a.length = target.length) (hf : ∀ i old, f i old = target[i]?) :
    update_loop f a.length 0 a = some target := by
  obtain ⟨a1, hrun, hl, hget⟩ := update_loop_spec f a.length 0 a (by
    intro i _ hi
    have hia : i < a.length := by omega
    refine ⟨a.get ⟨i, hia⟩, target.get ⟨i, by omega⟩, List.getElem?_eq_getElem hia, ?_⟩
    rw [hf]
    exact List.getElem?_eq_getElem (by omega))
  rw [hrun]
  congr 1
  apply List.ext_getElem?
  intro j
  rw [hget j]
  by_cases hj : j < a.length
  · rw [if_pos (by omega), List.getElem?_eq_getElem hj]
    exact hf j _
  · rw [if_neg (by omega), List.getElem?_eq_none (by omega), List.getElem?_eq_none (by omega)]

/-- Running `gather_loop` when every location is in range: the loop ends, the
length of the buffer is kept, the two entries of every point visited hold the
values of `tf` and `hf` at its location, and the other entries are unchanged. -/
theorem gather_loop_spec {R : Type} (tf hf : List R) (dist_loc : List Int) :
    ∀ (count start : Nat) (send_var : List R),
      (∀ i, start ≤ i → i < start + count →
        ∃ loc t h, dist_loc[i]? = some loc ∧ 0 ≤ loc - 1 ∧
          tf[(loc - 1).toNat]? = some t ∧ hf[(loc - 1).toNat]? = some h) →
      (start + count) * 2 ≤ send_var.length →
      ∃ buf : List R, gather_loop tf hf dist_loc count start send_var = some buf ∧
        buf.length = send_var.length ∧
        (∀ j, j < start * 2 ∨ (start + count) * 2 ≤ j → buf[j]? = send_var[j]?) ∧
        (∀ i loc, start ≤ i → i < start + count → dist_loc[i]? = some loc →
          buf[i * 2]? = tf[(loc - 1).toNat]? ∧ buf[i * 2 + 1]? = hf[(loc - 1).toNat]?) := by
  intro count
  induction count with
  | zero =>
    intro start send_var _ _
    refine ⟨send_var, rfl, rfl, fun _ _ => rfl, ?_⟩
    intro i loc h1 h2
    omega
  | succ k ih =>
    intro start send_var h hl
    obtain ⟨loc, t, hh, hloc, hpos, ht, hhf⟩ := h start (Nat.le_refl _) (by omega)
    have hnext : ∀ i, start + 1 ≤ i → i < start + 1 + k →
        ∃ loc t h, dist_loc[i]? = some loc ∧ 0 ≤ loc - 1 ∧
          tf[(loc - 1).toNat]? = some t ∧ hf[(loc - 1).toNat]? = some h :=
      fun i h1 h2 => h i (by omega) (by omega)
    obtain ⟨buf, hrun, hlen, hout, hin⟩ :=
      ih (start + 1) ((send_var.set (start * 2) t).set (start * 2 + 1) hh) hnext
        (by simp only [List.length_set]; omega)
    refine ⟨buf, ?_, ?_, ?_, ?_⟩
    · simp only [gather_loop, hloc, ht, hhf, if_neg (not_lt.mpr hpos),
        if_pos (show start * 2 + 1 < send_var.length by omega)]
      exact hrun
    · rw [hlen]
      simp only [List.length_set]
    · intro j hj
      rw [hout j (by omega), List.getElem?_set_ne (by omega), List.getElem?_set_ne (by omega)]
    · intro i loc2 h1 h2 hloc2
      by_cases his : i = start
      · subst his
        rw [hloc] at hloc2
        cases hloc2
        rw [hout (i * 2) (by omega), hout (i * 2 + 1) (by omega)]
        constructor
        · rw [List.getElem?_set_ne (by omega),
            List.getElem?_set_self (show i * 2 < send_var.length by omega), ht]
        · rw [List.getElem?_set_self (by simp only [List.length_set]; omega), hhf]
      · exact hin i loc2 (by omega) (by omega) hloc2

theorem BFT_MALLOC_getD_length {R : Type} (n : Nat) (content : Nat → R) :
    ((BFT_MALLOC n content).getD []).length = n := by
  unfold BFT_MALLOC
  by_cases hn : n = 0
  · rw [if_pos hn, hn]
    rfl
  · rw [if_neg hn]
    simp

/-- The gather of lines 1561-1571 on a locator whose locations are in range. -/
theorem send_tf_hf_gather_spec {R : Type} (loc : ple_locator_t) (tf hf : List R)
    (fresh : Nat → R) (n : Nat)
    (hlen : loc.dist_locations.length = loc.n_dist_points)
    (hrange : ∀ l ∈ loc.dist_locations, 1 ≤ l ∧ l ≤ (n : Int))
    (htf : tf.length = n) (hhf : hf.length = n) :
    ∃ buf : List R, send_tf_hf_gather loc tf hf fresh = some buf ∧
      buf.length = 2 * loc.n_dist_points ∧
      ∀ i, i < loc.n_dist_points →
        ∃ l t h, loc.dist_locations[i]? = some l ∧ 1 ≤ l ∧ l ≤ (n : Int) ∧
          tf[(l - 1).toNat]? = some t ∧ hf[(l - 1).toNat]? = some h ∧
          buf[2 * i]? = some t ∧ buf[2 * i + 1]? = some h := by
  have hpt : ∀ i, i < loc.n_dist_points →
      ∃ l t h, loc.dist_locations[i]? = some l ∧ (1 ≤ l ∧ l ≤ (n : Int)) ∧
        tf[(l - 1).toNat]? = some t ∧ hf[(l - 1).toNat]? = some h := by
    intro i hi
    have hil : i < loc.dist_locations.length := by omega
    obtain ⟨l, hl⟩ : ∃ l, loc.dist_locations[i]? = some l :=
      ⟨_, List.getElem?_eq_getElem hil⟩
    have hr := hrange l (List.getElem?_mem hl)
    have hidx : (l - 1).toNat < n := by omega
    exact ⟨l, tf.get ⟨(l - 1).toNat, by omega⟩, hf.get ⟨(l - 1).toNat, by omega⟩, hl, hr,
      List.getElem?_eq_getElem (by omega), List.getElem?_eq_getElem (by omega)⟩
  obtain ⟨buf, hrun, hbl, _, hin⟩ := gather_loop_spec tf hf loc.dist_locations
    loc.n_dist_points 0 ((BFT_MALLOC (loc.n_dist_points * 2) fresh).getD [])
    (by
      intro i _ hi
      obtain ⟨l, t, h, h1, h2, h3, h4⟩ := hpt i (by omega)
      exact ⟨l, t, h, h1, by omega, h3, h4⟩)
    (by rw [BFT_MALLOC_getD_length]; omega)
  refine ⟨buf, hrun, ?_, ?_⟩
  · rw [hbl, BFT_MALLOC_getD_length]
    omega
  · intro i hi
    obtain ⟨l, t, h, h1, h2, h3, h4⟩ := hpt i hi
    obtain ⟨hb1, hb2⟩ := hin i l (Nat.zero_le _) (by omega) h1
    refine ⟨l, t, h, h1, h2.1, h2.2, h3, h4, ?_, ?_⟩
    · rw [Nat.mul_comm, hb1, h3]
    · rw [Nat.mul_comm 2 i, hb2, h4]

/-- With post-processing inactive `_post_var_update` leaves the entity as it is. -/
theorem post_var_update_inactive {R : Type} [Mul R] (fp : SinglePrecision R)
    (ent : cs_syr4_coupling_ent_t R) (step : Int) (var : List R)
    (h : ent.post_mesh_id = 0) : _post_var_update fp ent step var = some ent := by
  unfold _post_var_update
  rw [if_pos h]

/-- Step 0 of `_post_var_update`: the values received are stored in single
precision in `solid_temp`. -/
theorem post_var_update_step0 {R : Type} [Mul R] (fp : SinglePrecision R)
    (ent : cs_syr4_coupling_ent_t R) (var st fl : List R)
    (hp : ent.post_mesh_id ≠ 0) (hst : ent.solid_temp = some st) (hfl : ent.flux = some fl)
    (hstl : st.length = ent.n_elts) (hv : var.length = ent.n_elts) :
    _post_var_update fp ent 0 var
      = some { ent with solid_temp := some (var.map fp.narrow) } := by
  unfold _post_var_update
  rw [if_neg hp, hst, hfl]
  simp only [if_true]
  rw [← hstl, update_loop_copy _ st (var.map fp.narrow) (by simp; omega)
    (by intro i old; simp)]
  rfl

/-- Step 1 of `_post_var_update`: the fluid temperatures are stored in single
precision in `flux`, which `tfluid_tmp` then aliases. -/
theorem post_var_update_step1 {R : Type} [Mul R] (fp : SinglePrecision R)
    (ent : cs_syr4_coupling_ent_t R) (var st fl : List R)
    (hp : ent.post_mesh_id ≠ 0) (hst : ent.solid_temp = some st) (hfl : ent.flux = some fl)
    (hfll : fl.length = ent.n_elts) (hv : var.length = ent.n_elts) :
    _post_var_update fp ent 1 var
      = some { ent with flux := some (var.map fp.narrow), tfluid_tmp := true } := by
  unfold _post_var_update
  rw [if_neg hp, hst, hfl]
  simp only [if_true, if_neg (show ¬ ((1 : Int) = 0) by decide)]
  rw [← hfll, update_loop_copy _ fl (var.map fp.narrow) (by simp; omega)
    (by intro i old; simp)]
  rfl

/-- Step 2 of `_post_var_update`: every entry of `flux` is replaced by the
value of line 947 and `tfluid_tmp` is reset. -/
theorem post_var_update_step2 {R : Type} [Mul R] (fp : SinglePrecision R)
    (ent : cs_syr4_coupling_ent_t R) (var st fl : List R)
    (hp : ent.post_mesh_id ≠ 0) (hst : ent.solid_temp = some st) (hfl : ent.flux = some fl)
    (ht : ent.tfluid_tmp = true)
    (hstl : st.length = ent.n_elts) (hfll : fl.length = ent.n_elts)
    (hv : var.length = ent.n_elts) :
    ∃ F : List R,
      _post_var_update fp ent 2 var
        = some { ent with flux := some F, tfluid_tmp := false } ∧
      F.length = ent.n_elts ∧
      ∀ j, F[j]? = (fl[j]?).bind (flux_value fp var st j) := by
  obtain ⟨F, hrun, hl, hget⟩ := update_loop_spec (flux_value fp var st) ent.n_elts 0 fl (by
    intro i _ hi
    have h1 : i < fl.length := by omega
    have h2 : i < var.length := by omega
    have h3 : i < st.length := by omega
    refine ⟨fl.get ⟨i, h1⟩,
      fp.narrow (var.get ⟨i, h2⟩ * fp.fsub (st.get ⟨i, h3⟩) (fl.get ⟨i, h1⟩)),
      List.getElem?_eq_getElem h1, ?_⟩
    unfold flux_value
    rw [List.getElem?_eq_getElem h2, List.getElem?_eq_getElem h3]
    rfl)
  refine ⟨F, ?_, by rw [hl, hfll], ?_⟩
  · unfold _post_var_update
    rw [if_neg hp, hst, hfl]
    simp only [if_true, if_neg (show ¬ ((2 : Int) = 0) by decide),
      if_neg (show ¬ ((2 : Int) = 1) by decide), ht]
    have hfun : (fun ii old =>
        match var[ii]?, st[ii]? with
        | some v, some s => some (fp.narrow (v * fp.fsub s old))
        | _, _ => none) = flux_value fp var st := by
      funext ii old
      rfl
    rw [hfun, hrun]
    rfl
  · intro j
    rw [hget j]
    by_cases hj : j < ent.n_elts
    · rw [if_pos (by omega)]
    · rw [if_neg (by omega), List.getElem?_eq_none (by omega)]
      rfl

/-- Lines 1510-1520 on a non-empty entity with its arrays allocated: the
values received are stored in single precision in `solid_temp` when
post-processing is active, and copied to `sol_temp` in volume mode. -/
theorem recv_tsolid_update_spec {R : Type} [Mul R] (fp : SinglePrecision R)
    (ent : cs_syr4_coupling_ent_t R) (tsolid : List R) (mode : Int)
    (hn : 0 < ent.n_elts) (hpost : post_buffers_ok ent)
    (hvol : mode = 1 → volume_buffers_ok ent) (hl : tsolid.length = ent.n_elts) :
    recv_tsolid_update fp ent tsolid mode
      = some { ent with
          solid_temp :=
            if ent.post_mesh_id = 0 then ent.solid_temp else some (tsolid.map fp.narrow)
          sol_temp := if mode = 1 then some tsolid else ent.sol_temp } := by
  unfold recv_tsolid_update
  rw [if_pos hn]
  by_cases hp : ent.post_mesh_id = 0
  · rw [post_var_update_inactive fp ent 0 tsolid hp]
    simp only [if_pos hp]
    by_cases hm : mode = 1
    · obtain ⟨hv, so, _, _, hso, hsol⟩ := hvol hm hn
      simp only [if_pos hm, hso]
      rw [← hsol, update_loop_copy _ so tsolid (by omega) (by intro i old; rfl)]
      rfl
    · simp only [if_neg hm]
  · obtain ⟨st, fl, hst, hstl, hfl, _⟩ := hpost hp hn
    rw [post_var_update_step0 fp ent tsolid st fl hp hst hfl hstl hl]
    simp only [if_neg hp]
    by_cases hm : mode = 1
    · obtain ⟨hv, so, _, _, hso, hsol⟩ := hvol hm hn
      simp only [if_pos hm, hso]
      rw [← hsol, update_loop_copy _ so tsolid (by omega) (by intro i old; rfl)]
      rfl
    · simp only [if_neg hm]

/-- Lines 1583-1593 on a non-empty entity with its arrays allocated: when
post-processing is active `flux` receives the values of line 947 computed from
the stored solid temperature and the fluid temperature in single precision and
`tfluid_tmp` is reset; in volume mode `hf` is copied to `hvol`. -/
theorem send_tf_hf_update_spec {R : Type} [Mul R] (fp : SinglePrecision R)
    (ent : cs_syr4_coupling_ent_t R) (tf hf : List R) (mode : Int)
    (hn : 0 < ent.n_elts) (hpost : post_buffers_ok ent)
    (hvol : mode = 1 → volume_buffers_ok ent)
    (htf : tf.length = ent.n_elts) (hhf : hf.length = ent.n_elts) :
    ∃ fl : Option (List R),
      send_tf_hf_update fp ent tf hf mode
        = some { ent with
            flux := fl
            tfluid_tmp := if ent.post_mesh_id = 0 then ent.tfluid_tmp else false
            hvol := if mode = 1 then some hf else ent.hvol } ∧
      (ent.post_mesh_id = 0 → fl = ent.flux) ∧
      (ent.post_mesh_id ≠ 0 →
        ∃ st F, ent.solid_temp = some st ∧ fl = some F ∧ F.length = ent.n_elts ∧
          ∀ j, F[j]? = ((tf.map fp.narrow)[j]?).bind (flux_value fp hf st j)) := by
  unfold send_tf_hf_update
  rw [if_pos hn]
  by_cases hp : ent.post_mesh_id = 0
  · refine ⟨ent.flux, ?_, fun _ => rfl, fun h => absurd hp h⟩
    rw [post_var_update_inactive fp ent 1 tf hp]
    simp only [post_var_update_inactive fp ent 2 hf hp, if_pos hp]
    by_cases hm : mode = 1
    · obtain ⟨hv, so, hhv, hhvl, _, _⟩ := hvol hm hn
      simp only [if_pos hm, hhv]
      rw [← hhvl, update_loop_copy _ hv hf (by omega) (by intro i old; rfl)]
      rfl
    · simp only [if_neg hm]
  · obtain ⟨st, fl0, hst, hstl, hfl, hfll⟩ := hpost hp hn
    rw [post_var_update_step1 fp ent tf st fl0 hp hst hfl hfll htf]
    obtain ⟨F, hF, hFl, hFget⟩ := post_var_update_step2 fp
      { ent with flux := some (tf.map fp.narrow), tfluid_tmp := true } hf st
      (tf.map fp.narrow) hp hst rfl rfl hstl (by simp; exact htf) hhf
    refine ⟨some F, ?_, fun h => absurd h hp, fun _ => ⟨st, F, hst, rfl, hFl, hFget⟩⟩
    simp only [hF, if_neg hp]
    by_cases hm : mode = 1
    · obtain ⟨hv, so, hhv, hhvl, _, _⟩ := hvol hm hn
      simp only [if_pos hm, hhv]
      rw [← hhvl, update_loop_copy _ hv hf (by omega) (by intro i old; rfl)]
      rfl
    · simp only [if_neg hm]

/-! ## Steady-state exchange: the two calls -/

theorem coupling_ent_of_with {R : Type} (c : cs_syr4_coupling_t R) (mode : Int)
    (e : cs_syr4_coupling_ent_t R) :
    coupling_ent_of (with_coupling_ent c mode e) mode = some e := by
  unfold coupling_ent_of with_coupling_ent
  by_cases hm : mode = 0
  · simp only [if_pos hm]
  · simp only [if_neg hm]

theorem with_coupling_ent_twice {R : Type} (c : cs_syr4_coupling_t R) (mode : Int)
    (e1 e2 : cs_syr4_coupling_ent_t R) :
    with_coupling_ent (with_coupling_ent c mode e1) mode e2 = with_coupling_ent c mode e2 := by
  unfold with_coupling_ent
  by_cases hm : mode = 0
  · simp only [if_pos hm]
  · simp only [if_neg hm]

/-- `cs_syr4_coupling_recv_tsolid` on an existing entity with a locator. -/
theorem recv_tsolid_eq {R : Type} [Mul R] (fp : SinglePrecision R)
    (c : cs_syr4_coupling_t R) (tsolid arrived : List R) (mode : Int)
    (ent e : cs_syr4_coupling_ent_t R) (loc : ple_locator_t)
    (hm : mode = 0 ∨ mode = 1) (hent : coupling_ent_of c mode = some ent)
    (hloc : ent.locator = some loc)
    (hu : recv_tsolid_update fp ent arrived mode = some e) :
    cs_syr4_coupling_recv_tsolid fp c tsolid arrived mode
      = some { coupling := with_coupling_ent c mode e, tsolid := arrived
               calls := [LocatorCall.receive] } := by
  unfold cs_syr4_coupling_recv_tsolid
  rw [if_neg (not_not.mpr hm), hent]
  simp only [hloc, hu, Option.map_some']

/-- `cs_syr4_coupling_send_tf_hf` on an existing entity with a locator, once
the gather and the update of the entity succeed. -/
theorem send_tf_hf_eq {R : Type} [Zero R] [Add R] [Mul R] (fp : SinglePrecision R)
    (env : MpiEnv) (fenv : FluxEnv R) (g : Globals R) (c : cs_syr4_coupling_t R)
    (cpl_elt_lst : Option (List Int)) (tf hf : List R) (mode : Int) (fresh : Nat → R)
    (ent e : cs_syr4_coupling_ent_t R) (loc : ple_locator_t) (buf : List R)
    (hm : mode = 0 ∨ mode = 1) (hent : coupling_ent_of c mode = some ent)
    (hloc : ent.locator = some loc)
    (hg : send_tf_hf_gather loc tf hf fresh = some buf)
    (hu : send_tf_hf_update fp ent tf hf mode = some e) :
    cs_syr4_coupling_send_tf_hf fp env fenv g c cpl_elt_lst tf hf mode fresh
      = some { coupling := with_coupling_ent c mode e
               calls := [LocatorCall.send buf]
               conservativity :=
                 if g.cs_syr4_coupling_conservativity > 0 ∧ mode = 0 then
                   some (_ensure_conservativity env fenv (with_coupling_ent c mode e)
                     cpl_elt_lst)
                 else none } := by
  unfold cs_syr4_coupling_send_tf_hf
  rw [if_neg (not_not.mpr hm), hent]
  simp only [hloc, hg, hu]
  split <;> rfl

/-- The update of lines 1510-1520 succeeds on a ready entity and leaves it
ready, with the same element count, locator and post-processing mesh. -/
theorem recv_update_ready {R : Type} [Mul R] (fp : SinglePrecision R)
    (ent : cs_syr4_coupling_ent_t R) (tsolid : List R) (mode : Int)
    (hr : ready_for ent mode) (hl : tsolid.length = ent.n_elts) :
    ∃ e, recv_tsolid_update fp ent tsolid mode = some e ∧ ready_for e mode ∧
      e.n_elts = ent.n_elts ∧ e.locator = ent.locator ∧
      e.post_mesh_id = ent.post_mesh_id ∧ e.flux = ent.flux ∧ e.hvol = ent.hvol := by
  obtain ⟨hloc, hpost, hvol⟩ := hr
  by_cases hn : 0 < ent.n_elts
  · refine ⟨_, recv_tsolid_update_spec fp ent tsolid mode hn hpost hvol hl,
      ⟨hloc, ?_, ?_⟩, rfl, rfl, rfl, rfl, rfl⟩
    · intro hp _
      obtain ⟨st, fl, _, _, hfl, hfll⟩ := hpost hp hn
      refine ⟨tsolid.map fp.narrow, fl, ?_, by simp; exact hl, hfl, hfll⟩
      show (if ent.post_mesh_id = 0 then ent.solid_temp else some (tsolid.map fp.narrow)) = _
      rw [if_neg hp]
    · intro hm _
      obtain ⟨hv, so, hhv, hhvl, _, _⟩ := hvol hm hn
      refine ⟨hv, tsolid, hhv, hhvl, ?_, hl⟩
      show (if mode = 1 then some tsolid else ent.sol_temp) = _
      rw [if_pos hm]
  · refine ⟨ent, ?_, ⟨hloc, hpost, hvol⟩, rfl, rfl, rfl, rfl, rfl⟩
    unfold recv_tsolid_update
    rw [if_neg hn]

/-- The update of lines 1583-1593 succeeds on a ready entity and leaves it
ready, with the same element count, locator, stored solid temperatures and
post-processing mesh. -/
theorem send_update_ready {R : Type} [Mul R] (fp : SinglePrecision R)
    (ent : cs_syr4_coupling_ent_t R) (tf hf : List R) (mode : Int)
    (hr : ready_for ent mode) (htf : tf.length = ent.n_elts)
    (hhf : hf.length = ent.n_elts) :
    ∃ e, send_tf_hf_update fp ent tf hf mode = some e ∧ ready_for e mode ∧
      e.n_elts = ent.n_elts ∧ e.locator = ent.locator ∧
      e.post_mesh_id = ent.post_mesh_id ∧ e.solid_temp = ent.solid_temp ∧
      e.sol_temp = ent.sol_temp := by
  obtain ⟨hloc, hpost, hvol⟩ := hr
  by_cases hn : 0 < ent.n_elts
  · obtain ⟨fl, hrun, hfl0, hfl1⟩ :=
      send_tf_hf_update_spec fp ent tf hf mode hn hpost hvol htf hhf
    refine ⟨_, hrun, ⟨hloc, ?_, ?_⟩, rfl, rfl, rfl, rfl, rfl⟩
    · intro hp _
      obtain ⟨st, F, hst, hF, hFl, _⟩ := hfl1 hp
      obtain ⟨st2, fl2, hst2, hstl2, _, _⟩ := hpost hp hn
      rw [hst] at hst2
      cases hst2
      exact ⟨st, F, hst, hstl2, hF, hFl⟩
    · intro hm _
      obtain ⟨hv, so, _, _, hso, hsol⟩ := hvol hm hn
      refine ⟨hf, so, ?_, hhf, hso, hsol⟩
      show (if mode = 1 then some hf else ent.hvol) = _
      rw [if_pos hm]
  · refine ⟨ent, ?_, ⟨hloc, hpost, hvol⟩, rfl, rfl, rfl, rfl, rfl⟩
    unfold send_tf_hf_update
    rw [if_neg hn]

/-- C12: for an entity whose locator lists `n_dist` locations, each from 1 to
`n_elts`, and arrays `tf` and `hf` of `n_elts` entries,
`cs_syr4_coupling_send_tf_hf` returns having passed to the locator one buffer
of `2 * n_dist` entries with `send_var[2i] = tf[dist_loc[i] - 1]` and
`send_var[2i + 1] = hf[dist_loc[i] - 1]` for every `i < n_dist`, every read
being inside its array. -/
theorem send_tf_hf_buffer {R : Type} [Zero R] [Add R] [Mul R] (fp : SinglePrecision R)
    (env : MpiEnv) (fenv : FluxEnv R) (g : Globals R) (c : cs_syr4_coupling_t R)
    (cpl_elt_lst : Option (List Int)) (tf hf : List R) (mode : Int) (fresh : Nat → R)
    (ent : cs_syr4_coupling_ent_t R) (loc : ple_locator_t)
    (hm : mode = 0 ∨ mode = 1) (hent : coupling_ent_of c mode = some ent)
    (hloc : ent.locator = some loc)
    (hdl : loc.dist_locations.length = loc.n_dist_points)
    (hrange : ∀ l ∈ loc.dist_locations, 1 ≤ l ∧ l ≤ (ent.n_elts : Int))
    (hpost : post_buffers_ok ent) (hvol : mode = 1 → volume_buffers_ok ent)
    (htf : tf.length = ent.n_elts) (hhf : hf.length = ent.n_elts) :
    ∃ (run : SendRun R) (buf : List R),
      cs_syr4_coupling_send_tf_hf fp env fenv g c cpl_elt_lst tf hf mode fresh = some run ∧
      run.calls = [LocatorCall.send buf] ∧
      buf.length = 2 * loc.n_dist_points ∧
      ∀ i, i < loc.n_dist_points →
        ∃ l t h, loc.dist_locations[i]? = some l ∧ 1 ≤ l ∧ l ≤ (ent.n_elts : Int) ∧
          tf[(l - 1).toNat]? = some t ∧ hf[(l - 1).toNat]? = some h ∧
          buf[2 * i]? = some t ∧ buf[2 * i + 1]? = some h := by
  obtain ⟨buf, hg, hbl, hbuf⟩ :=
    send_tf_hf_gather_spec loc tf hf fresh ent.n_elts hdl hrange htf hhf
  obtain ⟨e, hu, _⟩ := send_update_ready fp ent tf hf mode
    ⟨⟨loc, hloc, hdl, hrange⟩, hpost, hvol⟩ htf hhf
  exact ⟨_, buf,
    send_tf_hf_eq fp env fenv g c cpl_elt_lst tf hf mode fresh ent e loc buf hm hent hloc hg hu,
    rfl, hbl, hbuf⟩

/-- Witness of C12: the surface entity of four faces with three distant points
located on faces 1, 4 and 2. -/
theorem send_tf_hf_buffer_witness :
    ∃ (run : SendRun Int) (buf : List Int),
      cs_syr4_coupling_send_tf_hf integer_single leader_env five_faces_env (Globals.start Int)
        surface_run_coupling (some [1, 2, 3, 5]) [10, 20, 30, 40] [1, 2, 3, 4] 0
        (fun _ => 0) = some run ∧
      run.calls = [LocatorCall.send buf] ∧
      buf.length = 2 * four_faces_oracle.located.n_dist_points ∧
      ∀ i, i < four_faces_oracle.located.n_dist_points →
        ∃ l t h, four_faces_oracle.located.dist_locations[i]? = some l ∧ 1 ≤ l ∧
          l ≤ (located_faces.n_elts : Int) ∧
          [10, 20, 30, 40][(l - 1).toNat]? = some t ∧
          [1, 2, 3, 4][(l - 1).toNat]? = some h ∧
          buf[2 * i]? = some t ∧ buf[2 * i + 1]? = some h :=
  send_tf_hf_buffer integer_single leader_env five_faces_env (Globals.start Int)
    surface_run_coupling (some [1, 2, 3, 5]) [10, 20, 30, 40] [1, 2, 3, 4] 0 (fun _ => 0)
    located_faces four_faces_oracle.located (Or.inl rfl) rfl rfl rfl (by decide)
    (fun _ _ => ⟨_, _, rfl, rfl, rfl, rfl⟩) (fun h => absurd h (by decide)) rfl rfl

/-- A call of `_ensure_conservativity` that reaches its end on a process of
rank id below 1 in a `HAVE_MPI` build ends with the emission of the global
flux to SYRTHES and the reception of the corrector coefficient. -/
theorem ensure_conservativity_round_trip {R : Type} [Zero R] [Add R] [Mul R]
    (env : MpiEnv) (fenv : FluxEnv R) (c : cs_syr4_coupling_t R)
    (coupl_face_list : Option (List Int)) (cr : ConsRun R)
    (h : _ensure_conservativity env fenv c coupl_face_list = some cr)
    (hmpi : env.HAVE_MPI = true) (hrank : env.cs_glob_rank_id < 1) :
    ∃ pre, cr.calls
      = pre ++ [FluxCall.send cr.g_flux c.syr_root_rank, FluxCall.recv c.syr_root_rank] := by
  unfold _ensure_conservativity at h
  split at h
  · split at h
    · cases h
    · simp only [] at h
      rw [if_pos ⟨hmpi, hrank⟩] at h
      cases h
      exact ⟨_, rfl⟩
  · cases h

/-- The gate of line 1597: `cs_syr4_coupling_send_tf_hf` reaches the call of
`_ensure_conservativity` if and only if the mode is 0, the surface entity exists
and the flag given to `cs_syr4_coupling_set_conservativity` is positive; in mode
1 it never does. Whether the call made then completes is a separate matter (it
reads the array `flux`): when it does reach its end on a process of rank id
below 1 (`HAVE_MPI` build), it ends with the emission of the global flux and the
reception of the corrector coefficient. -/
theorem send_tf_hf_calls_ensure_iff {R : Type} [Zero R] [Add R] [Mul R]
    (fp : SinglePrecision R) (env : MpiEnv) (fenv : FluxEnv R) (g : Globals R) (flag : Int)
    (c : cs_syr4_coupling_t R) (cpl_elt_lst : Option (List Int)) (tf hf : List R)
    (mode : Int) (fresh : Nat → R)
    (hm : mode = 0 ∨ mode = 1)
    (hready : ∀ ent, coupling_ent_of c mode = some ent →
      ready_for ent mode ∧ tf.length = ent.n_elts ∧ hf.length = ent.n_elts) :
    ∃ run : SendRun R,
      cs_syr4_coupling_send_tf_hf fp env fenv (cs_syr4_coupling_set_conservativity g flag) c
        cpl_elt_lst tf hf mode fresh = some run ∧
      (run.conservativity ≠ none ↔ mode = 0 ∧ c.faces ≠ none ∧ 0 < flag) ∧
      (mode = 1 → run.conservativity = none) ∧
      (∀ cr, run.conservativity = some (some cr) → env.HAVE_MPI = true →
        env.cs_glob_rank_id < 1 →
        ∃ pre, cr.calls
          = pre ++ [FluxCall.send cr.g_flux run.coupling.syr_root_rank,
              FluxCall.recv run.coupling.syr_root_rank]) := by
  cases hent : coupling_ent_of c mode with
  | none =>
    refine ⟨{ coupling := c, calls := [], conservativity := none }, ?_, ?_, fun _ => rfl,
      fun cr h => Option.noConfusion h⟩
    · unfold cs_syr4_coupling_send_tf_hf
      rw [if_neg (not_not.mpr hm), hent]
    · constructor
      · intro h
        exact absurd rfl h
      · rintro ⟨h0, hf0, _⟩
        exfalso
        apply hf0
        unfold coupling_ent_of at hent
        rw [if_pos h0] at hent
        exact hent
  | some ent =>
    obtain ⟨hr, htf, hhf⟩ := hready ent hent
    obtain ⟨loc, hloc, hdl, hrange⟩ := hr.1
    obtain ⟨buf, hg, _, _⟩ :=
      send_tf_hf_gather_spec loc tf hf fresh ent.n_elts hdl hrange htf hhf
    obtain ⟨e, hu, _⟩ := send_update_ready fp ent tf hf mode hr htf hhf
    refine ⟨_, send_tf_hf_eq fp env fenv (cs_syr4_coupling_set_conservativity g flag) c
      cpl_elt_lst tf hf mode fresh ent e loc buf hm hent hloc hg hu, ?_, ?_, ?_⟩
    · show (if (cs_syr4_coupling_set_conservativity g flag).cs_syr4_coupling_conservativity > 0
          ∧ mode = 0 then _ else none) ≠ none ↔ _
      have hflag : (cs_syr4_coupling_set_conservativity g flag).cs_syr4_coupling_conservativity
          = flag := rfl
      rw [hflag]
      constructor
      · intro h
        by_cases hcond : flag > 0 ∧ mode = 0
        · refine ⟨hcond.2, ?_, hcond.1⟩
          unfold coupling_ent_of at hent
          rw [if_pos hcond.2] at hent
          rw [hent]
          exact fun hc => Option.noConfusion hc
        · rw [if_neg hcond] at h
          exact absurd rfl h
      · rintro ⟨h0, _, hpos⟩
        rw [if_pos ⟨hpos, h0⟩]
        exact fun hc => Option.noConfusion hc
    · intro h1
      show (if _ ∧ mode = 0 then _ else none) = none
      rw [if_neg (by
        rintro ⟨_, h0⟩
        rw [h1] at h0
        exact absurd h0 (by decide))]
    · intro cr hcr hmpi hrank
      have hcr2 : (if (cs_syr4_coupling_set_conservativity g flag).cs_syr4_coupling_conservativity
            > 0 ∧ mode = 0 then
            some (_ensure_conservativity env fenv (with_coupling_ent c mode e) cpl_elt_lst)
          else none) = some (some cr) := hcr
      split at hcr2
      · exact ensure_conservativity_round_trip env fenv (with_coupling_ent c mode e)
          cpl_elt_lst cr (Option.some.inj hcr2) hmpi hrank
      · cases hcr2

/-- The gate of line 1597 on the surface coupling with post-processing active
and the flag set to 1. -/
theorem send_tf_hf_calls_ensure_example :
    ∃ run : SendRun Int,
      cs_syr4_coupling_send_tf_hf integer_single leader_env five_faces_env
        (cs_syr4_coupling_set_conservativity (Globals.start Int) 1) surface_run_coupling
        (some [1, 2, 3, 5]) [10, 20, 30, 40] [1, 2, 3, 4] 0 (fun _ => 0) = some run ∧
      (run.conservativity ≠ none ↔
        (0 : Int) = 0 ∧ surface_run_coupling.faces ≠ none ∧ (0 : Int) < 1) ∧
      ((0 : Int) = 1 → run.conservativity = none) ∧
      (∀ cr, run.conservativity = some (some cr) → leader_env.HAVE_MPI = true →
        leader_env.cs_glob_rank_id < 1 →
        ∃ pre, cr.calls
          = pre ++ [FluxCall.send cr.g_flux run.coupling.syr_root_rank,
              FluxCall.recv run.coupling.syr_root_rank]) :=
  send_tf_hf_calls_ensure_iff integer_single leader_env five_faces_env (Globals.start Int) 1
    surface_run_coupling (some [1, 2, 3, 5]) [10, 20, 30, 40] [1, 2, 3, 4] 0 (fun _ => 0)
    (Or.inl rfl) (by
      intro ent hent
      have he : ent = located_faces := (Option.some.inj hent).symm
      subst he
      exact ⟨⟨⟨_, rfl, rfl, by decide⟩, fun _ _ => ⟨_, _, rfl, rfl, rfl, rfl⟩,
        fun h => absurd h (by decide)⟩, rfl, rfl⟩)

/-- C14 (refuted as stated): on the surface entity of four faces with
post-processing active, receiving `tsolid[0] = 16777217` and then sending
`tf[0] = 16777216`, `hf[0] = 1` leaves `flux[0] = 0`, whereas
`hf[0] * (tsolid[0] - tf[0]) = 1`: both temperatures are stored in single
precision, where they are equal. -/
theorem stored_flux_is_single_precision :
    ∃ r1 r2,
      cs_syr4_coupling_recv_tsolid integer_single surface_run_coupling [0, 0, 0, 0]
        [16777217, 300, 300, 300] 0 = some r1 ∧
      cs_syr4_coupling_send_tf_hf integer_single leader_env five_faces_env (Globals.start Int)
        r1.coupling (some [1, 2, 3, 5]) [16777216, 280, 290, 300] [1, 2, 3, 4] 0
        (fun _ => 0) = some r2 ∧
      (r2.coupling.faces.bind fun e => e.flux) = some [0, 40, 30, 0] ∧
      (1 : Int) * (16777217 - 16777216) = 1 :=
  ⟨_, _, rfl, rfl, rfl, rfl⟩

/-- C14 (amended): for an entity with post-processing active, its two `float`
arrays allocated and `n_elts > 0`, after `cs_syr4_coupling_recv_tsolid`
delivering `tsolid` and `cs_syr4_coupling_send_tf_hf` with `tf` and `hf`, every
`flux[i]` holds the single-precision value of `hf[i]` times the
single-precision difference of `tsolid[i]` and `tf[i]`, both first converted
to single precision, and `tfluid_tmp` is null again. -/
theorem stored_flux_after_exchange {R : Type} [Zero R] [Add R] [Mul R]
    (fp : SinglePrecision R) (env : MpiEnv) (fenv : FluxEnv R) (g : Globals R)
    (c : cs_syr4_coupling_t R) (cpl_elt_lst : Option (List Int))
    (tsolid0 tsolid tf hf : List R) (mode : Int) (fresh : Nat → R)
    (ent : cs_syr4_coupling_ent_t R)
    (hm : mode = 0 ∨ mode = 1) (hent : coupling_ent_of c mode = some ent)
    (hn : 0 < ent.n_elts) (hp : ent.post_mesh_id ≠ 0) (hr : ready_for ent mode)
    (hts : tsolid.length = ent.n_elts) (htf : tf.length = ent.n_elts)
    (hhf : hf.length = ent.n_elts) :
    ∃ r1 r2 e2 F,
      cs_syr4_coupling_recv_tsolid fp c tsolid0 tsolid mode = some r1 ∧
      cs_syr4_coupling_send_tf_hf fp env fenv g r1.coupling cpl_elt_lst tf hf mode fresh
        = some r2 ∧
      coupling_ent_of r2.coupling mode = some e2 ∧
      e2.flux = some F ∧ F.length = ent.n_elts ∧ e2.tfluid_tmp = false ∧
      ∀ (i : Nat) (h ts t : R), hf[i]? = some h → tsolid[i]? = some ts → tf[i]? = some t →
        F[i]? = some (fp.narrow (h * fp.fsub (fp.narrow ts) (fp.narrow t))) := by
  obtain ⟨loc, hloc, hdl, hrange⟩ := hr.1
  have hu1 := recv_tsolid_update_spec fp ent tsolid mode hn hr.2.1 hr.2.2 hts
  obtain ⟨e1, he1, hr1, hn1, hloc1, hp1, _, _⟩ := recv_update_ready fp ent tsolid mode hr hts
  have hrecv := recv_tsolid_eq fp c tsolid0 tsolid mode ent e1 loc hm hent hloc he1
  have hst1 : e1.solid_temp = some (tsolid.map fp.narrow) := by
    have he : e1 = _ := Option.some.inj (he1.symm.trans hu1)
    rw [he]
    show (if ent.post_mesh_id = 0 then ent.solid_temp else some (tsolid.map fp.narrow)) = _
    rw [if_neg hp]
  have hn1' : 0 < e1.n_elts := by rw [hn1]; exact hn
  have hp1' : e1.post_mesh_id ≠ 0 := by rw [hp1]; exact hp
  obtain ⟨fl, hu2, _, hfl⟩ := send_tf_hf_update_spec fp e1 tf hf mode hn1' hr1.2.1 hr1.2.2
    (by rw [hn1]; exact htf) (by rw [hn1]; exact hhf)
  obtain ⟨st, F, hst, hF, hFl, hFget⟩ := hfl hp1'
  rw [hst1] at hst
  cases hst
  obtain ⟨buf, hg, _, _⟩ := send_tf_hf_gather_spec loc tf hf fresh e1.n_elts hdl
    (by rw [hn1]; exact hrange) (by rw [hn1]; exact htf) (by rw [hn1]; exact hhf)
  have hsend := send_tf_hf_eq fp env fenv g (with_coupling_ent c mode e1) cpl_elt_lst tf hf
    mode fresh e1 _ loc buf hm (coupling_ent_of_with c mode e1) (by rw [hloc1]; exact hloc)
    hg hu2
  refine ⟨_, _, _, F, hrecv, hsend, coupling_ent_of_with _ mode _, hF, by rw [hFl, hn1], ?_, ?_⟩
  · show (if e1.post_mesh_id = 0 then e1.tfluid_tmp else false) = false
    rw [if_neg hp1']
  · intro i h ts t hi htsi hti
    rw [hFget i, List.getElem?_map, hti]
    show flux_value fp hf (tsolid.map fp.narrow) i (fp.narrow t) = _
    unfold flux_value
    rw [hi, List.getElem?_map, htsi]
    rfl

/-- Witness of C14 (amended): the surface entity of four faces. -/
theorem stored_flux_after_exchange_witness :
    ∃ r1 r2 e2 F,
      cs_syr4_coupling_recv_tsolid integer_single surface_run_coupling [0, 0, 0, 0]
        [16777217, 300, 300, 300] 0 = some r1 ∧
      cs_syr4_coupling_send_tf_hf integer_single leader_env five_faces_env (Globals.start Int)
        r1.coupling (some [1, 2, 3, 5]) [16777216, 280, 290, 300] [1, 2, 3, 4] 0
        (fun _ => 0) = some r2 ∧
      coupling_ent_of r2.coupling 0 = some e2 ∧
      e2.flux = some F ∧ F.length = located_faces.n_elts ∧ e2.tfluid_tmp = false ∧
      ∀ (i : Nat) (h ts t : Int), [1, 2, 3, 4][i]? = some h →
        [16777217, 300, 300, 300][i]? = some ts → [16777216, 280, 290, 300][i]? = some t →
        F[i]? = some (integer_single.narrow
          (h * integer_single.fsub (integer_single.narrow ts) (integer_single.narrow t))) :=
  stored_flux_after_exchange integer_single leader_env five_faces_env (Globals.start Int)
    surface_run_coupling (some [1, 2, 3, 5]) [0, 0, 0, 0] [16777217, 300, 300, 300]
    [16777216, 280, 290, 300] [1, 2, 3, 4] 0 (fun _ => 0) located_faces (Or.inl rfl) rfl
    (by decide) (by decide)
    ⟨⟨_, rfl, rfl, by decide⟩, fun _ _ => ⟨_, _, rfl, rfl, rfl, rfl⟩,
      fun h => absurd h (by decide)⟩
    rfl rfl rfl

/-- Repeating the update of lines 1583-1593 with the same `tf` and `hf` on the
entity it produced gives that entity again. -/
theorem send_update_idempotent {R : Type} [Mul R] (fp : SinglePrecision R)
    (ent : cs_syr4_coupling_ent_t R) (tf hf : List R) (mode : Int)
    (hr : ready_for ent mode) (htf : tf.length = ent.n_elts)
    (hhf : hf.length = ent.n_elts) :
    ∃ e, send_tf_hf_update fp ent tf hf mode = some e ∧
      send_tf_hf_update fp e tf hf mode = some e ∧
      e.locator = ent.locator ∧ e.solid_temp = ent.solid_temp := by
  obtain ⟨e, he, hre, hne, hloce, hpe, hste, _⟩ := send_update_ready fp ent tf hf mode hr htf hhf
  refine ⟨e, he, ?_, hloce, hste⟩
  by_cases hn : 0 < ent.n_elts
  · obtain ⟨fl1, hrun1, h10, h11⟩ :=
      send_tf_hf_update_spec fp ent tf hf mode hn hr.2.1 hr.2.2 htf hhf
    have hee : e = _ := Option.some.inj (he.symm.trans hrun1)
    obtain ⟨fl2, hrun2, h20, h21⟩ :=
      send_tf_hf_update_spec fp e tf hf mode (by rw [hne]; exact hn) hre.2.1 hre.2.2
        (by rw [hne]; exact htf) (by rw [hne]; exact hhf)
    rw [hrun2]
    have hflux : fl2 = e.flux := by
      by_cases hp : ent.post_mesh_id = 0
      · exact h20 (by rw [hpe]; exact hp)
      · obtain ⟨st1, F1, hst1, hF1, hF1l, hF1g⟩ := h11 hp
        obtain ⟨st2, F2, hst2, hF2, hF2l, hF2g⟩ := h21 (by rw [hpe]; exact hp)
        rw [hste, hst1] at hst2
        cases hst2
        have hef : e.flux = fl1 := by rw [hee]
        rw [hef, hF1, hF2]
        congr 1
        apply List.ext_getElem?
        intro j
        rw [hF1g j, hF2g j]
    have htmp : (if e.post_mesh_id = 0 then e.tfluid_tmp else false) = e.tfluid_tmp := by
      by_cases hp : ent.post_mesh_id = 0
      · rw [if_pos (by rw [hpe]; exact hp)]
      · rw [if_neg (by rw [hpe]; exact hp)]
        have het : e.tfluid_tmp = (if ent.post_mesh_id = 0 then ent.tfluid_tmp else false) := by
          rw [hee]
        rw [het, if_neg hp]
    have hhv : (if mode = 1 then some hf else e.hvol) = e.hvol := by
      by_cases hm : mode = 1
      · rw [if_pos hm]
        have heh : e.hvol = (if mode = 1 then some hf else ent.hvol) := by
          rw [hee]
        rw [heh, if_pos hm]
      · rw [if_neg hm]
    rw [hflux, htmp, hhv]
  · have hee : e = ent := by
      unfold send_tf_hf_update at he
      rw [if_neg hn] at he
      exact (Option.some.inj he).symm
    rw [hee]
    unfold send_tf_hf_update
    rw [if_neg hn]

/-- C15: for an entity with its arrays allocated, performing the send step
(store `tf`, combine with `hf`) and performing it again with the same `tf` and
`hf`, without a receive in between, leaves the instance, hence the flux array
and the solid-temperature buffer, exactly as after the first time. -/
theorem send_tf_hf_idempotent {R : Type} [Zero R] [Add R] [Mul R] (fp : SinglePrecision R)
    (env : MpiEnv) (fenv : FluxEnv R) (g : Globals R) (c : cs_syr4_coupling_t R)
    (cpl_elt_lst : Option (List Int)) (tf hf : List R) (mode : Int) (fresh : Nat → R)
    (ent : cs_syr4_coupling_ent_t R)
    (hm : mode = 0 ∨ mode = 1) (hent : coupling_ent_of c mode = some ent)
    (hr : ready_for ent mode) (htf : tf.length = ent.n_elts)
    (hhf : hf.length = ent.n_elts) :
    ∃ r1 r2 e,
      cs_syr4_coupling_send_tf_hf fp env fenv g c cpl_elt_lst tf hf mode fresh = some r1 ∧
      cs_syr4_coupling_send_tf_hf fp env fenv g r1.coupling cpl_elt_lst tf hf mode fresh
        = some r2 ∧
      r2.coupling = r1.coupling ∧
      coupling_ent_of r1.coupling mode = some e ∧ coupling_ent_of r2.coupling mode = some e ∧
      e.solid_temp = ent.solid_temp := by
  obtain ⟨loc, hloc, hdl, hrange⟩ := hr.1
  obtain ⟨buf, hg, _, _⟩ :=
    send_tf_hf_gather_spec loc tf hf fresh ent.n_elts hdl hrange htf hhf
  obtain ⟨e, he1, he2, hloce, hste⟩ := send_update_idempotent fp ent tf hf mode hr htf hhf
  have h1 := send_tf_hf_eq fp env fenv g c cpl_elt_lst tf hf mode fresh ent e loc buf hm hent
    hloc hg he1
  have h2 := send_tf_hf_eq fp env fenv g (with_coupling_ent c mode e) cpl_elt_lst tf hf mode
    fresh e e loc buf hm (coupling_ent_of_with c mode e) (by rw [hloce]; exact hloc) hg he2
  refine ⟨_, _, e, h1, h2, ?_, coupling_ent_of_with c mode e, ?_, hste⟩
  · exact with_coupling_ent_twice c mode e e
  · show coupling_ent_of (with_coupling_ent (with_coupling_ent c mode e) mode e) mode = some e
    exact coupling_ent_of_with _ mode e

/-- Witness of C15: the surface entity of four faces. -/
theorem send_tf_hf_idempotent_witness :
    ∃ r1 r2 e,
      cs_syr4_coupling_send_tf_hf integer_single leader_env five_faces_env (Globals.start Int)
        surface_run_coupling (some [1, 2, 3, 5]) [10, 20, 30, 40] [1, 2, 3, 4] 0
        (fun _ => 0) = some r1 ∧
      cs_syr4_coupling_send_tf_hf integer_single leader_env five_faces_env (Globals.start Int)
        r1.coupling (some [1, 2, 3, 5]) [10, 20, 30, 40] [1, 2, 3, 4] 0 (fun _ => 0)
        = some r2 ∧
      r2.coupling = r1.coupling ∧
      coupling_ent_of r1.coupling 0 = some e ∧ coupling_ent_of r2.coupling 0 = some e ∧
      e.solid_temp = located_faces.solid_temp :=
  send_tf_hf_idempotent integer_single leader_env five_faces_env (Globals.start Int)
    surface_run_coupling (some [1, 2, 3, 5]) [10, 20, 30, 40] [1, 2, 3, 4] 0 (fun _ => 0)
    located_faces (Or.inl rfl) rfl
    ⟨⟨_, rfl, rfl, by decide⟩, fun _ _ => ⟨_, _, rfl, rfl, rfl, rfl⟩,
      fun h => absurd h (by decide)⟩
    rfl rfl

/-- `_post_var_update` never touches the arrays kept for the source term. -/
theorem post_var_update_frame {R : Type} [Mul R] (fp : SinglePrecision R)
    (ent e : cs_syr4_coupling_ent_t R) (step : Int) (var : List R)
    (h : _post_var_update fp ent step var = some e) :
    e.hvol = ent.hvol ∧ e.sol_temp = ent.sol_temp := by
  unfold _post_var_update at h
  split at h
  · cases h
    exact ⟨rfl, rfl⟩
  · split at h
    · split at h
      · simp only [Option.map_eq_some'] at h
        obtain ⟨x, _, rfl⟩ := h
        exact ⟨rfl, rfl⟩
      · split at h
        · simp only [Option.map_eq_some'] at h
          obtain ⟨x, _, rfl⟩ := h
          exact ⟨rfl, rfl⟩
        · split at h
          · split at h
            · simp only [Option.map_eq_some'] at h
              obtain ⟨x, _, rfl⟩ := h
              exact ⟨rfl, rfl⟩
            · cases h
          · cases h
    · cases h

/-- In surface mode the update of lines 1510-1520 leaves `hvol` and `sol_temp`. -/
theorem recv_update_frame {R : Type} [Mul R] (fp : SinglePrecision R)
    (ent e : cs_syr4_coupling_ent_t R) (tsolid : List R)
    (h : recv_tsolid_update fp ent tsolid 0 = some e) :
    e.hvol = ent.hvol ∧ e.sol_temp = ent.sol_temp := by
  unfold recv_tsolid_update at h
  split at h
  · split at h
    · cases h
    · rename_i e1 he1
      rw [if_neg (by decide)] at h
      cases h
      exact post_var_update_frame fp ent e 0 tsolid he1
  · cases h
    exact ⟨rfl, rfl⟩

/-- In surface mode the update of lines 1583-1593 leaves `hvol` and `sol_temp`. -/
theorem send_update_frame {R : Type} [Mul R] (fp : SinglePrecision R)
    (ent e : cs_syr4_coupling_ent_t R) (tf hf : List R)
    (h : send_tf_hf_update fp ent tf hf 0 = some e) :
    e.hvol = ent.hvol ∧ e.sol_temp = ent.sol_temp := by
  unfold send_tf_hf_update at h
  split at h
  · split at h
    · cases h
    · rename_i e1 he1
      split at h
      · cases h
      · rename_i e2 he2
        rw [if_neg (by decide)] at h
        cases h
        obtain ⟨h1, h2⟩ := post_var_update_frame fp ent e1 1 tf he1
        obtain ⟨h3, h4⟩ := post_var_update_frame fp e1 e 2 hf he2
        exact ⟨h3.trans h1, h4.trans h2⟩
  · cases h
    exact ⟨rfl, rfl⟩

/-- A call of `cs_syr4_coupling_recv_tsolid` in surface mode leaves the volume
entity, and `hvol` and `sol_temp` of the surface entity, as they were. -/
theorem recv_tsolid_surface_frame {R : Type} [Mul R] (fp : SinglePrecision R)
    (c : cs_syr4_coupling_t R) (tsolid arrived : List R) (r : RecvRun R)
    (h : cs_syr4_coupling_recv_tsolid fp c tsolid arrived 0 = some r) :
    r.coupling.cells = c.cells ∧
    (r.coupling.faces.map fun e => e.hvol) = (c.faces.map fun e => e.hvol) ∧
    (r.coupling.faces.map fun e => e.sol_temp) = (c.faces.map fun e => e.sol_temp) := by
  unfold cs_syr4_coupling_recv_tsolid at h
  rw [if_neg (by decide)] at h
  have hsel : coupling_ent_of c 0 = c.faces := rfl
  rw [hsel] at h
  cases hf : c.faces with
  | none =>
    rw [hf] at h
    cases h
    exact ⟨rfl, by rw [hf], by rw [hf]⟩
  | some ent =>
    rw [hf] at h
    simp only [] at h
    split at h
    · cases h
    · simp only [Option.map_eq_some'] at h
      obtain ⟨e, he, rfl⟩ := h
      obtain ⟨h1, h2⟩ := recv_update_frame fp ent e arrived he
      refine ⟨rfl, ?_, ?_⟩
      · show some e.hvol = some ent.hvol
        rw [h1]
      · show some e.sol_temp = some ent.sol_temp
        rw [h2]

/-- A call of `cs_syr4_coupling_send_tf_hf` in surface mode leaves the volume
entity, and `hvol` and `sol_temp` of the surface entity, as they were. -/
theorem send_tf_hf_surface_frame {R : Type} [Zero R] [Add R] [Mul R]
    (fp : SinglePrecision R) (env : MpiEnv) (fenv : FluxEnv R) (g : Globals R)
    (c : cs_syr4_coupling_t R) (cpl_elt_lst : Option (List Int)) (tf hf : List R)
    (fresh : Nat → R) (r : SendRun R)
    (h : cs_syr4_coupling_send_tf_hf fp env fenv g c cpl_elt_lst tf hf 0 fresh = some r) :
    r.coupling.cells = c.cells ∧
    (r.coupling.faces.map fun e => e.hvol) = (c.faces.map fun e => e.hvol) ∧
    (r.coupling.faces.map fun e => e.sol_temp) = (c.faces.map fun e => e.sol_temp) := by
  unfold cs_syr4_coupling_send_tf_hf at h
  rw [if_neg (by decide)] at h
  have hsel : coupling_ent_of c 0 = c.faces := rfl
  rw [hsel] at h
  cases hfc : c.faces with
  | none =>
    rw [hfc] at h
    cases h
    exact ⟨rfl, by rw [hfc], by rw [hfc]⟩
  | some ent =>
    rw [hfc] at h
    simp only [] at h
    split at h
    · cases h
    · split at h
      · cases h
      · split at h
        · cases h
        · rename_i e he
          obtain ⟨h1, h2⟩ := send_update_frame fp ent e tf hf he
          have hc : r.coupling = with_coupling_ent c 0 e := by
            split at h <;> cases h <;> rfl
          rw [hc]
          refine ⟨rfl, ?_, ?_⟩
          · show some e.hvol = some ent.hvol
            rw [h1]
          · show some e.sol_temp = some ent.sol_temp
            rw [h2]

/-- `cs_syr4_coupling_recv_tsolid` returns when the entity selected, if any,
is ready and the array received has `n_elts` entries. -/
theorem recv_tsolid_returns {R : Type} [Mul R] (fp : SinglePrecision R)
    (c : cs_syr4_coupling_t R) (tsolid arrived : List R) (mode : Int)
    (hm : mode = 0 ∨ mode = 1)
    (hready : ∀ ent, coupling_ent_of c mode = some ent →
      ready_for ent mode ∧ arrived.length = ent.n_elts) :
    ∃ r, cs_syr4_coupling_recv_tsolid fp c tsolid arrived mode = some r := by
  cases hent : coupling_ent_of c mode with
  | none =>
    refine ⟨{ coupling := c, tsolid := tsolid, calls := [] }, ?_⟩
    unfold cs_syr4_coupling_recv_tsolid
    rw [if_neg (not_not.mpr hm), hent]
  | some ent =>
    obtain ⟨hr, hl⟩ := hready ent hent
    obtain ⟨loc, hloc, _, _⟩ := hr.1
    obtain ⟨e, he, _⟩ := recv_update_ready fp ent arrived mode hr hl
    exact ⟨_, recv_tsolid_eq fp c tsolid arrived mode ent e loc hm hent hloc he⟩

/-- `cs_syr4_coupling_send_tf_hf` returns when the entity selected, if any, is
ready and the two arrays sent have `n_elts` entries. -/
theorem send_tf_hf_returns {R : Type} [Zero R] [Add R] [Mul R] (fp : SinglePrecision R)
    (env : MpiEnv) (fenv : FluxEnv R) (g : Globals R) (c : cs_syr4_coupling_t R)
    (cpl_elt_lst : Option (List Int)) (tf hf : List R) (mode : Int) (fresh : Nat → R)
    (hm : mode = 0 ∨ mode = 1)
    (hready : ∀ ent, coupling_ent_of c mode = some ent →
      ready_for ent mode ∧ tf.length = ent.n_elts ∧ hf.length = ent.n_elts) :
    ∃ r, cs_syr4_coupling_send_tf_hf fp env fenv g c cpl_elt_lst tf hf mode fresh = some r := by
  cases hent : coupling_ent_of c mode with
  | none =>
    refine ⟨{ coupling := c, calls := [], conservativity := none }, ?_⟩
    unfold cs_syr4_coupling_send_tf_hf
    rw [if_neg (not_not.mpr hm), hent]
  | some ent =>
    obtain ⟨hr, htf, hhf⟩ := hready ent hent
    obtain ⟨loc, hloc, hdl, hrange⟩ := hr.1
    obtain ⟨buf, hg, _, _⟩ :=
      send_tf_hf_gather_spec loc tf hf fresh ent.n_elts hdl hrange htf hhf
    obtain ⟨e, hu, _⟩ := send_update_ready fp ent tf hf mode hr htf hhf
    exact ⟨_, send_tf_hf_eq fp env fenv g c cpl_elt_lst tf hf mode fresh ent e loc buf hm hent
      hloc hg hu⟩

/-- C16: for a volumetric entity with `n_elts > 0`, after
`cs_syr4_coupling_recv_tsolid` in mode 1 delivering `tsolid` and
`cs_syr4_coupling_send_tf_hf` in mode 1 with `hf`, the arrays kept for the
source term are the values exchanged: `sol_temp` is `tsolid` and `hvol` is
`hf`; in mode 0 each of the two calls returns leaving the volume entity, and
`hvol` and `sol_temp` of the surface entity, as they were. -/
theorem persisted_source_term_state {R : Type} [Zero R] [Add R] [Mul R]
    (fp : SinglePrecision R) (env : MpiEnv) (fenv : FluxEnv R) (g : Globals R)
    (c : cs_syr4_coupling_t R) (cpl_elt_lst : Option (List Int))
    (tsolid0 tsolid tf hf : List R) (face_tsolid0 face_tsolid face_tf face_hf : List R)
    (fresh : Nat → R) (ent : cs_syr4_coupling_ent_t R)
    (hent : c.cells = some ent) (hn : 0 < ent.n_elts) (hr : ready_for ent 1)
    (hts : tsolid.length = ent.n_elts) (htf : tf.length = ent.n_elts)
    (hhf : hf.length = ent.n_elts)
    (hfaces : ∀ ent0, c.faces = some ent0 →
      ready_for ent0 0 ∧ face_tsolid.length = ent0.n_elts ∧
        face_tf.length = ent0.n_elts ∧ face_hf.length = ent0.n_elts) :
    (∃ r1 r2 e2,
      cs_syr4_coupling_recv_tsolid fp c tsolid0 tsolid 1 = some r1 ∧
      cs_syr4_coupling_send_tf_hf fp env fenv g r1.coupling cpl_elt_lst tf hf 1 fresh
        = some r2 ∧
      r2.coupling.cells = some e2 ∧ e2.n_elts = ent.n_elts ∧
      e2.sol_temp = some tsolid ∧ e2.hvol = some hf) ∧
    (∃ r, cs_syr4_coupling_recv_tsolid fp c face_tsolid0 face_tsolid 0 = some r ∧
      r.coupling.cells = c.cells ∧
      (r.coupling.faces.map fun e => e.hvol) = (c.faces.map fun e => e.hvol) ∧
      (r.coupling.faces.map fun e => e.sol_temp) = (c.faces.map fun e => e.sol_temp)) ∧
    (∃ r, cs_syr4_coupling_send_tf_hf fp env fenv g c cpl_elt_lst face_tf face_hf 0 fresh
        = some r ∧
      r.coupling.cells = c.cells ∧
      (r.coupling.faces.map fun e => e.hvol) = (c.faces.map fun e => e.hvol) ∧
      (r.coupling.faces.map fun e => e.sol_temp) = (c.faces.map fun e => e.sol_temp)) := by
  refine ⟨?_, ?_, ?_⟩
  · have hsel : coupling_ent_of c 1 = some ent := by
      unfold coupling_ent_of
      rw [if_neg (by decide)]
      exact hent
    obtain ⟨loc, hloc, hdl, hrange⟩ := hr.1
    have hu1 := recv_tsolid_update_spec fp ent tsolid 1 hn hr.2.1 hr.2.2 hts
    obtain ⟨e1, he1, hr1, hn1, hloc1, _, _, _⟩ := recv_update_ready fp ent tsolid 1 hr hts
    have hso1 : e1.sol_temp = some tsolid := by
      have he : e1 = _ := Option.some.inj (he1.symm.trans hu1)
      rw [he]
      rfl
    have hrecv := recv_tsolid_eq fp c tsolid0 tsolid 1 ent e1 loc (Or.inr rfl) hsel hloc he1
    obtain ⟨fl, hu2, _, _⟩ := send_tf_hf_update_spec fp e1 tf hf 1 (by rw [hn1]; exact hn)
      hr1.2.1 hr1.2.2 (by rw [hn1]; exact htf) (by rw [hn1]; exact hhf)
    obtain ⟨buf, hg, _, _⟩ := send_tf_hf_gather_spec loc tf hf fresh e1.n_elts hdl
      (by rw [hn1]; exact hrange) (by rw [hn1]; exact htf) (by rw [hn1]; exact hhf)
    have hsend := send_tf_hf_eq fp env fenv g (with_coupling_ent c 1 e1) cpl_elt_lst tf hf 1
      fresh e1 _ loc buf (Or.inr rfl) (coupling_ent_of_with c 1 e1)
      (by rw [hloc1]; exact hloc) hg hu2
    have h2 := coupling_ent_of_with (with_coupling_ent c 1 e1) 1
      ({ e1 with
          flux := fl
          tfluid_tmp := if e1.post_mesh_id = 0 then e1.tfluid_tmp else false
          hvol := if (1 : Int) = 1 then some hf else e1.hvol } : cs_syr4_coupling_ent_t R)
    unfold coupling_ent_of at h2
    rw [if_neg (by decide)] at h2
    exact ⟨_, _,
      ({ e1 with
          flux := fl
          tfluid_tmp := if e1.post_mesh_id = 0 then e1.tfluid_tmp else false
          hvol := if (1 : Int) = 1 then some hf else e1.hvol } : cs_syr4_coupling_ent_t R),
      hrecv, hsend, h2, hn1, hso1, by
        show (if (1 : Int) = 1 then some hf else e1.hvol) = some hf
        rw [if_pos rfl]⟩
  · obtain ⟨r, hrun⟩ := recv_tsolid_returns fp c face_tsolid0 face_tsolid 0 (Or.inl rfl)
      (fun ent0 h0 => ⟨(hfaces ent0 h0).1, (hfaces ent0 h0).2.1⟩)
    exact ⟨r, hrun, recv_tsolid_surface_frame fp c face_tsolid0 face_tsolid r hrun⟩
  · obtain ⟨r, hrun⟩ := send_tf_hf_returns fp env fenv g c cpl_elt_lst face_tf face_hf 0 fresh
      (Or.inl rfl)
      (fun ent0 h0 => ⟨(hfaces ent0 h0).1, (hfaces ent0 h0).2.2.1, (hfaces ent0 h0).2.2.2⟩)
    exact ⟨r, hrun,
      send_tf_hf_surface_frame fp env fenv g c cpl_elt_lst face_tf face_hf fresh r hrun⟩

/-- Witness of C16: the volume entity of four cells. -/
theorem persisted_source_term_state_witness :
    (∃ r1 r2 e2,
      cs_syr4_coupling_recv_tsolid integer_single volume_run_coupling [0, 0, 0, 0]
        [310, 320, 330, 340] 1 = some r1 ∧
      cs_syr4_coupling_send_tf_hf integer_single leader_env five_faces_env (Globals.start Int)
        r1.coupling none [300, 300, 300, 300] [5, 6, 7, 8] 1 (fun _ => 0) = some r2 ∧
      r2.coupling.cells = some e2 ∧ e2.n_elts = located_cells.n_elts ∧
      e2.sol_temp = some [310, 320, 330, 340] ∧ e2.hvol = some [5, 6, 7, 8]) ∧
    (∃ r, cs_syr4_coupling_recv_tsolid integer_single volume_run_coupling [] [] 0 = some r ∧
      r.coupling.cells = volume_run_coupling.cells ∧
      (r.coupling.faces.map fun e => e.hvol)
        = (volume_run_coupling.faces.map fun e => e.hvol) ∧
      (r.coupling.faces.map fun e => e.sol_temp)
        = (volume_run_coupling.faces.map fun e => e.sol_temp)) ∧
    (∃ r, cs_syr4_coupling_send_tf_hf integer_single leader_env five_faces_env
        (Globals.start Int) volume_run_coupling none [] [] 0 (fun _ => 0) = some r ∧
      r.coupling.cells = volume_run_coupling.cells ∧
      (r.coupling.faces.map fun e => e.hvol)
        = (volume_run_coupling.faces.map fun e => e.hvol) ∧
      (r.coupling.faces.map fun e => e.sol_temp)
        = (volume_run_coupling.faces.map fun e => e.sol_temp)) :=
  persisted_source_term_state integer_single leader_env five_faces_env (Globals.start Int)
    volume_run_coupling none [0, 0, 0, 0] [310, 320, 330, 340] [300, 300, 300, 300]
    [5, 6, 7, 8] [] [] [] [] (fun _ => 0) located_cells rfl (by decide)
    ⟨⟨_, rfl, rfl, by decide⟩, fun _ _ => ⟨_, _, rfl, rfl, rfl, rfl⟩,
      fun _ _ => ⟨_, _, rfl, rfl, rfl, rfl⟩⟩
    rfl rfl rfl
    (fun ent0 h0 => absurd h0 (by
      intro h
      cases h))

/-! ## Teardown: properties -/

theorem comm_times_loop_filled {R : Type} (couplings : List (Option (cs_syr4_coupling_t R))) :
    ∀ (k i : Nat), (∀ j, i ≤ j → j < i + k → ∃ c, couplings.getD j none = some c) →
      ∃ l, comm_times_loop couplings k i = some l := by
  intro k
  induction k with
  | zero =>
    intro i _
    exact ⟨[], rfl⟩
  | succ k ih =>
    intro i h
    obtain ⟨c, hc⟩ := h i (Nat.le_refl i) (by omega)
    obtain ⟨l, hl⟩ := ih (i + 1) (fun j h1 h2 => h j (by omega) (by omega))
    refine ⟨ent_comm_times c i 0 ++ ent_comm_times c i 1 ++ l, ?_⟩
    unfold comm_times_loop
    simp only [hc, hl, Option.map_some']

/-- The timing loop on a filled range: the lines written are those of the
entities of the instances in the range. -/
theorem comm_times_loop_spec {R : Type} (couplings : List (Option (cs_syr4_coupling_t R))) :
    ∀ (k i : Nat), (∀ j, i ≤ j → j < i + k → ∃ c, couplings.getD j none = some c) →
      ∃ l, comm_times_loop couplings k i = some l ∧
        ∀ x, x ∈ l ↔ ∃ j c, i ≤ j ∧ j < i + k ∧ couplings.getD j none = some c ∧
          (x ∈ ent_comm_times c j 0 ∨ x ∈ ent_comm_times c j 1) := by
  intro k
  induction k with
  | zero =>
    intro i _
    refine ⟨[], rfl, ?_⟩
    intro x
    constructor
    · intro hx
      exact absurd hx (List.not_mem_nil x)
    · rintro ⟨j, c, h1, h2, _⟩
      omega
  | succ k ih =>
    intro i h
    obtain ⟨c, hc⟩ := h i (Nat.le_refl i) (by omega)
    obtain ⟨l, hl, hmem⟩ := ih (i + 1) (fun j h1 h2 => h j (by omega) (by omega))
    refine ⟨ent_comm_times c i 0 ++ ent_comm_times c i 1 ++ l, ?_, ?_⟩
    · unfold comm_times_loop
      simp only [hc, hl, Option.map_some']
    · intro x
      rw [List.mem_append, List.mem_append]
      constructor
      · rintro (hx | hx)
        · exact ⟨i, c, Nat.le_refl i, by omega, hc, hx⟩
        · obtain ⟨j, c1, h1, h2, hc1, hx1⟩ := (hmem x).mp hx
          exact ⟨j, c1, by omega, by omega, hc1, hx1⟩
      · rintro ⟨j, c1, h1, h2, hc1, hx1⟩
        by_cases hj : j = i
        · subst hj
          rw [hc] at hc1
          rw [Option.some.inj hc1]
          exact Or.inl hx1
        · exact Or.inr ((hmem x).mpr ⟨j, c1, by omega, by omega, hc1, hx1⟩)

/-- The release loop on a filled range: the releases made are those of the
loop body for the instances in the range. -/
theorem destroy_loop_spec {R : Type} (couplings : List (Option (cs_syr4_coupling_t R))) :
    ∀ (k i : Nat), (∀ j, i ≤ j → j < i + k → ∃ c, couplings.getD j none = some c) →
      ∃ l, destroy_loop couplings k i = some l ∧
        ∀ x, x ∈ l ↔ ∃ j c, i ≤ j ∧ j < i + k ∧ couplings.getD j none = some c ∧
          x ∈ destroy_coupling c j := by
  intro k
  induction k with
  | zero =>
    intro i _
    refine ⟨[], rfl, ?_⟩
    intro x
    constructor
    · intro hx
      exact absurd hx (List.not_mem_nil x)
    · rintro ⟨j, c, h1, h2, _⟩
      omega
  | succ k ih =>
    intro i h
    obtain ⟨c, hc⟩ := h i (Nat.le_refl i) (by omega)
    obtain ⟨l, hl, hmem⟩ := ih (i + 1) (fun j h1 h2 => h j (by omega) (by omega))
    refine ⟨destroy_coupling c i ++ l, ?_, ?_⟩
    · unfold destroy_loop
      simp only [hc, hl, Option.map_some']
    · intro x
      rw [List.mem_append]
      constructor
      · rintro (hx | hx)
        · exact ⟨i, c, Nat.le_refl i, by omega, hc, hx⟩
        · obtain ⟨j, c1, h1, h2, hc1, hx1⟩ := (hmem x).mp hx
          exact ⟨j, c1, by omega, by omega, hc1, hx1⟩
      · rintro ⟨j, c1, h1, h2, hc1, hx1⟩
        by_cases hj : j = i
        · subst hj
          rw [hc] at hc1
          rw [Option.some.inj hc1]
          exact Or.inl hx1
        · exact Or.inr ((hmem x).mpr ⟨j, c1, by omega, by omega, hc1, hx1⟩)

/-- What `_destroy_coupled_ent` releases for an entity: each member present,
nothing absent, and the structure. -/
theorem destroy_coupled_ent_released {R : Type} (ce : cs_syr4_coupling_ent_t R) :
    ent_released ce (_destroy_coupled_ent (some ce)) := by
  unfold ent_released _destroy_coupled_ent
  simp [Option.isSome_iff_ne_none]

/-- Every release of the loop body of `cs_syr4_coupling_all_destroy` for the
instance of index `j` carries the index `j`. -/
theorem destroy_coupling_index {R : Type} (c : cs_syr4_coupling_t R) (j : Nat) :
    ∀ x ∈ destroy_coupling c j, x.i_coupl = j := by
  intro x hx
  unfold destroy_coupling at hx
  simp only [List.mem_append, List.mem_singleton] at hx
  rcases hx with (((((h | h) | h) | h) | h) | h) | h
  · split at h
    · rw [List.mem_singleton.mp h]
      rfl
    · exact absurd h (List.not_mem_nil x)
  · split at h
    · rw [List.mem_singleton.mp h]
      rfl
    · exact absurd h (List.not_mem_nil x)
  · split at h
    · rw [List.mem_singleton.mp h]
      rfl
    · exact absurd h (List.not_mem_nil x)
  · split at h
    · rw [List.mem_singleton.mp h]
      rfl
    · exact absurd h (List.not_mem_nil x)
  · split at h
    · rw [List.mem_singleton.mp h]
      rfl
    · exact absurd h (List.not_mem_nil x)
  · split at h
    · rw [List.mem_singleton.mp h]
      rfl
    · exact absurd h (List.not_mem_nil x)
  · rw [h]
    rfl

/-- What the loop body of `cs_syr4_coupling_all_destroy` releases for the
instance of index `j`: the name, the two criteria and the communicator are
released exactly when present; each entity present goes through
`_destroy_coupled_ent`; the structure is released. -/
theorem destroy_coupling_mem {R : Type} (c : cs_syr4_coupling_t R) (j : Nat) :
    FreeCall.free_coupling j ∈ destroy_coupling c j ∧
    (FreeCall.free_syr_name j ∈ destroy_coupling c j ↔ c.syr_name ≠ none) ∧
    (FreeCall.free_face_sel j ∈ destroy_coupling c j ↔ c.face_sel ≠ none) ∧
    (FreeCall.free_cell_sel j ∈ destroy_coupling c j ↔ c.cell_sel ≠ none) ∧
    (∀ frees, FreeCall.destroy_coupled_ent j 0 frees ∈ destroy_coupling c j ↔
      ∃ ce, c.faces = some ce ∧ frees = _destroy_coupled_ent (some ce)) ∧
    (∀ frees, FreeCall.destroy_coupled_ent j 1 frees ∈ destroy_coupling c j ↔
      ∃ ce, c.cells = some ce ∧ frees = _destroy_coupled_ent (some ce)) ∧
    (∀ comm, FreeCall.comm_free j comm ∈ destroy_coupling c j ↔ c.comm = some comm) := by
  unfold destroy_coupling
  cases hf : c.faces <;> cases hc : c.cells <;> cases hm : c.comm <;>
    simp [eq_comm]

/-- On an empty registry the teardown returns at line 1176 with nothing done. -/
theorem all_destroy_empty {R : Type} (g : Globals R) (h : g.cs_glob_syr4_n_couplings = 0) :
    cs_syr4_coupling_all_destroy g = some { globals := g, log := [], freed := [] } := by
  unfold cs_syr4_coupling_all_destroy
  rw [if_pos h]

/-- On a registry of at least one instance the teardown reaches its end: the
timing report comes first, the final message last, the releases are those of
the loop body for every instance, the count is reset and the array freed. -/
theorem all_destroy_filled {R : Type} (g : Globals R) (hn : g.cs_glob_syr4_n_couplings ≠ 0)
    (hg : registry_filled g) :
    ∃ times freed,
      cs_syr4_coupling_all_destroy g = some
        { globals := { g with cs_glob_syr4_n_couplings := 0, cs_glob_syr4_couplings := [] }
          log := [LogCall.log_separator, LogCall.log_overheads] ++ times
            ++ [LogCall.printf_freed]
          freed := freed } ∧
      (∀ x, x ∈ times ↔ ∃ j c, j < g.cs_glob_syr4_n_couplings ∧
        g.cs_glob_syr4_couplings.getD j none = some c ∧
        (x ∈ ent_comm_times c j 0 ∨ x ∈ ent_comm_times c j 1)) ∧
      (∀ x, x ∈ freed ↔ ∃ j c, j < g.cs_glob_syr4_n_couplings ∧
        g.cs_glob_syr4_couplings.getD j none = some c ∧ x ∈ destroy_coupling c j) := by
  have hrange : ∀ j, 0 ≤ j → j < 0 + g.cs_glob_syr4_n_couplings →
      ∃ c, g.cs_glob_syr4_couplings.getD j none = some c :=
    fun j _ h2 => hg j (by omega)
  obtain ⟨times, ht, htmem⟩ := comm_times_loop_spec g.cs_glob_syr4_couplings
    g.cs_glob_syr4_n_couplings 0 hrange
  obtain ⟨freed, hf, hmem⟩ := destroy_loop_spec g.cs_glob_syr4_couplings
    g.cs_glob_syr4_n_couplings 0 hrange
  refine ⟨times, freed, ?_, ?_, ?_⟩
  · unfold cs_syr4_coupling_all_destroy _all_comm_times
    simp only [if_neg hn, ht, hf, Option.map_some']
  · intro x
    rw [htmem x]
    constructor
    · rintro ⟨j, c, _, h2, hc, hx⟩
      exact ⟨j, c, by omega, hc, hx⟩
    · rintro ⟨j, c, h2, hc, hx⟩
      exact ⟨j, c, Nat.zero_le j, by omega, hc, hx⟩
  · intro x
    rw [hmem x]
    constructor
    · rintro ⟨j, c, _, h2, hc, hx⟩
      exact ⟨j, c, by omega, hc, hx⟩
    · rintro ⟨j, c, h2, hc, hx⟩
      exact ⟨j, c, Nat.zero_le j, by omega, hc, hx⟩

/-- Among the releases of a teardown, those carrying the index of an instance
are the releases of the loop body for that instance. -/
theorem freed_at_index {R : Type} (g : Globals R) (freed : List FreeCall)
    (hchar : ∀ x, x ∈ freed ↔ ∃ j c, j < g.cs_glob_syr4_n_couplings ∧
      g.cs_glob_syr4_couplings.getD j none = some c ∧ x ∈ destroy_coupling c j)
    (j : Nat) (c : cs_syr4_coupling_t R) (hj : j < g.cs_glob_syr4_n_couplings)
    (hc : g.cs_glob_syr4_couplings.getD j none = some c) (x : FreeCall)
    (hx : x.i_coupl = j) : x ∈ freed ↔ x ∈ destroy_coupling c j := by
  rw [hchar x]
  constructor
  · rintro ⟨j1, c1, _, hc1, hx1⟩
    have hidx : x.i_coupl = j1 := destroy_coupling_index c1 j1 x hx1
    have hjj : j1 = j := hidx.symm.trans hx
    subst hjj
    rw [hc] at hc1
    rw [Option.some.inj hc1]
    exact hx1
  · intro h
    exact ⟨j, c, hj, hc, h⟩

theorem registry_selected_filled {R : Type} (g : Globals R) (h : registry_selected g) :
    registry_filled g := by
  intro i hi
  obtain ⟨c, hc, _⟩ := h i hi
  exact ⟨c, hc⟩

/-- An addition keeps the selection invariant, in the state it returns as in
the state it aborts in. -/
theorem add_registry_selected {R : Type} (g : Globals R) (a : AddArgs)
    (h : registry_selected g) :
    registry_selected (cs_syr4_coupling_add g a.dim a.ref_axis a.face_sel_criterion
      a.cell_sel_criterion a.syr_name a.verbosity a.visualization).state := by
  by_cases hv : a.face_sel_criterion ≠ none ∨ a.cell_sel_criterion ≠ none
  · rw [add_valid_eq g _ _ _ _ _ _ _ hv]
    intro i hi
    have hi1 : i < g.cs_glob_syr4_n_couplings + 1 := hi
    by_cases hlast : i = g.cs_glob_syr4_n_couplings
    · subst hlast
      exact ⟨_, set_realloc_getD_last _ _ _, hv⟩
    · have hlt : i < g.cs_glob_syr4_n_couplings := by omega
      obtain ⟨c, hc, hs⟩ := h i hlt
      refine ⟨c, ?_, hs⟩
      show ((BFT_REALLOC g.cs_glob_syr4_couplings (g.cs_glob_syr4_n_couplings + 1)).set
        g.cs_glob_syr4_n_couplings _).getD i none = some c
      rw [set_realloc_getD_before _ _ _ _ hlt]
      exact hc
  · have hboth : a.face_sel_criterion = none ∧ a.cell_sel_criterion = none := by
      constructor
      · by_contra hc
        exact hv (Or.inl hc)
      · by_contra hc
        exact hv (Or.inr hc)
    unfold cs_syr4_coupling_add
    simp only [if_pos hboth]
    intro i hi
    have hlt : i < g.cs_glob_syr4_n_couplings := hi
    obtain ⟨c, hc, hs⟩ := h i hlt
    refine ⟨c, ?_, hs⟩
    show (BFT_REALLOC g.cs_glob_syr4_couplings (g.cs_glob_syr4_n_couplings + 1)).getD i none
      = some c
    rw [BFT_REALLOC_getD _ _ _ (Nat.lt_succ_of_lt hlt)]
    exact hc

/-- The teardown of a registry satisfying the selection invariant reaches its
end and leaves a registry satisfying it. -/
theorem all_destroy_registry_selected {R : Type} (g : Globals R) (h : registry_selected g) :
    ∃ t, cs_syr4_coupling_all_destroy g = some t ∧ registry_selected t.globals ∧
      t.globals.cs_glob_syr4_n_couplings = 0 := by
  by_cases hn : g.cs_glob_syr4_n_couplings = 0
  · exact ⟨_, all_destroy_empty g hn, h, hn⟩
  · obtain ⟨times, freed, heq, _, _⟩ := all_destroy_filled g hn (registry_selected_filled g h)
    refine ⟨_, heq, ?_, rfl⟩
    intro i hi
    exact absurd hi (Nat.not_lt_zero i)

theorem registry_run_selected {R : Type} (calls : List RegistryCall) :
    ∀ g : Globals R, registry_selected g →
      ∃ out, registry_run g calls = some out ∧ registry_selected out.state := by
  induction calls with
  | nil =>
    intro g h
    exact ⟨Outcome.ok g, rfl, h⟩
  | cons call rest ih =>
    intro g h
    cases call with
    | add a =>
      have hadd := add_registry_selected g a h
      unfold registry_run
      cases hres : cs_syr4_coupling_add g a.dim a.ref_axis a.face_sel_criterion
          a.cell_sel_criterion a.syr_name a.verbosity a.visualization with
      | ok g1 =>
        rw [hres] at hadd
        exact ih g1 hadd
      | fatal e g1 =>
        rw [hres] at hadd
        exact ⟨Outcome.fatal e g1, rfl, hadd⟩
    | all_destroy =>
      obtain ⟨t, ht, hsel, _⟩ := all_destroy_registry_selected g h
      unfold registry_run
      rw [ht]
      exact ih t.globals hsel

theorem by_id_registry_selected {R : Type} (g : Globals R) (h : registry_selected g)
    (i : Int) (c : cs_syr4_coupling_t R) (hc : cs_syr4_coupling_by_id g i = some c) :
    c.face_sel ≠ none ∨ c.cell_sel ≠ none := by
  by_cases hout : i < 0 ∨ (g.cs_glob_syr4_n_couplings : Int) ≤ i
  · rw [by_id_outside g i hout] at hc
    exact absurd hc (by simp)
  · have hi : i.toNat < g.cs_glob_syr4_n_couplings := by omega
    have hcast : ((i.toNat : Nat) : Int) = i := by omega
    have hby := by_id_of_lt g i.toNat hi
    rw [hcast, hc] at hby
    obtain ⟨c1, hc1, hs⟩ := h i.toNat hi
    rw [hc1] at hby
    rw [Option.some.inj hby]
    exact hs

/-- C21: from a registry holding no instance, every sequence of calls of
`cs_syr4_coupling_add` and `cs_syr4_coupling_all_destroy` runs without a bad
access, and in the state it reaches (a normal return, or the state at the abort
of an addition without criteria) every instance `cs_syr4_coupling_by_id`
returns has its face selection or its cell selection present. -/
theorem registry_selection_invariant {R : Type} (calls : List RegistryCall) (g0 : Globals R)
    (h0 : g0.cs_glob_syr4_n_couplings = 0) :
    ∃ out, registry_run g0 calls = some out ∧
      ∀ (i : Int) (c : cs_syr4_coupling_t R),
        cs_syr4_coupling_by_id out.state i = some c →
          c.face_sel ≠ none ∨ c.cell_sel ≠ none := by
  have hstart : registry_selected g0 := by
    intro i hi
    rw [h0] at hi
    exact absurd hi (Nat.not_lt_zero i)
  obtain ⟨out, hrun, hsel⟩ := registry_run_selected calls g0 hstart
  exact ⟨out, hrun, fun i c hc => by_id_registry_selected out.state hsel i c hc⟩

/-- Witness of C21: two additions, a teardown, a third addition and an
addition without criteria, from the state at program start. -/
theorem registry_selection_invariant_witness :
    (Globals.start Int).cs_glob_syr4_n_couplings = 0 ∧
    ∃ out, registry_run (Globals.start Int) mixed_calls = some out ∧
      ∀ (i : Int) (c : cs_syr4_coupling_t Int),
        cs_syr4_coupling_by_id out.state i = some c →
          c.face_sel ≠ none ∨ c.cell_sel ≠ none :=
  ⟨rfl, registry_selection_invariant mixed_calls (Globals.start Int) rfl⟩

/-- The run used as witness of C21 ends at the abort of the last addition,
with the single instance added after the teardown registered. -/
theorem mixed_calls_run :
    ∃ g, registry_run (Globals.start Int) mixed_calls
        = some (Outcome.fatal Fatal.no_selection g) ∧
      cs_syr4_coupling_n_couplings g = 1 ∧
      cs_syr4_coupling_by_id g 0
        = some (new_coupling Int 3 1 (some "inlet") (some "all") (some "solid_c") 2 0) :=
  ⟨_, rfl, rfl, rfl⟩

/-- C22: on a registry holding no instance `cs_syr4_coupling_all_destroy`
returns at once: the static variables are unchanged and the count is still 0,
nothing is written (neither the timing report nor the final message), nothing
is released, and `_all_comm_times` on its own writes nothing either. -/
theorem all_destroy_zero_noop {R : Type} (g : Globals R)
    (h : g.cs_glob_syr4_n_couplings = 0) :
    (∃ t, cs_syr4_coupling_all_destroy g = some t ∧ t.globals = g ∧
      cs_syr4_coupling_n_couplings t.globals = 0 ∧
      LogCall.log_overheads ∉ t.log ∧ LogCall.printf_freed ∉ t.log ∧
      t.log = [] ∧ t.freed = []) ∧
    _all_comm_times g = some [] := by
  refine ⟨⟨_, all_destroy_empty g h, rfl, ?_, ?_, ?_, rfl, rfl⟩, ?_⟩
  · show ((g.cs_glob_syr4_n_couplings : Nat) : Int) = 0
    rw [h]
    rfl
  · exact List.not_mem_nil _
  · exact List.not_mem_nil _
  · unfold _all_comm_times
    rw [if_pos h]

/-- Witness of C22: the state at program start. -/
theorem all_destroy_zero_noop_witness :
    (Globals.start Int).cs_glob_syr4_n_couplings = 0 ∧
    (∃ t, cs_syr4_coupling_all_destroy (Globals.start Int) = some t ∧
      t.globals = Globals.start Int ∧
      cs_syr4_coupling_n_couplings t.globals = 0 ∧
      LogCall.log_overheads ∉ t.log ∧ LogCall.printf_freed ∉ t.log ∧
      t.log = [] ∧ t.freed = []) ∧
    _all_comm_times (Globals.start Int) = some [] :=
  ⟨rfl, all_destroy_zero_noop (Globals.start Int) rfl⟩

/-- C23: on a registry holding `n ≥ 1` instances `cs_syr4_coupling_all_destroy`
reaches its end and tears down every instance. The timing report is written
first, with the lines of every entity present, and the final message last. For
every instance the structure is released; its name, its two criteria and its
communicator are released exactly when present; each entity present goes
through `_destroy_coupled_ent`, which releases its locator, its arrays and its
nodal mesh exactly when present and then the entity, and no entity is destroyed
where there is none; nothing is released for another index. Afterwards
`cs_syr4_coupling_n_couplings` returns 0 and `cs_syr4_coupling_by_id` returns
no instance for any index, and a valid `cs_syr4_coupling_add` made next gives a
registry of size 1 whose index 0 holds the new instance. -/
theorem all_destroy_tears_down {R : Type} (g : Globals R)
    (hn : 1 ≤ g.cs_glob_syr4_n_couplings) (hg : registry_filled g) :
    ∃ t, cs_syr4_coupling_all_destroy g = some t ∧
      cs_syr4_coupling_n_couplings t.globals = 0 ∧
      (∀ i : Int, cs_syr4_coupling_by_id t.globals i = none) ∧
      (∃ times, t.log = [LogCall.log_separator, LogCall.log_overheads] ++ times
        ++ [LogCall.printf_freed]) ∧
      (∀ j, j < g.cs_glob_syr4_n_couplings → FreeCall.free_coupling j ∈ t.freed) ∧
      (∀ j c, j < g.cs_glob_syr4_n_couplings →
        g.cs_glob_syr4_couplings.getD j none = some c →
        (FreeCall.free_syr_name j ∈ t.freed ↔ c.syr_name ≠ none) ∧
        (FreeCall.free_face_sel j ∈ t.freed ↔ c.face_sel ≠ none) ∧
        (FreeCall.free_cell_sel j ∈ t.freed ↔ c.cell_sel ≠ none) ∧
        (∀ comm, FreeCall.comm_free j comm ∈ t.freed ↔ c.comm = some comm) ∧
        (∀ ce, c.faces = some ce →
          (∃ frees, FreeCall.destroy_coupled_ent j 0 frees ∈ t.freed ∧ ent_released ce frees) ∧
          LogCall.log_entity c.syr_name (j + 1) "surface" ∈ t.log ∧
          LogCall.log_times ce.locator ∈ t.log) ∧
        (c.faces = none → ∀ frees, FreeCall.destroy_coupled_ent j 0 frees ∉ t.freed) ∧
        (∀ ce, c.cells = some ce →
          (∃ frees, FreeCall.destroy_coupled_ent j 1 frees ∈ t.freed ∧ ent_released ce frees) ∧
          LogCall.log_entity c.syr_name (j + 1) "volume" ∈ t.log ∧
          LogCall.log_times ce.locator ∈ t.log) ∧
        (c.cells = none → ∀ frees, FreeCall.destroy_coupled_ent j 1 frees ∉ t.freed)) ∧
      (∀ x ∈ t.freed, x.i_coupl < g.cs_glob_syr4_n_couplings) ∧
      ∀ (dim ref_axis : Int) (face cell name : Option String) (verbosity visualization : Int),
        face ≠ none ∨ cell ≠ none →
        ∃ g2, cs_syr4_coupling_add t.globals dim ref_axis face cell name verbosity
            visualization = Outcome.ok g2 ∧
          cs_syr4_coupling_n_couplings g2 = 1 ∧
          cs_syr4_coupling_by_id g2 0
            = some (new_coupling R dim ref_axis face cell name verbosity visualization) := by
  obtain ⟨times, freed, heq, htmem, hmem⟩ := all_destroy_filled g (by omega) hg
  have hlog : ∀ x, x ∈ times →
      x ∈ [LogCall.log_separator, LogCall.log_overheads] ++ times ++ [LogCall.printf_freed] :=
    fun x hx => List.mem_append_left _ (List.mem_append_right _ hx)
  refine ⟨_, heq, rfl, ?_, ⟨times, rfl⟩, ?_, ?_, ?_, ?_⟩
  · intro i
    apply by_id_outside
    show i < 0 ∨ ((0 : Nat) : Int) ≤ i
    omega
  · intro j hj
    obtain ⟨c, hc⟩ := hg j hj
    exact (freed_at_index g freed hmem j c hj hc (FreeCall.free_coupling j) rfl).mpr
      (destroy_coupling_mem c j).1
  · intro j c hj hc
    have key := freed_at_index g freed hmem j c hj hc
    obtain ⟨_, m2, m3, m4, m5, m6, m7⟩ := destroy_coupling_mem c j
    refine ⟨(key (FreeCall.free_syr_name j) rfl).trans m2,
      (key (FreeCall.free_face_sel j) rfl).trans m3,
      (key (FreeCall.free_cell_sel j) rfl).trans m4,
      fun comm => (key (FreeCall.comm_free j comm) rfl).trans (m7 comm), ?_, ?_, ?_, ?_⟩
    · intro ce hce
      refine ⟨⟨_destroy_coupled_ent (some ce),
        (key (FreeCall.destroy_coupled_ent j 0 _) rfl).mpr ((m5 _).mpr ⟨ce, hce, rfl⟩),
        destroy_coupled_ent_released ce⟩, ?_, ?_⟩
      · apply hlog
        refine (htmem _).mpr ⟨j, c, hj, hc, Or.inl ?_⟩
        unfold ent_comm_times
        simp [hce]
      · apply hlog
        refine (htmem _).mpr ⟨j, c, hj, hc, Or.inl ?_⟩
        unfold ent_comm_times
        simp [hce]
    · intro hnone frees hin
      obtain ⟨ce, hce, _⟩ :=
        (m5 frees).mp ((key (FreeCall.destroy_coupled_ent j 0 frees) rfl).mp hin)
      rw [hnone] at hce
      exact Option.noConfusion hce
    · intro ce hce
      refine ⟨⟨_destroy_coupled_ent (some ce),
        (key (FreeCall.destroy_coupled_ent j 1 _) rfl).mpr ((m6 _).mpr ⟨ce, hce, rfl⟩),
        destroy_coupled_ent_released ce⟩, ?_, ?_⟩
      · apply hlog
        refine (htmem _).mpr ⟨j, c, hj, hc, Or.inr ?_⟩
        unfold ent_comm_times
        simp [hce]
      · apply hlog
        refine (htmem _).mpr ⟨j, c, hj, hc, Or.inr ?_⟩
        unfold ent_comm_times
        simp [hce]
    · intro hnone frees hin
      obtain ⟨ce, hce, _⟩ :=
        (m6 frees).mp ((key (FreeCall.destroy_coupled_ent j 1 frees) rfl).mp hin)
      rw [hnone] at hce
      exact Option.noConfusion hce
  · intro x hx
    obtain ⟨j, c, hj, _, hxin⟩ := (hmem x).mp hx
    rw [destroy_coupling_index c j x hxin]
    exact hj
  · intro dim ref_axis face cell name verbosity visualization hv
    refine ⟨_, add_valid_eq _ dim ref_axis face cell name verbosity visualization hv, rfl, ?_⟩
    rw [show (0 : Int) = ((0 : Nat) : Int) from rfl, by_id_of_lt _ 0 (Nat.zero_lt_one)]
    exact set_realloc_getD_last _ 0 _

/-- Witness of C23: the registry of a surface coupling and a volume coupling in
their steady state, with entities and communicators, and a coupling never
initialised. -/
theorem all_destroy_tears_down_witness :
    1 ≤ running_registry.cs_glob_syr4_n_couplings ∧ registry_filled running_registry ∧
    ∃ t, cs_syr4_coupling_all_destroy running_registry = some t ∧
      cs_syr4_coupling_n_couplings t.globals = 0 ∧
      (∀ i : Int, cs_syr4_coupling_by_id t.globals i = none) ∧
      (∃ times, t.log = [LogCall.log_separator, LogCall.log_overheads] ++ times
        ++ [LogCall.printf_freed]) ∧
      (∀ j, j < running_registry.cs_glob_syr4_n_couplings →
        FreeCall.free_coupling j ∈ t.freed) ∧
      (∀ j c, j < running_registry.cs_glob_syr4_n_couplings →
        running_registry.cs_glob_syr4_couplings.getD j none = some c →
        (FreeCall.free_syr_name j ∈ t.freed ↔ c.syr_name ≠ none) ∧
        (FreeCall.free_face_sel j ∈ t.freed ↔ c.face_sel ≠ none) ∧
        (FreeCall.free_cell_sel j ∈ t.freed ↔ c.cell_sel ≠ none) ∧
        (∀ comm, FreeCall.comm_free j comm ∈ t.freed ↔ c.comm = some comm) ∧
        (∀ ce, c.faces = some ce →
          (∃ frees, FreeCall.destroy_coupled_ent j 0 frees ∈ t.freed ∧ ent_released ce frees) ∧
          LogCall.log_entity c.syr_name (j + 1) "surface" ∈ t.log ∧
          LogCall.log_times ce.locator ∈ t.log) ∧
        (c.faces = none → ∀ frees, FreeCall.destroy_coupled_ent j 0 frees ∉ t.freed) ∧
        (∀ ce, c.cells = some ce →
          (∃ frees, FreeCall.destroy_coupled_ent j 1 frees ∈ t.freed ∧ ent_released ce frees) ∧
          LogCall.log_entity c.syr_name (j + 1) "volume" ∈ t.log ∧
          LogCall.log_times ce.locator ∈ t.log) ∧
        (c.cells = none → ∀ frees, FreeCall.destroy_coupled_ent j 1 frees ∉ t.freed)) ∧
      (∀ x ∈ t.freed, x.i_coupl < running_registry.cs_glob_syr4_n_couplings) ∧
      ∀ (dim ref_axis : Int) (face cell name : Option String) (verbosity visualization : Int),
        face ≠ none ∨ cell ≠ none →
        ∃ g2, cs_syr4_coupling_add t.globals dim ref_axis face cell name verbosity
            visualization = Outcome.ok g2 ∧
          cs_syr4_coupling_n_couplings g2 = 1 ∧
          cs_syr4_coupling_by_id g2 0
            = some (new_coupling Int dim ref_axis face cell name verbosity visualization) :=
  have hfill : registry_filled running_registry := by
    intro i hi
    have hi3 : i < 3 := hi
    interval_cases i
    · exact ⟨_, rfl⟩
    · exact ⟨_, rfl⟩
    · exact ⟨_, rfl⟩
  ⟨by decide, hfill, all_destroy_tears_down running_registry (by decide) hfill⟩

/-- Evaluation of the teardown on the registry of the witness: the timing lines
of the two entities, then for each instance in index order the name and
criteria present, the entity with what it holds (the volume entity also its two
persisted arrays), the communicator, and the structure; the instance never
initialised has neither entity nor communicator to release. -/
theorem all_destroy_running_registry :
    cs_syr4_coupling_all_destroy running_registry = some
      { globals :=
          { cs_glob_syr4_n_couplings := 0, cs_glob_syr4_couplings := []
            cs_syr4_coupling_conservativity := 1, cs_syr4_coupling_implicit := 1 }
        log :=
          [LogCall.log_separator, LogCall.log_overheads,
           LogCall.log_entity (some "solid") 1 "surface",
           LogCall.log_times (some four_faces_oracle.located),
           LogCall.log_entity (some "solid") 2 "volume",
           LogCall.log_times (some four_faces_oracle.located),
           LogCall.printf_freed]
        freed :=
          [FreeCall.free_syr_name 0, FreeCall.free_face_sel 0,
           FreeCall.destroy_coupled_ent 0 0
             [EntFree.locator_destroy, EntFree.free_solid_temp, EntFree.free_flux,
              EntFree.nodal_destroy, EntFree.free_ent],
           FreeCall.comm_free 0 1, FreeCall.free_coupling 0,
           FreeCall.free_syr_name 1, FreeCall.free_cell_sel 1,
           FreeCall.destroy_coupled_ent 1 1
             [EntFree.locator_destroy, EntFree.free_solid_temp, EntFree.free_flux,
              EntFree.free_hvol, EntFree.free_sol_temp, EntFree.nodal_destroy,
              EntFree.free_ent],
           FreeCall.comm_free 1 7, FreeCall.free_coupling 1,
           FreeCall.free_syr_name 2, FreeCall.free_face_sel 2, FreeCall.free_coupling 2] } := by
  rfl

/-- Evaluation of the teardown on the registry of three instances just added:
the names and criteria present are freed, then each structure, in index order. -/
theorem all_destroy_three_registered :
    cs_syr4_coupling_all_destroy three_registered = some
      { globals := Globals.start Int
        log := [LogCall.log_separator, LogCall.log_overheads, LogCall.printf_freed]
        freed :=
          [FreeCall.free_syr_name 0, FreeCall.free_face_sel 0, FreeCall.free_coupling 0,
           FreeCall.free_syr_name 1, FreeCall.free_cell_sel 1, FreeCall.free_coupling 1,
           FreeCall.free_syr_name 2, FreeCall.free_face_sel 2, FreeCall.free_cell_sel 2,
           FreeCall.free_coupling 2] } := by
  rfl

/-! ## Queries: properties -/

theorem _post_init_elt_dim {R : Type} (e : cs_syr4_coupling_ent_t R) (o : MeshOracle R) :
    (_post_init e o).elt_dim = e.elt_dim := by
  unfold _post_init
  split
  · rfl
  · simp only []
    split <;> rfl

theorem extracted_ent_elt_dim {R : Type} (c : cs_syr4_coupling_t R) (elt_dim : Int)
    (o : MeshOracle R) : (extracted_ent c elt_dim o).elt_dim = elt_dim := by
  unfold extracted_ent
  simp only []
  split
  · rfl
  · split <;> rfl

theorem located_ent_elt_dim {R : Type} (c : cs_syr4_coupling_t R) (elt_dim : Int)
    (o : MeshOracle R) : (located_ent c elt_dim o).elt_dim = elt_dim := by
  unfold located_ent
  simp only []
  split
  · exact (_post_init_elt_dim _ o).trans (extracted_ent_elt_dim c elt_dim o)
  · exact extracted_ent_elt_dim c elt_dim o

/-- An entity returned by `_create_coupled_ent` has the element dimension
asked for (line 479). -/
theorem create_coupled_ent_elt_dim {R : Type} (c : cs_syr4_coupling_t R) (sel : String)
    (elt_dim : Int) (o : MeshOracle R) (e : cs_syr4_coupling_ent_t R)
    (h : _create_coupled_ent c sel elt_dim o = Outcome.ok e) : e.elt_dim = elt_dim := by
  unfold _create_coupled_ent at h
  split at h
  · exact Outcome.noConfusion h
  · split at h
    · exact Outcome.noConfusion h
    · simp only [] at h
      split at h
      · exact Outcome.noConfusion h
      · rw [← Outcome.ok.inj h]
        exact located_ent_elt_dim c elt_dim o

/-- What a normal return of lines 1325-1328 leaves: the instance unchanged
without a face criterion, and with one a surface entity of dimension
`dim - 1` in `faces`, nothing else being changed. -/
theorem init_mesh_faces_result {R : Type} (c c1 : cs_syr4_coupling_t R) (o : MeshOracle R)
    (h : init_mesh_faces c o = Outcome.ok c1) :
    (c.face_sel = none → c1 = c) ∧
    (c.face_sel ≠ none → ∃ e, c1 = { c with faces := some e } ∧ e.elt_dim = c.dim - 1) := by
  unfold init_mesh_faces at h
  cases hf : c.face_sel with
  | none =>
    rw [hf] at h
    exact ⟨fun _ => (Outcome.ok.inj h).symm, fun hne => absurd rfl hne⟩
  | some sel =>
    rw [hf] at h
    simp only [] at h
    refine ⟨fun hnone => Option.noConfusion hnone, fun _ => ?_⟩
    cases he : _create_coupled_ent c sel (c.dim - 1) o with
    | ok e =>
      rw [he] at h
      exact ⟨e, (Outcome.ok.inj h).symm, create_coupled_ent_elt_dim c sel _ o e he⟩
    | fatal err e =>
      rw [he] at h
      exact Outcome.noConfusion h

/-- See `init_mesh_faces_result`, for lines 1330-1334 and the volume entity of
dimension `dim`. -/
theorem init_mesh_cells_result {R : Type} (c c1 : cs_syr4_coupling_t R) (o : MeshOracle R)
    (h : init_mesh_cells c o = Outcome.ok c1) :
    (c.cell_sel = none → c1 = c) ∧
    (c.cell_sel ≠ none → ∃ e, c1 = { c with cells := some e } ∧ e.elt_dim = c.dim) := by
  unfold init_mesh_cells at h
  cases hf : c.cell_sel with
  | none =>
    rw [hf] at h
    exact ⟨fun _ => (Outcome.ok.inj h).symm, fun hne => absurd rfl hne⟩
  | some sel =>
    rw [hf] at h
    simp only [] at h
    refine ⟨fun hnone => Option.noConfusion hnone, fun _ => ?_⟩
    cases he : _create_coupled_ent c sel c.dim o with
    | ok e =>
      rw [he] at h
      exact ⟨e, (Outcome.ok.inj h).symm, create_coupled_ent_elt_dim c sel _ o e he⟩
    | fatal err e =>
      rw [he] at h
      exact Outcome.noConfusion h

/-- The exchange of the start message leaves the instance as it is. -/
theorem init_mesh_start_coupling {R : Type} (env : MpiEnv) (c : cs_syr4_coupling_t R)
    (net : Incoming) (stack : TokenStack) (st : Step R)
    (h : init_mesh_start env c net stack = Handshake.ok st) : st.coupling = c := by
  unfold init_mesh_start at h
  simp only [] at h
  split at h
  · exact Handshake.noConfusion h
  · split at h
    · exact Handshake.noConfusion h
    · split at h
      · exact Handshake.noConfusion h
      · rw [← Handshake.ok.inj h]

/-- A normal return of `cs_syr4_coupling_init_mesh` went through the two
creation steps and the exchange. -/
theorem init_mesh_ok_steps {R : Type} (env : MpiEnv) (c : cs_syr4_coupling_t R)
    (face_oracle cell_oracle : MeshOracle R) (net : Incoming) (stack : TokenStack)
    (st : Step R)
    (h : cs_syr4_coupling_init_mesh env c face_oracle cell_oracle net stack
      = Handshake.ok st) :
    ∃ c1, init_mesh_faces c face_oracle = Outcome.ok c1 ∧
      init_mesh_cells c1 cell_oracle = Outcome.ok st.coupling := by
  unfold cs_syr4_coupling_init_mesh at h
  split at h
  · exact Handshake.noConfusion h
  · cases h1 : init_mesh_faces c face_oracle with
    | fatal err c1 =>
      rw [h1] at h
      exact Handshake.noConfusion h
    | ok c1 =>
      rw [h1] at h
      simp only [] at h
      cases h2 : init_mesh_cells c1 cell_oracle with
      | fatal err c2 =>
        rw [h2] at h
        exact Handshake.noConfusion h
      | ok c2 =>
        rw [h2] at h
        simp only [] at h
        rw [init_mesh_start_coupling env c2 net stack st h]
        exact ⟨c1, rfl, h2⟩

theorem init_mesh_faces_fields {R : Type} (c c1 : cs_syr4_coupling_t R) (o : MeshOracle R)
    (h : init_mesh_faces c o = Outcome.ok c1) :
    c1.cells = c.cells ∧ c1.dim = c.dim ∧ c1.cell_sel = c.cell_sel ∧
    (c.face_sel = none → c1.faces = c.faces) ∧
    (c.face_sel ≠ none → ∃ e, c1.faces = some e ∧ e.elt_dim = c.dim - 1) := by
  obtain ⟨hnone, hsome⟩ := init_mesh_faces_result c c1 o h
  by_cases hf : c.face_sel = none
  · rw [hnone hf]
    exact ⟨rfl, rfl, rfl, fun _ => rfl, fun hne => absurd hf hne⟩
  · obtain ⟨e, he, hd⟩ := hsome hf
    rw [he]
    exact ⟨rfl, rfl, rfl, fun hn => absurd hn hf, fun _ => ⟨e, rfl, hd⟩⟩

theorem init_mesh_cells_fields {R : Type} (c c1 : cs_syr4_coupling_t R) (o : MeshOracle R)
    (h : init_mesh_cells c o = Outcome.ok c1) :
    c1.faces = c.faces ∧
    (c.cell_sel = none → c1.cells = c.cells) ∧
    (c.cell_sel ≠ none → ∃ e, c1.cells = some e ∧ e.elt_dim = c.dim) := by
  obtain ⟨hnone, hsome⟩ := init_mesh_cells_result c c1 o h
  by_cases hf : c.cell_sel = none
  · rw [hnone hf]
    exact ⟨rfl, fun _ => rfl, fun hne => absurd hf hne⟩
  · obtain ⟨e, he, hd⟩ := hsome hf
    rw [he]
    exact ⟨rfl, fun hn => absurd hn hf, fun _ => ⟨e, rfl, hd⟩⟩

/-- After a normal return of `cs_syr4_coupling_init_mesh` on an instance
without entities: each entity is present exactly when its criterion is, with
the element dimension of lines 1328 and 1333. -/
theorem init_mesh_entities {R : Type} (env : MpiEnv) (c : cs_syr4_coupling_t R)
    (face_oracle cell_oracle : MeshOracle R) (net : Incoming) (stack : TokenStack)
    (st : Step R) (hfaces : c.faces = none) (hcells : c.cells = none)
    (hok : cs_syr4_coupling_init_mesh env c face_oracle cell_oracle net stack
      = Handshake.ok st) :
    (c.face_sel = none → st.coupling.faces = none) ∧
    (c.face_sel ≠ none → ∃ e, st.coupling.faces = some e ∧ e.elt_dim = c.dim - 1) ∧
    (c.cell_sel = none → st.coupling.cells = none) ∧
    (c.cell_sel ≠ none → ∃ e, st.coupling.cells = some e ∧ e.elt_dim = c.dim) := by
  obtain ⟨c1, h1, h2⟩ := init_mesh_ok_steps env c face_oracle cell_oracle net stack st hok
  obtain ⟨f1, f2, f3, f4, f5⟩ := init_mesh_faces_fields c c1 face_oracle h1
  obtain ⟨g1, g2, g3⟩ := init_mesh_cells_fields c1 st.coupling cell_oracle h2
  refine ⟨?_, ?_, ?_, ?_⟩
  · intro hf
    rw [g1, f4 hf, hfaces]
  · intro hf
    rw [g1]
    exact f5 hf
  · intro hc
    rw [g2 (f3.trans hc), f1, hcells]
  · intro hc
    rw [← f2]
    exact g3 (fun hn => hc (f3 ▸ hn))

/-- C24: after a normal return of `cs_syr4_coupling_init_mesh` on an instance
as `cs_syr4_coupling_add` registers it (no entity yet, at least one criterion),
`cs_syr4_coupling_is_surf` returns 1 exactly when the face criterion is present
and 0 otherwise, `cs_syr4_coupling_is_vol` returns 1 exactly when the cell
criterion is present and 0 otherwise, one of the two returns 1, the surface
entity has element dimension `dim - 1` and the volume entity `dim`. -/
theorem init_mesh_is_surf_is_vol {R : Type} (env : MpiEnv) (c : cs_syr4_coupling_t R)
    (face_oracle cell_oracle : MeshOracle R) (net : Incoming) (stack : TokenStack)
    (st : Step R) (hfaces : c.faces = none) (hcells : c.cells = none)
    (hsel : c.face_sel ≠ none ∨ c.cell_sel ≠ none)
    (hok : cs_syr4_coupling_init_mesh env c face_oracle cell_oracle net stack
      = Handshake.ok st) :
    (cs_syr4_coupling_is_surf st.coupling = 1 ↔ c.face_sel ≠ none) ∧
    (cs_syr4_coupling_is_surf st.coupling = 0 ↔ c.face_sel = none) ∧
    (cs_syr4_coupling_is_vol st.coupling = 1 ↔ c.cell_sel ≠ none) ∧
    (cs_syr4_coupling_is_vol st.coupling = 0 ↔ c.cell_sel = none) ∧
    (cs_syr4_coupling_is_surf st.coupling = 1 ∨ cs_syr4_coupling_is_vol st.coupling = 1) ∧
    (∀ e, st.coupling.faces = some e → e.elt_dim = c.dim - 1) ∧
    (∀ e, st.coupling.cells = some e → e.elt_dim = c.dim) := by
  obtain ⟨hf0, hf1, hc0, hc1⟩ :=
    init_mesh_entities env c face_oracle cell_oracle net stack st hfaces hcells hok
  have h01 : ¬ ((0 : Int) = 1) := by decide
  have h10 : ¬ ((1 : Int) = 0) := by decide
  have hsurf : (cs_syr4_coupling_is_surf st.coupling = 1 ↔ c.face_sel ≠ none) ∧
      (cs_syr4_coupling_is_surf st.coupling = 0 ↔ c.face_sel = none) := by
    unfold cs_syr4_coupling_is_surf
    by_cases hf : c.face_sel = none
    · rw [hf0 hf]
      exact ⟨⟨fun h => absurd h h01, fun h => absurd hf h⟩, ⟨fun _ => hf, fun _ => rfl⟩⟩
    · obtain ⟨e, he, _⟩ := hf1 hf
      rw [he]
      exact ⟨⟨fun _ => hf, fun _ => rfl⟩, ⟨fun h => absurd h h10, fun h => absurd h hf⟩⟩
  have hvol : (cs_syr4_coupling_is_vol st.coupling = 1 ↔ c.cell_sel ≠ none) ∧
      (cs_syr4_coupling_is_vol st.coupling = 0 ↔ c.cell_sel = none) := by
    unfold cs_syr4_coupling_is_vol
    by_cases hc : c.cell_sel = none
    · rw [hc0 hc]
      exact ⟨⟨fun h => absurd h h01, fun h => absurd hc h⟩, ⟨fun _ => hc, fun _ => rfl⟩⟩
    · obtain ⟨e, he, _⟩ := hc1 hc
      rw [he]
      exact ⟨⟨fun _ => hc, fun _ => rfl⟩, ⟨fun h => absurd h h10, fun h => absurd h hc⟩⟩
  refine ⟨hsurf.1, hsurf.2, hvol.1, hvol.2, ?_, ?_, ?_⟩
  · cases hsel with
    | inl hf => exact Or.inl (hsurf.1.mpr hf)
    | inr hc => exact Or.inr (hvol.1.mpr hc)
  · intro e he
    by_cases hf : c.face_sel = none
    · rw [hf0 hf] at he
      exact Option.noConfusion he
    · obtain ⟨e1, he1, hd⟩ := hf1 hf
      rw [he1] at he
      rw [← Option.some.inj he]
      exact hd
  · intro e he
    by_cases hc : c.cell_sel = none
    · rw [hc0 hc] at he
      exact Option.noConfusion he
    · obtain ⟨e1, he1, hd⟩ := hc1 hc
      rw [he1] at he
      rw [← Option.some.inj he]
      exact hd

/-- Witness of C24: the leader of a surface-only coupling of dimension 3 with a
located surface, receiving `coupling:start`. -/
theorem init_mesh_is_surf_is_vol_witness :
    face_coupling.faces = none ∧ face_coupling.cells = none ∧
    (face_coupling.face_sel ≠ none ∨ face_coupling.cell_sel ≠ none) ∧
    cs_syr4_coupling_init_mesh leader_env face_coupling four_faces_oracle four_faces_oracle
      start_message used_stack = Handshake.ok started_face_step ∧
    (cs_syr4_coupling_is_surf started_face_step.coupling = 1 ↔ face_coupling.face_sel ≠ none) ∧
    (cs_syr4_coupling_is_surf started_face_step.coupling = 0 ↔ face_coupling.face_sel = none) ∧
    (cs_syr4_coupling_is_vol started_face_step.coupling = 1 ↔ face_coupling.cell_sel ≠ none) ∧
    (cs_syr4_coupling_is_vol started_face_step.coupling = 0 ↔ face_coupling.cell_sel = none) ∧
    (cs_syr4_coupling_is_surf started_face_step.coupling = 1
      ∨ cs_syr4_coupling_is_vol started_face_step.coupling = 1) ∧
    (∀ e, started_face_step.coupling.faces = some e → e.elt_dim = face_coupling.dim - 1) ∧
    (∀ e, started_face_step.coupling.cells = some e → e.elt_dim = face_coupling.dim) :=
  ⟨rfl, rfl, Or.inl (by decide), rfl,
    init_mesh_is_surf_is_vol leader_env face_coupling four_faces_oracle four_faces_oracle
      start_message used_stack started_face_step rfl rfl (Or.inl (by decide)) rfl⟩

/-- Evaluation of the two queries around `cs_syr4_coupling_init_mesh`: before
the call both return 0; after it a surface-only coupling answers 1 and 0, with
a surface entity of dimension 2. -/
theorem is_surf_is_vol_examples :
    cs_syr4_coupling_is_surf face_coupling = 0 ∧ cs_syr4_coupling_is_vol face_coupling = 0 ∧
    cs_syr4_coupling_is_surf started_face_step.coupling = 1 ∧
    cs_syr4_coupling_is_vol started_face_step.coupling = 0 ∧
    started_face_step.coupling.faces.map (fun e => e.elt_dim) = some 2 := by
  refine ⟨rfl, rfl, rfl, rfl, rfl⟩

/-! ## Synchronisation messages: properties -/

/-- The 32 characters put on the wire, whatever the local array held before:
the first 32 characters of the C string to send, padded with NUL. -/
theorem wire_message_from_eq (local_buf s : List Char) :
    wire_message_from local_buf s
      = (cstr s).take 32 ++ List.replicate (32 - ((cstr s).take 32).length) NUL := by
  unfold wire_message_from strncpy
  have ht : ((cstr s).take 32).length ≤ 32 := by
    rw [List.length_take]
    exact Nat.min_le_left _ _
  have h1 : ((cstr s).take 32
      ++ List.replicate (32 - ((cstr s).take 32).length) NUL).length = 32 := by
    simp only [List.length_append, List.length_replicate]
    omega
  rw [List.set_append_right _ _ (by omega), List.take_append_of_le_length (by omega),
    List.take_of_length_le (by omega)]

/-- The message on the wire has 32 characters; it is the first 32 characters of
a string of 32 characters or more, and a shorter string followed by NUL up to
32 characters. -/
theorem wire_message_from_cases (local_buf s : List Char) :
    (wire_message_from local_buf s).length = 32 ∧
    (32 ≤ (cstr s).length → wire_message_from local_buf s = (cstr s).take 32) ∧
    ((cstr s).length < 32 → wire_message_from local_buf s
      = cstr s ++ List.replicate (32 - (cstr s).length) NUL) := by
  rw [wire_message_from_eq]
  refine ⟨?_, ?_, ?_⟩
  · simp only [List.length_append, List.length_replicate, List.length_take]
    omega
  · intro h
    have hl : ((cstr s).take 32).length = 32 := by
      rw [List.length_take]
      omega
    rw [hl]
    simp
  · intro h
    rw [List.take_of_length_le (by omega)]

/-- The ready token on the wire: `coupling:start` and 18 NUL, whatever the
array `op_name_send` held before the `strcpy` of line 1341. -/
theorem start_token_on_wire (stack : TokenStack) :
    wire_message (strcpy stack.op_name_send coupling_start)
      = coupling_start ++ List.replicate 18 NUL := by
  have h := wire_message_text coupling_start (stack.op_name_send.drop 15) (by decide)
    (by decide)
  exact h

/-- With `HAVE_MPI` and a rank id other than -1, a 33-character receive buffer
has a terminator at index 32 after `_exchange_sync` (line 298). -/
theorem exchange_sync_recv_terminated {R : Type} (env : MpiEnv) (c : cs_syr4_coupling_t R)
    (net : Incoming) (snd : Option (List Char)) (rcv : List Char)
    (hmpi : env.HAVE_MPI = true) (hrank : env.cs_glob_rank_id > -1) (hr : rcv.length = 33) :
    ∃ r1 : List Char, (_exchange_sync env c net snd (some rcv)).1 = some r1 ∧
      r1.length = 33 ∧ r1[32]? = some NUL := by
  have hstore : ∀ (m : List Char), (mpi_store rcv m).length = 33 := by
    intro m
    unfold mpi_store
    have hm : (m.take 32).length ≤ 32 := by
      rw [List.length_take]
      exact Nat.min_le_left _ _
    rw [List.length_append, List.length_drop, hr]
    omega
  have hset : ∀ (l : List Char), l.length = 33 →
      (l.set 32 NUL).length = 33 ∧ (l.set 32 NUL)[32]? = some NUL := by
    intro l hl
    refine ⟨by rw [List.length_set, hl], ?_⟩
    rw [List.getElem?_set_self (by omega)]
  unfold _exchange_sync
  simp only [hmpi, Bool.true_eq_false, if_false]
  by_cases hr1 : env.cs_glob_rank_id < 1
  · have hr0 : env.cs_glob_rank_id = 0 := by omega
    cases snd with
    | none =>
      simp only [if_pos hr1, if_pos hrank, if_pos hr0]
      exact ⟨_, rfl, hset _ (hstore _)⟩
    | some s =>
      simp only [if_pos hr1, if_pos hrank, if_pos hr0]
      exact ⟨_, rfl, hset _ (hstore _)⟩
  · have hr0 : ¬ env.cs_glob_rank_id = 0 := by omega
    simp only [if_neg hr1, if_pos hrank, if_neg hr0]
    exact ⟨_, rfl, hset _ (hstore _)⟩

/-- C25 (evaluation at the failing input): in a serial run with MPI active
(rank id -1) the receive buffer of `_exchange_sync` keeps at index 32 the
character the stack array held before, here `?`: after the exchange of the
ready token index 32 is not a terminator, and a partner message of 32
characters without NUL leaves the 33-character buffer without any terminator,
so that the error of `cs_syr4_coupling_init_mesh` prints past the 32 characters
received. On rank 0 the same exchange ends with a terminator at index 32. The
message sent is `coupling:start` and 18 NUL in both runs. -/
theorem exchange_sync_serial_unterminated :
    _exchange_sync serial_env face_coupling start_message
        (some (strcpy used_stack.op_name_send coupling_start)) (some used_stack.op_name_recv)
      = (some (coupling_start ++ List.replicate 18 NUL ++ ['?']),
         [MpiCall.sendrecv (coupling_start ++ List.replicate 18 NUL) (-1)]) ∧
    (_exchange_sync serial_env face_coupling full_length_message
        (some (strcpy used_stack.op_name_send coupling_start))
        (some used_stack.op_name_recv)).1
      = some (List.replicate 32 'x' ++ ['?']) ∧
    (∃ st, cs_syr4_coupling_init_mesh serial_env face_coupling four_faces_oracle
        four_faces_oracle full_length_message used_stack
      = Handshake.fatal (Fatal.unexpected_message (List.replicate 32 'x' ++ ['?'])) st) ∧
    _exchange_sync leader_env face_coupling start_message
        (some (strcpy used_stack.op_name_send coupling_start)) (some used_stack.op_name_recv)
      = (some (coupling_start ++ List.replicate 18 NUL ++ [NUL]),
         [MpiCall.sendrecv (coupling_start ++ List.replicate 18 NUL) (-1), MpiCall.bcast 0]) := by
  refine ⟨by decide, by decide, ⟨_, rfl⟩, by decide⟩

/-- The MPI operations of `_exchange_sync` in a `HAVE_MPI` build: on a rank id
below 1 the one exchange with the SYRTHES root rank that the arguments call
for, then the broadcast from rank 0 when a receive buffer is given and the rank
id is not -1. -/
theorem exchange_sync_calls {R : Type} (env : MpiEnv) (c : cs_syr4_coupling_t R)
    (net : Incoming) (snd rcv : Option (List Char)) (hmpi : env.HAVE_MPI = true) :
    (_exchange_sync env c net snd rcv).2
      = (if env.cs_glob_rank_id < 1 then
          match snd, rcv with
          | some s, some _ => [MpiCall.sendrecv (wire_message s) c.syr_root_rank]
          | some s, none => [MpiCall.send (wire_message s) c.syr_root_rank]
          | none, some _ => [MpiCall.recv c.syr_root_rank]
          | none, none => []
        else [])
        ++ (if rcv ≠ none ∧ env.cs_glob_rank_id > -1 then [MpiCall.bcast 0] else []) := by
  unfold _exchange_sync
  simp only [hmpi, Bool.true_eq_false, if_false]
  cases snd <;> cases rcv <;> by_cases h1 : env.cs_glob_rank_id < 1 <;>
    by_cases h2 : env.cs_glob_rank_id > -1 <;> simp [h1, h2]

/-- C26: in a `HAVE_MPI` build, for every rank id and every pair of arguments,
`_exchange_sync` issues a point-to-point operation with the partner if and only
if the rank id is below 1 and one of the two arguments is non-null, and it
issues the local broadcast if and only if a receive buffer is given and the
rank id is above -1; on a rank id of 1 or more no operation is point-to-point. -/
theorem exchange_sync_leader_only {R : Type} (env : MpiEnv) (c : cs_syr4_coupling_t R)
    (net : Incoming) (snd rcv : Option (List Char)) (hmpi : env.HAVE_MPI = true) :
    ((∃ m ∈ (_exchange_sync env c net snd rcv).2, m.point_to_point = true) ↔
      (env.cs_glob_rank_id < 1 ∧ (snd ≠ none ∨ rcv ≠ none))) ∧
    ((∃ m ∈ (_exchange_sync env c net snd rcv).2, m.broadcast = true) ↔
      (rcv ≠ none ∧ env.cs_glob_rank_id > -1)) ∧
    (env.cs_glob_rank_id ≥ 1 →
      ∀ m ∈ (_exchange_sync env c net snd rcv).2, m.point_to_point = false) := by
  rw [exchange_sync_calls env c net snd rcv hmpi]
  cases snd <;> cases rcv <;> by_cases h1 : env.cs_glob_rank_id < 1 <;>
    by_cases h2 : env.cs_glob_rank_id > -1 <;>
    simp [h1, h2, MpiCall.point_to_point, MpiCall.broadcast]

/-- Witness of C26: the exchange of the ready token on rank 0 of two. -/
theorem exchange_sync_leader_only_witness :
    leader_env.HAVE_MPI = true ∧
    ((∃ m ∈ (_exchange_sync leader_env face_coupling start_message
          (some coupling_start) (some used_stack.op_name_recv)).2,
        m.point_to_point = true) ↔
      (leader_env.cs_glob_rank_id < 1 ∧
        (some coupling_start ≠ none ∨ some used_stack.op_name_recv ≠ none))) ∧
    ((∃ m ∈ (_exchange_sync leader_env face_coupling start_message
          (some coupling_start) (some used_stack.op_name_recv)).2,
        m.broadcast = true) ↔
      (some used_stack.op_name_recv ≠ none ∧ leader_env.cs_glob_rank_id > -1)) ∧
    (leader_env.cs_glob_rank_id ≥ 1 →
      ∀ m ∈ (_exchange_sync leader_env face_coupling start_message
          (some coupling_start) (some used_stack.op_name_recv)).2,
        m.point_to_point = false) :=
  ⟨rfl, exchange_sync_leader_only leader_env face_coupling start_message
    (some coupling_start) (some used_stack.op_name_recv) rfl⟩

/-- Evaluation of the operations of `_exchange_sync` for the ready token: rank
0 exchanges with the partner and broadcasts, rank 1 only takes part in the
broadcast, a serial run only exchanges with the partner, and a send without
receive buffer on rank 0 is a plain send without broadcast. -/
theorem exchange_sync_calls_examples :
    (_exchange_sync leader_env face_coupling start_message (some coupling_start)
        (some used_stack.op_name_recv)).2
      = [MpiCall.sendrecv (coupling_start ++ List.replicate 18 NUL) (-1), MpiCall.bcast 0] ∧
    (_exchange_sync follower_env face_coupling start_message (some coupling_start)
        (some used_stack.op_name_recv)).2 = [MpiCall.bcast 0] ∧
    (_exchange_sync serial_env face_coupling start_message (some coupling_start)
        (some used_stack.op_name_recv)).2
      = [MpiCall.sendrecv (coupling_start ++ List.replicate 18 NUL) (-1)] ∧
    (_exchange_sync leader_env face_coupling start_message (some coupling_start) none).2
      = [MpiCall.send (coupling_start ++ List.replicate 18 NUL) (-1)] ∧
    (_exchange_sync follower_env face_coupling start_message (some coupling_start) none).2
      = [] := by
  refine ⟨by decide, by decide, by decide, by decide, by decide⟩

/-! ## Conservativity: the flux sum -/

theorem getElem?_eq_some_getD {α : Type} (l : List α) (i : Nat) (d : α) (h : i < l.length) :
    l[i]? = some (l.getD i d) := by
  rw [List.getD_eq_getElem?_getD, List.getElem?_eq_getElem h]
  rfl

/-- The loop of lines 989-992 with every access in bounds: the accumulator
receives the terms `flux[j] * surf[coupl_face_list[j] - 1]` in index order. -/
theorem flux_sum_loop_spec {R : Type} [Zero R] [Add R] [Mul R] (flux surf : List R)
    (L : List Int) :
    ∀ (k ii : Nat) (acc : R), ii + k ≤ flux.length → ii + k ≤ L.length →
      (∀ j, ii ≤ j → j < ii + k → 1 ≤ L.getD j 0 ∧ L.getD j 0 ≤ (surf.length : Int)) →
      flux_sum_loop flux surf L k ii acc
        = some ((List.range' ii k).foldl (fun a j => a + flux_term flux surf L j) acc) := by
  intro k
  induction k with
  | zero =>
    intro ii acc _ _ _
    rfl
  | succ k ih =>
    intro ii acc hfl hL hr
    have hLi : L[ii]? = some (L.getD ii 0) := getElem?_eq_some_getD L ii 0 (by omega)
    have hFi : flux[ii]? = some (flux.getD ii 0) := getElem?_eq_some_getD flux ii 0 (by omega)
    obtain ⟨hlo, hhi⟩ := hr ii (Nat.le_refl ii) (by omega)
    have hneg : ¬ (L.getD ii 0 - 1 < 0) := by omega
    have hSi : surf[(L.getD ii 0 - 1).toNat]?
        = some (surf.getD (L.getD ii 0 - 1).toNat 0) :=
      getElem?_eq_some_getD surf _ 0 (by omega)
    unfold flux_sum_loop
    simp only [hLi, hFi, if_neg hneg, hSi]
    rw [ih (ii + 1) _ (by omega) (by omega) (fun j h1 h2 => hr j (by omega) (by omega))]
    rw [List.range'_succ, List.foldl_cons]
    rfl

/-- What `_ensure_conservativity` computes when the flux array of the surface
entity, the face areas and the list of coupled faces cover the `n_elts` coupled
faces: the local sum in index order, the global flux of a single-process run,
and the operations of the process that talks to SYRTHES. -/
theorem ensure_conservativity_flux {R : Type} [Zero R] [Add R] [Mul R] (env : MpiEnv)
    (fenv : FluxEnv R) (c : cs_syr4_coupling_t R) (ent : cs_syr4_coupling_ent_t R)
    (flux surf : List R) (L : List Int)
    (hent : c.faces = some ent) (hflux : ent.flux = some flux)
    (hsurf : fenv.b_face_surf = some surf)
    (hfl : ent.n_elts ≤ flux.length) (hL : ent.n_elts ≤ L.length)
    (hrange : ∀ j, j < ent.n_elts → 1 ≤ L.getD j 0 ∧ L.getD j 0 ≤ (surf.length : Int)) :
    ∃ cr, _ensure_conservativity env fenv c (some L) = some cr ∧
      cr._flux = (List.range ent.n_elts).foldl (fun a j => a + flux_term flux surf L j) 0 ∧
      (env.cs_glob_n_ranks = 1 → cr.g_flux = cr._flux) ∧
      (env.HAVE_MPI = true → env.cs_glob_rank_id < 1 → env.cs_glob_n_ranks = 1 →
        cr.calls = [FluxCall.send cr._flux c.syr_root_rank,
          FluxCall.recv c.syr_root_rank]) := by
  have hsum := flux_sum_loop_spec flux surf L ent.n_elts 0 0 (by omega) (by omega)
    (fun j _ h2 => hrange j (by omega))
  rw [← List.range_eq_range'] at hsum
  unfold _ensure_conservativity
  simp only [hsurf, hent, hflux, Option.getD_some, hsum]
  by_cases hlead : env.HAVE_MPI = true ∧ env.cs_glob_rank_id < 1
  · rw [if_pos hlead]
    refine ⟨_, rfl, rfl, ?_, ?_⟩
    · intro h1
      simp only [if_pos h1]
    · intro _ _ h1
      have hnot : ¬ (env.HAVE_MPI = true ∧ env.cs_glob_n_ranks > 1) := by
        intro hc
        omega
      simp only [if_pos h1, if_neg hnot, List.nil_append]
  · rw [if_neg hlead]
    refine ⟨_, rfl, rfl, ?_, ?_⟩
    · intro h1
      simp only [if_pos h1]
    · intro h1 h2 _
      exact absurd ⟨h1, h2⟩ hlead

/-- C27: for a surface entity of `n_elts` coupled faces with a flux array, an
array of face areas and a 1-based list of coupled faces whose entries lie within
the boundary faces, `_ensure_conservativity` reaches its end; its local sum is
the sum over `0 ≤ i < n_elts` of `flux[i] * surf[L[i] - 1]`, accumulated from 0
in index order with the operations of the value type; in a single-process run
the global flux is that sum, and it is the value sent to SYRTHES, followed by
the reception of the coefficient. -/
theorem ensure_conservativity_local_sum {R : Type} [Zero R] [Add R] [Mul R] (env : MpiEnv)
    (fenv : FluxEnv R) (c : cs_syr4_coupling_t R) (ent : cs_syr4_coupling_ent_t R)
    (flux surf : List R) (L : List Int)
    (hent : c.faces = some ent) (hflux : ent.flux = some flux)
    (hsurf : fenv.b_face_surf = some surf)
    (hfl : ent.n_elts ≤ flux.length) (hL : ent.n_elts ≤ L.length)
    (hrange : ∀ j, j < ent.n_elts → 1 ≤ L.getD j 0 ∧ L.getD j 0 ≤ (surf.length : Int)) :
    ∃ cr, _ensure_conservativity env fenv c (some L) = some cr ∧
      cr._flux = (List.range ent.n_elts).foldl (fun a j => a + flux_term flux surf L j) 0 ∧
      (env.cs_glob_n_ranks = 1 → cr.g_flux = cr._flux) ∧
      (env.HAVE_MPI = true → env.cs_glob_rank_id < 1 → env.cs_glob_n_ranks = 1 →
        cr.calls = [FluxCall.send cr._flux c.syr_root_rank,
          FluxCall.recv c.syr_root_rank]) :=
  ensure_conservativity_flux env fenv c ent flux surf L hent hflux hsurf hfl hL hrange

/-- Witness of C27: a serial run, four coupled faces with fluxes 3, -1, 4, 2 on
the boundary faces 5, 1, 2, 4 of areas 5, 1, 2, 4. -/
theorem ensure_conservativity_local_sum_witness :
    flux_run_coupling.faces = some flux_faces ∧ flux_faces.flux = some [3, -1, 4, 2] ∧
    graded_faces_env.b_face_surf = some [1, 2, 3, 4, 5] ∧
    ∃ cr, _ensure_conservativity serial_env graded_faces_env flux_run_coupling
        (some [5, 1, 2, 4]) = some cr ∧
      cr._flux = (List.range flux_faces.n_elts).foldl
        (fun a j => a + flux_term [3, -1, 4, 2] [1, 2, 3, 4, 5] [5, 1, 2, 4] j) 0 ∧
      (serial_env.cs_glob_n_ranks = 1 → cr.g_flux = cr._flux) ∧
      (serial_env.HAVE_MPI = true → serial_env.cs_glob_rank_id < 1 →
        serial_env.cs_glob_n_ranks = 1 →
        cr.calls = [FluxCall.send cr._flux flux_run_coupling.syr_root_rank,
          FluxCall.recv flux_run_coupling.syr_root_rank]) :=
  ⟨rfl, rfl, rfl,
    ensure_conservativity_local_sum serial_env graded_faces_env flux_run_coupling flux_faces
      [3, -1, 4, 2] [1, 2, 3, 4, 5] [5, 1, 2, 4] rfl rfl rfl (by decide) (by decide)
      (by
        intro j hj
        have hj4 : j < 4 := hj
        interval_cases j <;> decide)⟩

/-- Evaluation of `_ensure_conservativity` at the input of the witness: the
local sum is 3·5 − 1·1 + 4·2 + 2·4 = 30, sent as the global flux. -/
theorem ensure_conservativity_example :
    _ensure_conservativity serial_env graded_faces_env flux_run_coupling (some [5, 1, 2, 4])
      = some { _flux := 30, g_flux := 30, coef := 1
               calls := [FluxCall.send 30 (-1), FluxCall.recv (-1)] } := by
  rfl

/-- In exact arithmetic the accumulation in index order is the finite sum. -/
theorem foldl_add_eq_sum {R : Type} [Semiring R] (f : Nat → R) (n : Nat) :
    (List.range n).foldl (fun a j => a + f j) 0 = ∑ j in Finset.range n, f j := by
  induction n with
  | zero => rfl
  | succ n ih =>
    rw [List.range_succ, List.foldl_append, ih, Finset.sum_range_succ]
    rfl

/-- The local sum of `_ensure_conservativity` over a semiring of values: the
sum of the terms `flux[i] * surf[L[i] - 1]` for `i` below `n_elts`. -/
theorem ensure_conservativity_exact_sum {R : Type} [Semiring R] (env : MpiEnv)
    (fenv : FluxEnv R) (c : cs_syr4_coupling_t R) (ent : cs_syr4_coupling_ent_t R)
    (flux surf : List R) (L : List Int)
    (hent : c.faces = some ent) (hflux : ent.flux = some flux)
    (hsurf : fenv.b_face_surf = some surf)
    (hfl : ent.n_elts ≤ flux.length) (hL : ent.n_elts ≤ L.length)
    (hrange : ∀ j, j < ent.n_elts → 1 ≤ L.getD j 0 ∧ L.getD j 0 ≤ (surf.length : Int)) :
    ∃ cr, _ensure_conservativity env fenv c (some L) = some cr ∧
      cr._flux = ∑ j in Finset.range ent.n_elts, flux_term flux surf L j := by
  obtain ⟨cr, h1, h2, _⟩ :=
    ensure_conservativity_flux env fenv c ent flux surf L hent hflux hsurf hfl hL hrange
  exact ⟨cr, h1, by rw [h2, foldl_add_eq_sum]⟩

/-! ## Projection to 2D: properties -/

/-- The matrix of lines 596-604 applied to a point keeps the two coordinates
other than the reference axis, in increasing axis order. -/
theorem projection_matrix_apply {R : Type} [Semiring R] (stack_a : List R) (x0 x1 x2 : R) :
    project_coords (projection_matrix stack_a 0) (x0, x1, x2) = some (x1, x2) ∧
    project_coords (projection_matrix stack_a 1) (x0, x1, x2) = some (x0, x2) ∧
    project_coords (projection_matrix stack_a 2) (x0, x1, x2) = some (x0, x1) := by
  refine ⟨?_, ?_, ?_⟩ <;> simp [projection_matrix, project_coords]

/-- C28: for a coupling of dimension 2 whose reference axis is 0, 1 or 2, the
array `a` built by `_create_coupled_ent`, read as a 2×3 matrix stored by rows,
maps a point `(x0, x1, x2)` to its two coordinates other than the reference
axis in increasing axis order, whatever the array held before. When the
projection of the extracted mesh reports no error, `fvm_nodal_project_coords`
is called once, with that matrix, on the copy made by `fvm_nodal_copy`, never
on the extracted mesh of the entity; the copy is the mesh given to the locator
and is destroyed at the end, the extracted mesh is not. -/
theorem projection_matrix_drops_ref_axis {R : Type} [Semiring R] (c : cs_syr4_coupling_t R)
    (stack_a : List R) (o : MeshOracle R) (x0 x1 x2 : R) (n_elts : Nat)
    (hdim : c.dim = 2) (haxis : c.ref_axis = 0 ∨ c.ref_axis = 1 ∨ c.ref_axis = 2)
    (herr : ¬ o.n_errors > 0) :
    project_coords (projection_matrix stack_a c.ref_axis) (x0, x1, x2)
      = some (if c.ref_axis = 0 then (x1, x2) else if c.ref_axis = 1 then (x0, x2)
          else (x0, x1)) ∧
    project_location_elts c stack_a o
      = Outcome.ok
          (NodalMesh.copied,
           [NodalCall.project NodalMesh.extracted c.ref_axis,
            NodalCall.copy NodalMesh.extracted,
            NodalCall.project_coords NodalMesh.copied
              (projection_matrix stack_a c.ref_axis)]) ∧
    (∀ (mesh : NodalMesh) (a : List R) (st : NodalMesh × List (NodalCall R)),
      project_location_elts c stack_a o = Outcome.ok st →
      NodalCall.project_coords mesh a ∈ st.2 ++ locate_elts_calls R st.1 n_elts →
      mesh = NodalMesh.copied ∧ a = projection_matrix stack_a c.ref_axis) ∧
    NodalCall.locator_set_mesh NodalMesh.copied ∈ locate_elts_calls R NodalMesh.copied n_elts ∧
    NodalCall.destroy NodalMesh.copied ∈ locate_elts_calls R NodalMesh.copied n_elts ∧
    NodalCall.destroy NodalMesh.extracted ∉ locate_elts_calls R NodalMesh.copied n_elts := by
  have hrun : project_location_elts c stack_a o
      = Outcome.ok
          (NodalMesh.copied,
           [NodalCall.project NodalMesh.extracted c.ref_axis,
            NodalCall.copy NodalMesh.extracted,
            NodalCall.project_coords NodalMesh.copied
              (projection_matrix stack_a c.ref_axis)]) := by
    unfold project_location_elts
    rw [if_pos hdim, if_neg herr]
  obtain ⟨h0, h1, h2⟩ := projection_matrix_apply stack_a x0 x1 x2
  refine ⟨?_, hrun, ?_, ?_, ?_, ?_⟩
  · rcases haxis with h | h | h
    · rw [h, h0]
      rfl
    · rw [h, h1]
      rfl
    · rw [h, h2]
      rfl
  · intro mesh a st hst hmem
    rw [hrun] at hst
    rw [← Outcome.ok.inj hst] at hmem
    unfold locate_elts_calls at hmem
    by_cases hn : n_elts > 0
    · simp [hn] at hmem
      exact hmem
    · simp [hn] at hmem
      exact hmem
  · unfold locate_elts_calls
    simp
  · unfold locate_elts_calls
    simp
  · unfold locate_elts_calls
    by_cases hn : n_elts > 0 <;> simp [hn]

/-- Witness of C28: a coupling of dimension 2 with reference axis 1, the point
`(7, 8, 9)`, and a local array holding six leftover values. -/
theorem projection_matrix_drops_ref_axis_witness :
    planar_coupling.dim = 2 ∧
    (planar_coupling.ref_axis = 0 ∨ planar_coupling.ref_axis = 1
      ∨ planar_coupling.ref_axis = 2) ∧
    ¬ four_faces_oracle.n_errors > 0 ∧
    project_coords (projection_matrix [5, 5, 5, 5, 5, 5] planar_coupling.ref_axis) (7, 8, 9)
      = some (if planar_coupling.ref_axis = 0 then ((8 : Int), (9 : Int))
          else if planar_coupling.ref_axis = 1 then (7, 9) else (7, 8)) ∧
    project_location_elts planar_coupling [5, 5, 5, 5, 5, 5] four_faces_oracle
      = Outcome.ok
          (NodalMesh.copied,
           [NodalCall.project NodalMesh.extracted planar_coupling.ref_axis,
            NodalCall.copy NodalMesh.extracted,
            NodalCall.project_coords NodalMesh.copied
              (projection_matrix [5, 5, 5, 5, 5, 5] planar_coupling.ref_axis)]) ∧
    (∀ (mesh : NodalMesh) (a : List Int) (st : NodalMesh × List (NodalCall Int)),
      project_location_elts planar_coupling [5, 5, 5, 5, 5, 5] four_faces_oracle
        = Outcome.ok st →
      NodalCall.project_coords mesh a ∈ st.2 ++ locate_elts_calls Int st.1 4 →
      mesh = NodalMesh.copied
        ∧ a = projection_matrix [5, 5, 5, 5, 5, 5] planar_coupling.ref_axis) ∧
    NodalCall.locator_set_mesh NodalMesh.copied ∈ locate_elts_calls Int NodalMesh.copied 4 ∧
    NodalCall.destroy NodalMesh.copied ∈ locate_elts_calls Int NodalMesh.copied 4 ∧
    NodalCall.destroy NodalMesh.extracted ∉ locate_elts_calls Int NodalMesh.copied 4 :=
  ⟨rfl, Or.inr (Or.inl rfl), by decide,
    projection_matrix_drops_ref_axis planar_coupling [5, 5, 5, 5, 5, 5] four_faces_oracle
      7 8 9 4 rfl (Or.inr (Or.inl rfl)) (by decide)⟩

/-- Evaluation of the projection on integer points: each reference axis drops
its own coordinate; a coupling of dimension 3 leaves the extracted mesh as the
mesh used for location and applies no projection; with a reference axis other
than 0, 1 and 2 the array passed is the leftover content of the stack. -/
theorem projection_examples :
    project_coords (projection_matrix ([] : List Int) 0) (7, 8, 9) = some (8, 9) ∧
    project_coords (projection_matrix ([] : List Int) 1) (7, 8, 9) = some (7, 9) ∧
    project_coords (projection_matrix ([] : List Int) 2) (7, 8, 9) = some (7, 8) ∧
    project_location_elts face_coupling [5, 5, 5, 5, 5, 5] four_faces_oracle
      = Outcome.ok (NodalMesh.extracted, []) ∧
    locate_elts_calls Int NodalMesh.extracted 4
      = [NodalCall.get_element_centers NodalMesh.extracted,
         NodalCall.locator_set_mesh NodalMesh.extracted] ∧
    projection_matrix ([5, 5, 5, 5, 5, 5] : List Int) 3 = [5, 5, 5, 5, 5, 5] := by
  refine ⟨rfl, rfl, rfl, rfl, rfl, rfl⟩

/-! ## Calls on an absent entity -/

/-- When the entity is absent: an instance as `cs_syr4_coupling_add` builds it
has no entity for either mode before `cs_syr4_coupling_init_mesh`; after a
normal return of `cs_syr4_coupling_init_mesh` the surface entity is absent
without face criterion and the volume entity without cell criterion. -/
theorem entity_absent_cases {R : Type} (dim ref_axis : Int)
    (face cell name : Option String) (verbosity visualization : Int) (mode : Int)
    (env : MpiEnv) (c : cs_syr4_coupling_t R) (face_oracle cell_oracle : MeshOracle R)
    (net : Incoming) (stack : TokenStack) (st : Step R)
    (hfaces : c.faces = none) (hcells : c.cells = none)
    (hok : cs_syr4_coupling_init_mesh env c face_oracle cell_oracle net stack
      = Handshake.ok st) :
    coupling_ent_of (new_coupling R dim ref_axis face cell name verbosity visualization) mode
      = none ∧
    (c.face_sel = none → coupling_ent_of st.coupling 0 = none) ∧
    (c.cell_sel = none → coupling_ent_of st.coupling 1 = none) := by
  obtain ⟨hf0, _, hc0, _⟩ :=
    init_mesh_entities env c face_oracle cell_oracle net stack st hfaces hcells hok
  refine ⟨?_, ?_, ?_⟩
  · unfold coupling_ent_of new_coupling
    split <;> rfl
  · intro hf
    unfold coupling_ent_of
    rw [if_pos rfl]
    exact hf0 hf
  · intro hc
    unfold coupling_ent_of
    rw [if_neg (by decide)]
    exact hc0 hc

/-- C29: when the entity for the mode asked (0 or 1) is absent,
`cs_syr4_coupling_recv_tsolid` returns with the instance and the caller's array
as they were and no call of the locator; `cs_syr4_coupling_send_tf_hf` returns
with the instance as it was, no call of the locator and no call of
`_ensure_conservativity`, whatever the conservativity flag;
`cs_syr4_coupling_get_n_elts` returns 0. -/
theorem absent_entity_no_exchange {R : Type} [Zero R] [Add R] [Mul R]
    (fp : SinglePrecision R) (env : MpiEnv) (fenv : FluxEnv R) (g : Globals R)
    (c : cs_syr4_coupling_t R) (cpl_elt_lst : Option (List Int))
    (tsolid arrived tf hf : List R) (mode : Int) (fresh : Nat → R)
    (hm : mode = 0 ∨ mode = 1) (habs : coupling_ent_of c mode = none) :
    cs_syr4_coupling_recv_tsolid fp c tsolid arrived mode
      = some { coupling := c, tsolid := tsolid, calls := [] } ∧
    cs_syr4_coupling_send_tf_hf fp env fenv g c cpl_elt_lst tf hf mode fresh
      = some { coupling := c, calls := [], conservativity := none } ∧
    cs_syr4_coupling_get_n_elts c mode = some 0 := by
  refine ⟨?_, ?_, ?_⟩
  · unfold cs_syr4_coupling_recv_tsolid
    rw [if_neg (not_not.mpr hm), habs]
  · unfold cs_syr4_coupling_send_tf_hf
    rw [if_neg (not_not.mpr hm), habs]
  · unfold cs_syr4_coupling_get_n_elts
    rw [if_neg (not_not.mpr hm), habs]

/-- Witness of C29: the volume mode on a surface-only coupling after
`cs_syr4_coupling_init_mesh`, with the conservativity flag set to 1. -/
theorem absent_entity_no_exchange_witness :
    ((1 : Int) = 0 ∨ (1 : Int) = 1) ∧ coupling_ent_of surface_run_coupling 1 = none ∧
    cs_syr4_coupling_recv_tsolid integer_single surface_run_coupling [1, 2, 3, 4]
        [300, 310, 320, 330] 1
      = some { coupling := surface_run_coupling, tsolid := [1, 2, 3, 4], calls := [] } ∧
    cs_syr4_coupling_send_tf_hf integer_single leader_env five_faces_env
        (cs_syr4_coupling_set_conservativity (Globals.start Int) 1) surface_run_coupling
        (some [1, 2, 3, 5]) [10, 20, 30, 40] [1, 2, 3, 4] 1 (fun _ => 0)
      = some { coupling := surface_run_coupling, calls := [], conservativity := none } ∧
    cs_syr4_coupling_get_n_elts surface_run_coupling 1 = some 0 :=
  ⟨Or.inr rfl, rfl,
    absent_entity_no_exchange integer_single leader_env five_faces_env
      (cs_syr4_coupling_set_conservativity (Globals.start Int) 1) surface_run_coupling
      (some [1, 2, 3, 5]) [1, 2, 3, 4] [300, 310, 320, 330] [10, 20, 30, 40] [1, 2, 3, 4] 1
      (fun _ => 0) (Or.inr rfl) rfl⟩

/-- Evaluation around C29: before `cs_syr4_coupling_init_mesh` the surface mode
of a surface coupling does nothing either, with conservativity enabled; once
the entity exists the same calls do exchange, and the element count is 4. -/
theorem absent_entity_examples :
    cs_syr4_coupling_send_tf_hf integer_single leader_env five_faces_env
        (cs_syr4_coupling_set_conservativity (Globals.start Int) 1) visual_face_coupling
        (some [1, 2, 3, 5]) [10, 20, 30, 40] [1, 2, 3, 4] 0 (fun _ => 0)
      = some { coupling := visual_face_coupling, calls := [], conservativity := none } ∧
    cs_syr4_coupling_get_n_elts visual_face_coupling 0 = some 0 ∧
    cs_syr4_coupling_get_n_elts surface_run_coupling 0 = some 4 ∧
    cs_syr4_coupling_get_n_elts surface_run_coupling 2 = none ∧
    (cs_syr4_coupling_recv_tsolid integer_single surface_run_coupling [1, 2, 3, 4]
        [300, 310, 320, 330] 0).map (fun r => (r.tsolid, r.calls))
      = some ([300, 310, 320, 330], [LocatorCall.receive]) := by
  refine ⟨rfl, rfl, rfl, rfl, rfl⟩

/-! ## Conservativity: what is announced and what is done -/

/-- The conservativity character of the negotiation token is `1` exactly when
the flag given to `cs_syr4_coupling_set_conservativity` is not 0 (line 1273),
and `0` otherwise. -/
theorem conservativity_flag_set {R : Type} (g : Globals R) (flag : Int) :
    (conservativity_flag (cs_syr4_coupling_set_conservativity g flag) = '1' ↔ flag ≠ 0) ∧
    (conservativity_flag (cs_syr4_coupling_set_conservativity g flag) = '0' ↔ flag = 0) := by
  unfold conservativity_flag cs_syr4_coupling_set_conservativity
  have h01 : ¬ ('0' = '1') := by decide
  have h10 : ¬ ('1' = '0') := by decide
  by_cases h : flag = 0
  · rw [if_pos h]
    exact ⟨⟨fun hc => absurd hc h01, fun hc => absurd h hc⟩, ⟨fun _ => h, fun _ => rfl⟩⟩
  · rw [if_neg h]
    exact ⟨⟨fun _ => h, fun _ => rfl⟩, ⟨fun hc => absurd hc h10, fun hc => absurd hc h⟩⟩

/-- The character at index 16 of the negotiation token is the conservativity
character. -/
theorem init_comm_token_index_16 {R : Type} (g : Globals R) (c : cs_syr4_coupling_t R)
    (stack : TokenStack) :
    (init_comm_token g c stack)[16]? = some (conservativity_flag g) := by
  unfold init_comm_token sprintf_type strcpy
  rfl

/-- A call of `cs_syr4_coupling_send_tf_hf` in mode 0 on an instance with a
surface entity, when it reaches its end, has called `_ensure_conservativity`
exactly when the flag given to `cs_syr4_coupling_set_conservativity` is
positive (line 1597). -/
theorem send_tf_hf_performed_iff {R : Type} [Zero R] [Add R] [Mul R]
    (fp : SinglePrecision R) (env : MpiEnv) (fenv : FluxEnv R) (g : Globals R) (flag : Int)
    (c : cs_syr4_coupling_t R) (cpl_elt_lst : Option (List Int)) (tf hf : List R)
    (fresh : Nat → R) (run : SendRun R) (hfaces : c.faces ≠ none)
    (h : cs_syr4_coupling_send_tf_hf fp env fenv (cs_syr4_coupling_set_conservativity g flag) c
      cpl_elt_lst tf hf 0 fresh = some run) :
    run.conservativity ≠ none ↔ 0 < flag := by
  unfold cs_syr4_coupling_send_tf_hf at h
  rw [if_neg (not_not.mpr (Or.inl rfl))] at h
  have hent : coupling_ent_of c 0 = c.faces := by
    unfold coupling_ent_of
    rw [if_pos rfl]
  rw [hent] at h
  cases hfc : c.faces with
  | none => exact absurd hfc hfaces
  | some ent =>
    rw [hfc] at h
    simp only [] at h
    split at h
    · cases h
    · split at h
      · cases h
      · split at h
        · cases h
        · split at h
          · rename_i hcond
            rw [← Option.some.inj h]
            exact ⟨fun _ => hcond.1, fun _ => by simp⟩
          · rename_i hcond
            rw [← Option.some.inj h]
            exact ⟨fun hh => absurd rfl hh, fun hh => absurd ⟨hh, trivial⟩ hcond⟩

/-- C30 (evaluation at the failing input): after
`cs_syr4_coupling_set_conservativity (-1)` the negotiation token of a surface
coupling carries `1` at index 16 and is sent so by `cs_syr4_coupling_init_comm`,
which returns normally; `cs_syr4_coupling_send_tf_hf` in mode 0 on the existing
surface entity then sends the fluid values and never calls
`_ensure_conservativity`. With the flag set to 1 the same token is followed by
the round-trip, and with 0 the token carries `0` and no round-trip is made. -/
theorem negative_flag_announced_not_performed :
    (init_comm_token (cs_syr4_coupling_set_conservativity (Globals.start Int) (-1))
        visual_face_coupling used_stack)[16]? = some '1' ∧
    (∃ st, cs_syr4_coupling_init_comm leader_env
        (cs_syr4_coupling_set_conservativity (Globals.start Int) (-1)) visual_face_coupling
        2 1 surface_only_message used_stack = Handshake.ok st ∧
      st.calls = [MpiCall.intracomm_create 2,
        MpiCall.sendrecv (coupling_type ++ ['b', ' ', '1'] ++ List.replicate 15 NUL) 2,
        MpiCall.bcast 0]) ∧
    (∃ run, cs_syr4_coupling_send_tf_hf integer_single leader_env five_faces_env
        (cs_syr4_coupling_set_conservativity (Globals.start Int) (-1)) surface_run_coupling
        (some [1, 2, 3, 5]) [10, 20, 30, 40] [1, 2, 3, 4] 0 (fun _ => 0) = some run ∧
      run.calls = [LocatorCall.send [10, 1, 40, 4, 20, 2]] ∧
      run.conservativity = none) ∧
    ((init_comm_token (cs_syr4_coupling_set_conservativity (Globals.start Int) 1)
        visual_face_coupling used_stack)[16]? = some '1' ∧
      (cs_syr4_coupling_send_tf_hf integer_single leader_env five_faces_env
        (cs_syr4_coupling_set_conservativity (Globals.start Int) 1) surface_run_coupling
        (some [1, 2, 3, 5]) [10, 20, 30, 40] [1, 2, 3, 4] 0 (fun _ => 0)).map
          (fun run => run.conservativity.map (fun r => r.map (fun cr => cr.calls)))
        = some (some (some [FluxCall.reduce (-600), FluxCall.send 0 (-1),
            FluxCall.recv (-1)]))) ∧
    ((init_comm_token (cs_syr4_coupling_set_conservativity (Globals.start Int) 0)
        visual_face_coupling used_stack)[16]? = some '0' ∧
      (cs_syr4_coupling_send_tf_hf integer_single leader_env five_faces_env
        (cs_syr4_coupling_set_conservativity (Globals.start Int) 0) surface_run_coupling
        (some [1, 2, 3, 5]) [10, 20, 30, 40] [1, 2, 3, 4] 0 (fun _ => 0)).map
          (fun run => run.conservativity) = some none) := by
  refine ⟨rfl, ⟨_, rfl, rfl⟩, ⟨_, rfl, rfl, rfl⟩, ⟨rfl, rfl⟩, ⟨rfl, rfl⟩⟩

/-! ## Conservativity without post-processing -/

/-- On a surface entity with coupled faces and no `flux` array,
`_ensure_conservativity` never reaches its end: either an `assert` fails or the
first iteration of the loop of line 989 reads `flux[0]` through the null
pointer. No MPI operation is issued. -/
theorem ensure_conservativity_without_flux {R : Type} [Zero R] [Add R] [Mul R]
    (env : MpiEnv) (fenv : FluxEnv R) (c : cs_syr4_coupling_t R)
    (ent : cs_syr4_coupling_ent_t R) (coupl_face_list : Option (List Int))
    (hent : c.faces = some ent) (hflux : ent.flux = none) (hn : 0 < ent.n_elts) :
    _ensure_conservativity env fenv c coupl_face_list = none := by
  unfold _ensure_conservativity
  cases hs : fenv.b_face_surf with
  | none => rfl
  | some surf =>
    cases hl : coupl_face_list with
    | none => rfl
    | some face_list =>
      simp only [hent, hflux, Option.getD_none]
      obtain ⟨k, hk⟩ : ∃ k, ent.n_elts = k + 1 := ⟨ent.n_elts - 1, by omega⟩
      rw [hk]
      unfold flux_sum_loop
      cases face_list[0]? <;> rfl

/-- C17 (evaluation at the failing input): a surface coupling added without
visualization output has, after `cs_syr4_coupling_init_mesh`, a surface entity
of four faces with no `flux` array (line 409 is reached only through line 621).
With the flag set to 1, `cs_syr4_coupling_send_tf_hf` in mode 0 sends the fluid
values and calls `_ensure_conservativity`, which stops at its first read of
`flux` before any `MPI_Send` or `MPI_Recv`, on the leader of a parallel run as
in a serial run: the round-trip is not performed although the mode is 0, the
surface entity exists and conservativity is enabled. On the same coupling added
with visualization output the call completes with the emission of the global
flux and the reception of the coefficient. -/
theorem send_tf_hf_round_trip_needs_flux :
    cs_syr4_coupling_init_mesh leader_env face_coupling four_faces_oracle four_faces_oracle
      start_message used_stack = Handshake.ok started_face_step ∧
    plain_run_coupling.faces.map (fun e => (e.n_elts, e.post_mesh_id, e.flux))
      = some (4, 0, none) ∧
    cs_syr4_coupling_send_tf_hf integer_single leader_env five_faces_env
        (cs_syr4_coupling_set_conservativity (Globals.start Int) 1) plain_run_coupling
        (some [1, 2, 3, 5]) [10, 20, 30, 40] [1, 2, 3, 4] 0 (fun _ => 0)
      = some { coupling := plain_run_coupling
               calls := [LocatorCall.send [10, 1, 40, 4, 20, 2]]
               conservativity := some none } ∧
    _ensure_conservativity leader_env five_faces_env plain_run_coupling (some [1, 2, 3, 5])
      = none ∧
    _ensure_conservativity serial_env five_faces_env plain_run_coupling (some [1, 2, 3, 5])
      = none ∧
    (cs_syr4_coupling_send_tf_hf integer_single leader_env five_faces_env
        (cs_syr4_coupling_set_conservativity (Globals.start Int) 1) surface_run_coupling
        (some [1, 2, 3, 5]) [10, 20, 30, 40] [1, 2, 3, 4] 0 (fun _ => 0)).map
          (fun run => run.conservativity)
      = some (some (some
          { _flux := -600, g_flux := 0, coef := 1
            calls := [FluxCall.reduce (-600), FluxCall.send 0 (-1), FluxCall.recv (-1)] })) := by
  refine ⟨rfl, rfl, rfl, rfl, rfl, rfl⟩

end Syr4
